import Mathlib

/-!
sistema-teste: the spreadsheet combine engine, its preview, the structure
analysis and the export.

A shallow embedding of `src/src/services/planilhaService.js` (class
`PlanilhaService`: `_processarValor`, `combinarPlanilhas`, `gerarPreview`,
`_detectarTipoColuna`, `_extrairExemplos`, `_detectarSeparadorCSV`, the readers
`_processarCSV`, `_processarExcel`, `_carregarDadosCompletos`,
`analisarPlanilha`, `analisarEstrutura`), of
`src/src/services/exportService.js` (class `ExportService`:
`_escaparValorCSV`, `exportarParaCSV`, `exportarParaExcel`), of the routes
`POST /combinar` and `POST /analisar` of
`src/src/controllers/planilhaController.js`, and of the upload filter and the
route `POST /files` of `src/src/controllers/uploadController.js`.

Modelling conventions.

* A JavaScript object that is used as a dictionary is the list of its own
  data properties in the order in which they were created (`JsObject`).
  Reading `o[k]` is `JsObject.get`, writing `o[k] = v` is `JsObject.set`,
  and `Object.keys` / `Object.entries` are `JsObject.keys` /
  `JsObject.entries`, which enumerate array-index keys first, in ascending
  numeric order, and the other keys afterwards in creation order
  (ECMAScript OrdinaryOwnPropertyKeys).  Property names inherited from
  `Object.prototype` and the accessor name `__proto__` are outside the model.
* Cell values are JavaScript scalars (`JsVal`).  Numbers are integers; they
  are passed through by the combine engine and only converted to text by the
  export.
* What the engine leaves to the platform is a parameter: the date parser
  behind `Date.parse` (`dataValida`), and the clock, the file system and the
  workbook writer used by the export (`AmbienteExportacao`).
* Reading a stored upload is asynchronous file I/O in the source; here the
  store is a parameter `carregarDados fileName originalName`, standing for
  `_carregarDadosCompletos(path.join(__dirname, '../../uploads', fileName),
  originalName)`, which either throws (an error message) or returns the data
  rows of the file.
* The parsers of the packages `csv-parser` and `xlsx` are parameters of the
  readers (`AmbienteLeitura`): the embedding starts at the tables they hand to
  the service.
* A thrown `Error` is `Except.error` carrying the message.
-/

namespace SistemaTeste

/-! ## JavaScript values and objects -/

/-- JavaScript scalar values that occur as spreadsheet cells. -/
inductive JsVal where
  | undefined
  | null
  | str (s : String)
  | num (n : Int)
  | bool (b : Bool)
  deriving DecidableEq, Repr

/-- Own data properties of a plain object, in creation order. -/
abbrev JsObject (α : Type) := List (String × α)

/-- Property read `o[k]` on own properties; `none` is JavaScript `undefined`
for a missing property. -/
def JsObject.get {α : Type} : JsObject α → String → Option α
  | [], _ => none
  | (k', v) :: resto, k => if k' = k then some v else JsObject.get resto k

/-- Property write `o[k] = v`: an existing property keeps its position and
takes the new value, a new property is created after all existing ones. -/
def JsObject.set {α : Type} : JsObject α → String → α → JsObject α
  | [], k, v => [(k, v)]
  | (k', v') :: resto, k, v =>
    if k' = k then (k', v) :: resto else (k', v') :: JsObject.set resto k v

/-- Value of a decimal digit character. -/
def digitoDecimal (c : Char) : Option Nat :=
  if 48 ≤ c.toNat ∧ c.toNat ≤ 57 then some (c.toNat - 48) else none

/-- Value of a non-empty string of decimal digits, read left to right. -/
def valorDecimal : List Char → Nat → Option Nat
  | [], acc => some acc
  | c :: cs, acc =>
    match digitoDecimal c with
    | some d => valorDecimal cs (acc * 10 + d)
    | none => none

/-- The array index denoted by a property key, if any: the key is the
canonical decimal form (no leading zero) of an integer below `2^32 - 1`. -/
def arrayIndex? (k : String) : Option Nat :=
  match k.data with
  | [] => none
  | c :: cs =>
    if c.toNat = 48 ∧ cs ≠ [] then none
    else
      match valorDecimal (c :: cs) 0 with
      | some n => if n < 4294967295 then some n else none
      | none => none

/-- Insertion of an indexed property into a list sorted by index. -/
def inserirPorIndice {α : Type} (e : Nat × (String × α)) :
    List (Nat × (String × α)) → List (Nat × (String × α))
  | [] => [e]
  | x :: xs => if e.1 ≤ x.1 then e :: x :: xs else x :: inserirPorIndice e xs

/-- Sort of indexed properties by ascending index. -/
def ordenarPorIndice {α : Type} : List (Nat × (String × α)) → List (Nat × (String × α))
  | [] => []
  | x :: xs => inserirPorIndice x (ordenarPorIndice xs)

/-- The entries of `Object.entries(o)`: array-index keys in ascending numeric
order, then the remaining keys in creation order. -/
def JsObject.entries {α : Type} (o : JsObject α) : List (String × α) :=
  (ordenarPorIndice (o.filterMap (fun e => (arrayIndex? e.1).map (fun n => (n, e))))).map Prod.snd
    ++ o.filter (fun e => (arrayIndex? e.1).isNone)

/-- The keys of `Object.keys(o)`, in property enumeration order. -/
def JsObject.keys {α : Type} (o : JsObject α) : List String :=
  (JsObject.entries o).map Prod.fst

/-- A row of a table or of the combined output: column name to cell value. -/
abbrev Linha := JsObject JsVal

/-- Cell read `linha[nome]`: a missing property reads as `undefined`. -/
def lerCelula (linha : Linha) (nome : String) : JsVal :=
  (JsObject.get linha nome).getD JsVal.undefined

/-! ## String trimming -/

/-- Code points removed by `String.prototype.trim`: ECMAScript WhiteSpace
(TAB, VT, FF, SP, NBSP, ZWNBSP and the Unicode space separators) and
LineTerminator (LF, CR, LS, PS). -/
def isJsWhiteSpace (c : Char) : Bool :=
  let n := c.toNat
  n = 0x0009 || n = 0x000A || n = 0x000B || n = 0x000C || n = 0x000D || n = 0x0020 ||
  n = 0x00A0 || n = 0x1680 || (0x2000 ≤ n && n ≤ 0x200A) || n = 0x2028 || n = 0x2029 ||
  n = 0x202F || n = 0x205F || n = 0x3000 || n = 0xFEFF

/-- Trimming on the list of characters of a string. -/
def trimChars (cs : List Char) : List Char :=
  ((cs.dropWhile isJsWhiteSpace).reverse.dropWhile isJsWhiteSpace).reverse

/-- The method `String.prototype.trim`. -/
def jsTrim (s : String) : String :=
  String.mk (trimChars s.data)

/-! ## Request data of the combine engine -/

/-- One selected column `{ indice, nome }` of the selection map. -/
structure Coluna where
  indice : Int
  nome : String
  deriving DecidableEq, Repr

/-- One source file of the request: stored name and display name. -/
structure Planilha where
  fileName : String
  originalName : String
  deriving DecidableEq, Repr

/-- The options object `configuracoes`; an absent option is `none` / `false`. -/
structure Configuracoes where
  renomearColunas : Option (JsObject String)
  incluirOrigem : Bool
  removerEspacos : Bool
  substituirVazios : Option String
  deriving DecidableEq, Repr

/-- One entry of `cabecalhoFinal`. -/
structure Cabecalho where
  nomeOriginal : String
  nomeFinal : String
  planilhaOrigem : String
  indiceOriginal : Int
  deriving DecidableEq, Repr

/-- The reserved key of the origin column, as written in the source. -/
def chaveOrigem : String := "__origem__"

/-! ## `_processarValor` -/

/-- The operand `configuracoes.substituirVazios || ''`: a string option that is
absent or empty (falsy) gives the empty string. -/
def valorSubstituto (cfg : Configuracoes) : String :=
  match cfg.substituirVazios with
  | some s => if s = "" then "" else s
  | none => ""

/-- The method `_processarValor(valor, configuracoes)`. -/
def _processarValor (valor : JsVal) (cfg : Configuracoes) : JsVal :=
  match valor with
  | JsVal.null => JsVal.str (valorSubstituto cfg)
  | JsVal.undefined => JsVal.str (valorSubstituto cfg)
  | JsVal.str s => if cfg.removerEspacos then JsVal.str (jsTrim s) else JsVal.str s
  | v => v

/-! ## `combinarPlanilhas` -/

/-- The key under which a rename is looked up. -/
def chaveRenomear (planilhaId : String) (nome : String) : String :=
  planilhaId ++ "_" ++ nome

/-- The constant `nomeColuna` of the header loop: the rename entry when the
rename mapping exists and its entry is truthy (a non-empty string), else the
original name. -/
def nomeColuna (cfg : Configuracoes) (planilhaId : String) (coluna : Coluna) : String :=
  match cfg.renomearColunas with
  | none => coluna.nome
  | some renomear =>
    match JsObject.get renomear (chaveRenomear planilhaId coluna.nome) with
    | some novo => if novo = "" then coluna.nome else novo
    | none => coluna.nome

/-- First loop of `combinarPlanilhas`: `cabecalhoFinal`, one entry pushed per
selected column, over `Object.entries(colunasEscolhidas)`. -/
def prepararCabecalho (colunasEscolhidas : JsObject (List Coluna)) (cfg : Configuracoes) :
    List Cabecalho :=
  (JsObject.entries colunasEscolhidas).foldl
    (fun cabecalhoFinal par =>
      par.2.foldl
        (fun cab coluna =>
          cab ++ [Cabecalho.mk coluna.nome (nomeColuna cfg par.1 coluna) par.1 coluna.indice])
        cabecalhoFinal)
    []

/-- Body of the loop over the rows of one file: builds `novaLinha`. -/
def construirLinha (cabecalhoFinal : List Cabecalho) (planilha : Planilha)
    (colunasDestaPlanilha : List Coluna) (cfg : Configuracoes) (linha : Linha) : Linha :=
  let inicial : Linha :=
    if cfg.incluirOrigem then JsObject.set [] chaveOrigem (JsVal.str planilha.originalName) else []
  colunasDestaPlanilha.foldl
    (fun novaLinha coluna =>
      match cabecalhoFinal.find?
          (fun h => h.planilhaOrigem == planilha.fileName && h.nomeOriginal == coluna.nome) with
      | some cabecalhoInfo =>
        JsObject.set novaLinha cabecalhoInfo.nomeFinal
          (_processarValor (lerCelula linha coluna.nome) cfg)
      | none => novaLinha)
    inicial

/-- Second loop of `combinarPlanilhas`, over `planilhas`, carrying
`dadosCombinados`; a file without selected columns is skipped before it is
loaded, and a failing load aborts the loop. -/
def processarPlanilhas (carregarDados : String → String → Except String (List Linha))
    (cabecalhoFinal : List Cabecalho) (colunasEscolhidas : JsObject (List Coluna))
    (cfg : Configuracoes) : List Planilha → List Linha → Except String (List Linha)
  | [], dadosCombinados => Except.ok dadosCombinados
  | planilha :: resto, dadosCombinados =>
    match JsObject.get colunasEscolhidas planilha.fileName with
    | none => processarPlanilhas carregarDados cabecalhoFinal colunasEscolhidas cfg resto
        dadosCombinados
    | some colunasDestaPlanilha =>
      if colunasDestaPlanilha.length = 0 then
        processarPlanilhas carregarDados cabecalhoFinal colunasEscolhidas cfg resto
          dadosCombinados
      else
        match carregarDados planilha.fileName planilha.originalName with
        | Except.error mensagem => Except.error mensagem
        | Except.ok dadosPlanilha =>
          processarPlanilhas carregarDados cabecalhoFinal colunasEscolhidas cfg resto
            (dadosPlanilha.foldl
              (fun dados linha =>
                dados ++ [construirLinha cabecalhoFinal planilha colunasDestaPlanilha cfg linha])
              dadosCombinados)

/-- The method `combinarPlanilhas(planilhas, colunasEscolhidas, configuracoes)`;
any error thrown inside is rethrown with the prefix of the catch block. -/
def combinarPlanilhas (carregarDados : String → String → Except String (List Linha))
    (planilhas : List Planilha) (colunasEscolhidas : JsObject (List Coluna))
    (cfg : Configuracoes) : Except String (List Linha) :=
  match processarPlanilhas carregarDados (prepararCabecalho colunasEscolhidas cfg)
      colunasEscolhidas cfg planilhas [] with
  | Except.ok dadosCombinados => Except.ok dadosCombinados
  | Except.error mensagem => Except.error ("Erro ao combinar planilhas: " ++ mensagem)

/-! ## `gerarPreview` -/

/-- The call `lista.slice(0, fim)` for an integer `fim`: a negative `fim`
counts from the end of the list. -/
def sliceAte {α : Type} (lista : List α) (fim : Int) : List α :=
  if fim < 0 then lista.take (lista.length - fim.natAbs) else lista.take fim.toNat

/-- The object returned by `gerarPreview`. -/
structure Preview where
  dados : List Linha
  totalEstimado : Nat
  colunas : List String
  planilhasProcessadas : Nat
  deriving DecidableEq, Repr

/-- The options object `{ incluirOrigem: true, preview: true }` built by
`gerarPreview`; the option `preview` is read nowhere. -/
def configuracoesPreview : Configuracoes := ⟨none, true, false, none⟩

/-- The method `gerarPreview(planilhas, colunasEscolhidas, limite = 10)`; an
omitted `limite` is `none`. -/
def gerarPreview (carregarDados : String → String → Except String (List Linha))
    (planilhas : List Planilha) (colunasEscolhidas : JsObject (List Coluna))
    (limite : Option Int) : Except String Preview :=
  match combinarPlanilhas carregarDados planilhas colunasEscolhidas configuracoesPreview with
  | Except.ok dadosCompletos =>
    Except.ok
      ⟨sliceAte dadosCompletos (limite.getD 10), dadosCompletos.length,
        match dadosCompletos with
        | [] => []
        | primeira :: _ => JsObject.keys primeira,
        planilhas.length⟩
  | Except.error mensagem => Except.error ("Erro ao gerar preview: " ++ mensagem)

/-! ## Column type inference: `_detectarTipoColuna`, `_extrairExemplos` -/

/-- The filter `val !== null && val !== undefined && val !== ''`. -/
def valorPreenchido (v : JsVal) : Bool :=
  match v with
  | JsVal.null => false
  | JsVal.undefined => false
  | JsVal.str s => decide (s ≠ "")
  | _ => true

/-- The expression `amostra.map(linha => linha[nomeColuna]).filter(...)` shared
by `_detectarTipoColuna` and `_extrairExemplos`: the non-empty values of a
column, in row order. -/
def valoresDaColuna (amostra : List Linha) (nomeColuna : String) : List JsVal :=
  (amostra.map (fun linha => lerCelula linha nomeColuna)).filter valorPreenchido

/-- Decimal digit test. -/
def ehDigito (c : Char) : Bool := decide (48 ≤ c.toNat ∧ c.toNat ≤ 57)

/-- Non-empty run of characters that all satisfy a test. -/
def todosNaoVazio (p : Char → Bool) (cs : List Char) : Bool :=
  !cs.isEmpty && cs.all p

/-- ExponentPart of a decimal literal, or nothing: `e` or `E`, an optional
sign, and at least one digit. -/
def ehExpoenteOpcional (cs : List Char) : Bool :=
  match cs with
  | [] => true
  | c :: resto =>
    (c = Char.ofNat 101 || c = Char.ofNat 69) &&
      (match resto with
        | s :: digitos =>
          if s = Char.ofNat 43 || s = Char.ofNat 45 then todosNaoVazio ehDigito digitos
          else todosNaoVazio ehDigito (s :: digitos)
        | [] => false)

/-- StrUnsignedDecimalLiteral of ECMAScript: `Infinity`, digits with an optional
fraction and exponent, or a fraction that starts with the point. -/
def ehDecimalSemSinal (cs : List Char) : Bool :=
  if cs = "Infinity".data then true
  else
    let inteiros := cs.takeWhile ehDigito
    let depois := cs.dropWhile ehDigito
    match depois with
    | [] => !inteiros.isEmpty
    | c :: resto =>
      if c = Char.ofNat 46 then
        let fracao := resto.takeWhile ehDigito
        (!inteiros.isEmpty || !fracao.isEmpty) && ehExpoenteOpcional (resto.dropWhile ehDigito)
      else !inteiros.isEmpty && ehExpoenteOpcional (c :: resto)

/-- NonDecimalIntegerLiteral of ECMAScript: `0x`, `0o` or `0b` (either case)
followed by at least one digit of that base. -/
def ehInteiroNaoDecimal (cs : List Char) : Bool :=
  match cs with
  | z :: b :: digitos =>
    z = Char.ofNat 48 &&
      (if b = Char.ofNat 120 || b = Char.ofNat 88 then
        todosNaoVazio (fun c => ehDigito c || decide (97 ≤ c.toNat ∧ c.toNat ≤ 102)
          || decide (65 ≤ c.toNat ∧ c.toNat ≤ 70)) digitos
      else if b = Char.ofNat 111 || b = Char.ofNat 79 then
        todosNaoVazio (fun c => decide (48 ≤ c.toNat ∧ c.toNat ≤ 55)) digitos
      else if b = Char.ofNat 98 || b = Char.ofNat 66 then
        todosNaoVazio (fun c => decide (48 ≤ c.toNat ∧ c.toNat ≤ 49)) digitos
      else false)
  | _ => false

/-- StrNumericLiteral of ECMAScript: a non-decimal integer literal, or a decimal
literal with an optional sign. -/
def ehLiteralNumerico (cs : List Char) : Bool :=
  ehInteiroNaoDecimal cs ||
    (match cs with
      | c :: resto =>
        if c = Char.ofNat 43 || c = Char.ofNat 45 then ehDecimalSemSinal resto
        else ehDecimalSemSinal (c :: resto)
      | [] => false)

/-- The test `!isNaN(val) && !isNaN(parseFloat(val))` of `_detectarTipoColuna`.
For a string, `Number` accepts the trimmed text when it is empty or a numeric
literal, and `parseFloat` needs a decimal literal at the start of the trimmed
text, which an empty text lacks and every numeric literal has; a number passes
both; a boolean converts to a number but its text does not parse. -/
def ehNumerico (v : JsVal) : Bool :=
  match v with
  | JsVal.str s => ehLiteralNumerico (trimChars s.data)
  | JsVal.num _ => true
  | _ => false

/-- The method `_detectarTipoColuna(amostra, nomeColuna)`. The test
`!isNaN(Date.parse(val))` depends on the date parser of the engine and is the
parameter `dataValida`. A share test `a.length / b.length > 0.8` is written
`4 * b.length < 5 * a.length`: for array lengths the double-precision quotient
exceeds the double `0.8` exactly when the exact quotient exceeds four fifths. -/
def _detectarTipoColuna (dataValida : JsVal → Bool) (amostra : List Linha)
    (nomeColuna : String) : String :=
  if amostra.length = 0 then "text"
  else
    let valores := valoresDaColuna amostra nomeColuna
    if valores.length = 0 then "text"
    else
      let numericos := valores.filter ehNumerico
      if 4 * valores.length < 5 * numericos.length then "number"
      else
        let datas := valores.filter dataValida
        if 4 * valores.length < 5 * datas.length then "date" else "text"

/-- The method `_extrairExemplos(amostra, nomeColuna, quantidade = 3)`; an
omitted `quantidade` is `none`. -/
def _extrairExemplos (amostra : List Linha) (nomeColuna : String) (quantidade : Option Int) :
    List JsVal :=
  if amostra.length = 0 then []
  else sliceAte (valoresDaColuna amostra nomeColuna) (quantidade.getD 3)

/-! ## Export service: `exportService.js` -/

/-- The conversion `String(valor)`. Numbers of the model are integers, whose
text is their decimal form (exact for magnitudes below `10^21`). -/
def textoDe (v : JsVal) : String :=
  match v with
  | JsVal.str s => s
  | JsVal.num n => toString n
  | JsVal.bool true => "true"
  | JsVal.bool false => "false"
  | JsVal.null => "null"
  | JsVal.undefined => "undefined"

/-- Occurrence of `sub` as a contiguous part of a list of characters. -/
def incluiChars (sub : List Char) : List Char → Bool
  | [] => sub.isEmpty
  | c :: cs => sub.isPrefixOf (c :: cs) || incluiChars sub cs

/-- The method `texto.includes(sub)`. -/
def inclui (texto sub : String) : Bool :=
  incluiChars sub.data texto.data

/-- The double quote character. -/
def aspas : Char := Char.ofNat 34

/-- The replacement `replace(/"/g, '""')` on characters. -/
def dobrarAspas : List Char → List Char
  | [] => []
  | c :: cs => if c = aspas then aspas :: aspas :: dobrarAspas cs else c :: dobrarAspas cs

/-- The method `_escaparValorCSV(valor, separador)`. -/
def _escaparValorCSV (valor : JsVal) (separador : String) : String :=
  match valor with
  | JsVal.null => ""
  | JsVal.undefined => ""
  | v =>
    let valorString := textoDe v
    if inclui valorString separador || inclui valorString "\n" || inclui valorString "\r"
        || inclui valorString "\"" then
      String.mk (aspas :: (dobrarAspas valorString.data ++ [aspas]))
    else valorString

/-- The method `Array.prototype.join` on strings. -/
def juntar (separador : String) : List String → String
  | [] => ""
  | [x] => x
  | x :: y :: resto => x ++ separador ++ juntar separador (y :: resto)

/-- The values of `Object.values(o)`, in property enumeration order. -/
def JsObject.values {α : Type} (o : JsObject α) : List α :=
  (JsObject.entries o).map Prod.snd

/-- The options object of `exportarParaCSV`; an absent option is `none`. -/
structure OpcoesCSV where
  separador : Option String
  quebrarLinha : Option String
  incluirCabecalho : Option Bool
  deriving DecidableEq, Repr

/-- The constant `separador`: `opcoes.separador || ','`. -/
def separadorDe (opcoes : OpcoesCSV) : String :=
  match opcoes.separador with
  | some s => if s = "" then "," else s
  | none => ","

/-- The constant `quebrarLinha`: `opcoes.quebrarLinha || '\n'`. -/
def quebrarLinhaDe (opcoes : OpcoesCSV) : String :=
  match opcoes.quebrarLinha with
  | some s => if s = "" then "\n" else s
  | none => "\n"

/-- The constant `incluirCabecalho`: `opcoes.incluirCabecalho !== false`. -/
def incluirCabecalhoDe (opcoes : OpcoesCSV) : Bool :=
  match opcoes.incluirCabecalho with
  | some false => false
  | _ => true

/-- The text of one data line before its terminator:
`Object.values(linha).map(valor => this._escaparValorCSV(valor, separador)).join(separador)`. -/
def linhaCSV (separador : String) (linha : Linha) : String :=
  juntar separador ((JsObject.values linha).map (fun valor => _escaparValorCSV valor separador))

/-- The variable `conteudoCSV` of `exportarParaCSV` when it is written to the
file: the header of the first row when requested, then one line per row. -/
def conteudoCSV (dados : List Linha) (opcoes : OpcoesCSV) : String :=
  let separador := separadorDe opcoes
  let quebrarLinha := quebrarLinhaDe opcoes
  let comCabecalho : String :=
    match dados with
    | primeira :: _ =>
      if incluirCabecalhoDe opcoes then
        "" ++ (juntar separador
          ((JsObject.keys primeira).map (fun col => _escaparValorCSV (JsVal.str col) separador))
          ++ quebrarLinha)
      else ""
    | [] => ""
  dados.foldl (fun conteudo linha => conteudo ++ (linhaCSV separador linha ++ quebrarLinha))
    comCabecalho

/-- The object returned by the export methods. -/
structure ArquivoExportado where
  fileName : String
  filePath : String
  downloadUrl : String
  size : Nat
  sizeFormatted : String
  createDate : String
  format : String
  totalRows : Nat
  totalColumns : Nat
  deriving DecidableEq, Repr

/-- The options object of `exportarParaExcel`. The effect of
`opcoes.transformacoes` on one row (locale and number formatting) is the field
`transformacoes`; `formatacao` and `nomeAba` only reach the workbook writer. -/
structure OpcoesExcel where
  transformacoes : Option (Linha → Linha)
  formatacao : Bool
  nomeAba : Option String

/-- What the export methods take from outside: the export folder, the clock,
the file system and the workbook writer.
* `prepararPasta`: `fs.existsSync` / `fs.mkdirSync` on the export folder;
* `carimbo`: `new Date().toISOString().replace(/[:.]/g, '-').slice(0, 19)`;
* `caminho nome`: `path.join(exportDir, nome)`;
* `gravarTexto caminho conteudo`: `fs.writeFileSync` then `fs.statSync(...).size`;
* `gravarPlanilha caminho opcoes cabecalho dados`: `XLSX.utils.json_to_sheet`
  with the given header, formatting, `book_append_sheet`, `XLSX.writeFile`,
  then `fs.statSync(...).size`;
* `formatarTamanho`: `_formatarTamanho`; `dataCriacao`: `new Date().toISOString()`;
* `agora`: the text of `Date.now()`. -/
structure AmbienteExportacao where
  prepararPasta : Except String Unit
  carimbo : String
  caminho : String → String
  gravarTexto : String → String → Except String Nat
  gravarPlanilha : String → OpcoesExcel → List String → List Linha → Except String Nat
  formatarTamanho : Nat → String
  dataCriacao : String
  agora : String

/-- The method `_prepararDadosParaExcel(dados, opcoes)`. -/
def _prepararDadosParaExcel (dados : List Linha) (opcoes : OpcoesExcel) : List Linha :=
  match opcoes.transformacoes with
  | none => dados
  | some transformar => dados.map transformar

/-- The method `exportarParaExcel(dados, nomeArquivo, opcoes)`; any error thrown
inside is rethrown with the prefix of the catch block. -/
def exportarParaExcel (amb : AmbienteExportacao) (dados : List Linha) (nomeArquivo : String)
    (opcoes : OpcoesExcel) : Except String ArquivoExportado :=
  let corpo : Except String ArquivoExportado :=
    match dados with
    | [] => Except.error "Nenhum dado fornecido para exportação"
    | primeira :: _ =>
      match amb.prepararPasta with
      | Except.error mensagem => Except.error mensagem
      | Except.ok _ =>
        let nomeArquivoFinal := nomeArquivo ++ "_" ++ amb.carimbo ++ ".xlsx"
        let caminhoCompleto := amb.caminho nomeArquivoFinal
        let dadosParaExcel := _prepararDadosParaExcel dados opcoes
        match amb.gravarPlanilha caminhoCompleto opcoes (JsObject.keys primeira)
            dadosParaExcel with
        | Except.error mensagem => Except.error mensagem
        | Except.ok tamanho =>
          Except.ok
            ⟨nomeArquivoFinal, caminhoCompleto, "/exports/" ++ nomeArquivoFinal, tamanho,
              amb.formatarTamanho tamanho, amb.dataCriacao, "xlsx", dados.length,
              (JsObject.keys primeira).length⟩
  match corpo with
  | Except.ok arquivo => Except.ok arquivo
  | Except.error mensagem => Except.error ("Erro ao exportar para Excel: " ++ mensagem)

/-- The method `exportarParaCSV(dados, nomeArquivo, opcoes)`; any error thrown
inside is rethrown with the prefix of the catch block. -/
def exportarParaCSV (amb : AmbienteExportacao) (dados : List Linha) (nomeArquivo : String)
    (opcoes : OpcoesCSV) : Except String ArquivoExportado :=
  let corpo : Except String ArquivoExportado :=
    match dados with
    | [] => Except.error "Nenhum dado fornecido para exportação"
    | primeira :: _ =>
      match amb.prepararPasta with
      | Except.error mensagem => Except.error mensagem
      | Except.ok _ =>
        let nomeArquivoFinal := nomeArquivo ++ "_" ++ amb.carimbo ++ ".csv"
        let caminhoCompleto := amb.caminho nomeArquivoFinal
        match amb.gravarTexto caminhoCompleto (conteudoCSV dados opcoes) with
        | Except.error mensagem => Except.error mensagem
        | Except.ok tamanho =>
          Except.ok
            ⟨nomeArquivoFinal, caminhoCompleto, "/exports/" ++ nomeArquivoFinal, tamanho,
              amb.formatarTamanho tamanho, amb.dataCriacao, "csv", dados.length,
              (JsObject.keys primeira).length⟩
  match corpo with
  | Except.ok arquivo => Except.ok arquivo
  | Except.error mensagem => Except.error ("Erro ao exportar para CSV: " ++ mensagem)

/-! ## Route `POST /api/planilhas/combinar` (`planilhaController.js`) -/

/-- The response sent by the route: status 400 with a message, the success
body with the exported file and the statistics, or status 500 with the message
of the error. -/
inductive RespostaCombinar where
  | requisicaoInvalida (mensagem : String)
  | sucesso (arquivo : ArquivoExportado)
      (totalLinhas totalColunas planilhasOriginais colunasCombinadas : Nat)
  | erro (mensagem : String)
  deriving DecidableEq, Repr

/-- The handler of `router.post('/combinar', ...)`: validation of the body, the
combination, then the Excel export of its rows. -/
def rotaCombinar (carregarDados : String → String → Except String (List Linha))
    (amb : AmbienteExportacao) (planilhas : List Planilha)
    (colunasEscolhidas : JsObject (List Coluna)) (nomeArquivoFinal : Option String)
    (configuracoes : Option Configuracoes) : RespostaCombinar :=
  if planilhas.length = 0 then
    RespostaCombinar.requisicaoInvalida "Nenhuma planilha foi especificada para combinação"
  else if (JsObject.keys colunasEscolhidas).length = 0 then
    RespostaCombinar.requisicaoInvalida "Nenhuma coluna foi selecionada para combinação"
  else
    match combinarPlanilhas carregarDados planilhas colunasEscolhidas
        (configuracoes.getD ⟨none, false, false, none⟩) with
    | Except.error mensagem => RespostaCombinar.erro mensagem
    | Except.ok resultado =>
      let nomeArquivo :=
        match nomeArquivoFinal with
        | some nome => if nome = "" then "planilha_combinada_" ++ amb.agora else nome
        | none => "planilha_combinada_" ++ amb.agora
      match exportarParaExcel amb resultado nomeArquivo ⟨none, false, none⟩ with
      | Except.error mensagem => RespostaCombinar.erro mensagem
      | Except.ok arquivoExportado =>
        RespostaCombinar.sucesso arquivoExportado resultado.length
          (match resultado with
            | primeira :: _ => (JsObject.keys primeira).length
            | [] => 0)
          planilhas.length (JsObject.keys colunasEscolhidas).length

/-! ## Re-reading a written CSV line -/

/-- States of the reader of a written line: between fields with some
characters of a separator still to skip, inside an unquoted field, inside a
quoted field, and right after a double quote met inside a quoted field. -/
inductive EstadoLeitor where
  | entre (faltam : Nat)
  | simples (campo : List Char)
  | entreAspas (campo : List Char)
  | aposAspas (campo : List Char)
  deriving DecidableEq, Repr

/-- Modelled from the spec: the re-parsing of a written data line with the
separator it was written with, which the repository does not contain: the line
is split on the separators that are outside quotes, a field that starts with a
double quote extends to its closing double quote and loses the enclosing
quotes, and inside it a doubled double quote stands for one. A quoted field
that is not closed, or is followed by anything but a separator, is an error
(`none`). -/
def lerLinhaCSV (separador : List Char) :
    EstadoLeitor → List Char → List String → Option (List String)
  | EstadoLeitor.entre 0, [], campos => some (campos ++ [""])
  | EstadoLeitor.entre (_ + 1), [], _ => none
  | EstadoLeitor.entre (n + 1), _ :: cs, campos =>
    lerLinhaCSV separador (EstadoLeitor.entre n) cs campos
  | EstadoLeitor.entre 0, c :: cs, campos =>
    if c = aspas then lerLinhaCSV separador (EstadoLeitor.entreAspas []) cs campos
    else if separador.isPrefixOf (c :: cs) then
      lerLinhaCSV separador (EstadoLeitor.entre (separador.length - 1)) cs (campos ++ [""])
    else lerLinhaCSV separador (EstadoLeitor.simples [c]) cs campos
  | EstadoLeitor.simples campo, [], campos => some (campos ++ [String.mk campo])
  | EstadoLeitor.simples campo, c :: cs, campos =>
    if separador.isPrefixOf (c :: cs) then
      lerLinhaCSV separador (EstadoLeitor.entre (separador.length - 1)) cs
        (campos ++ [String.mk campo])
    else lerLinhaCSV separador (EstadoLeitor.simples (campo ++ [c])) cs campos
  | EstadoLeitor.entreAspas _, [], _ => none
  | EstadoLeitor.entreAspas campo, c :: cs, campos =>
    if c = aspas then lerLinhaCSV separador (EstadoLeitor.aposAspas campo) cs campos
    else lerLinhaCSV separador (EstadoLeitor.entreAspas (campo ++ [c])) cs campos
  | EstadoLeitor.aposAspas campo, [], campos => some (campos ++ [String.mk campo])
  | EstadoLeitor.aposAspas campo, c :: cs, campos =>
    if c = aspas then
      lerLinhaCSV separador (EstadoLeitor.entreAspas (campo ++ [aspas])) cs campos
    else if separador.isPrefixOf (c :: cs) then
      lerLinhaCSV separador (EstadoLeitor.entre (separador.length - 1)) cs
        (campos ++ [String.mk campo])
    else none

/-- Modelled from the spec: the fields read back from the text of one written
line with the given separator. -/
def relerLinhaCSV (separador : String) (texto : String) : Option (List String) :=
  lerLinhaCSV separador.data (EstadoLeitor.entre 0) texto.data []

/-- The text of the data line written for a row of strings. -/
def linhaDeTextos (separador : String) (campos : List String) : String :=
  juntar separador (campos.map (fun s => _escaparValorCSV (JsVal.str s) separador))

/-! ## CSV separator detection: `_detectarSeparadorCSV` -/

/-- The method `texto.split(sep)` for a one-character separator, on
characters: the pieces between the occurrences of the separator. -/
def dividirEm (sep : Char) : List Char → List (List Char)
  | [] => [[]]
  | c :: cs =>
    if c = sep then [] :: dividirEm sep cs
    else
      match dividirEm sep cs with
      | parte :: partes => (c :: parte) :: partes
      | [] => [[c]]

/-- The constant `primeirasLinhas`: `texto.split('\n').slice(0, 3).join('\n')`. -/
def primeirasLinhas (texto : String) : String :=
  juntar "\n" (((dividirEm (Char.ofNat 10) texto.data).take 3).map String.mk)

/-- The array `separadores`: comma, semicolon, tab and vertical bar. -/
def separadores : List Char := [Char.ofNat 44, Char.ofNat 59, Char.ofNat 9, Char.ofNat 124]

/-- The constant `contagem`: the number of matches in `primeirasLinhas` of the
global regular expression made of the escaped separator, that is, the number of
occurrences of the separator character. -/
def contagem (sep : Char) (texto : String) : Nat :=
  texto.data.count sep

/-- One iteration of the loop over `separadores`, on the pair
`(melhorSeparador, maiorContagem)`. -/
def passoSeparador (texto : String) (estado : Char × Nat) (sep : Char) : Char × Nat :=
  if contagem sep texto > estado.2 then (sep, contagem sep texto) else estado

/-- The method `_detectarSeparadorCSV(filePath)`, given the outcome of
`fs.readFileSync(filePath, 'utf8')`: a file that cannot be read gives the comma. -/
def _detectarSeparadorCSV (conteudo : Except String String) : String :=
  match conteudo with
  | Except.error _ => ","
  | Except.ok texto =>
    String.singleton
      (separadores.foldl (passoSeparador (primeirasLinhas texto)) (Char.ofNat 44, 0)).1

/-! ## File names and the upload filter -/

/-- The base name scanned by `path.extname` (POSIX): trailing slashes are
dropped, then everything up to the last remaining slash. -/
def nomeBase (caminho : List Char) : List Char :=
  (((caminho.reverse.dropWhile (fun c => c = Char.ofNat 47)).takeWhile
    (fun c => c ≠ Char.ofNat 47))).reverse

/-- The function `path.extname` (POSIX): from the last point of the base name
to its end; empty when the base name has no point, starts with its only
point, or is `..`. -/
def extname (caminho : String) : String :=
  let base := nomeBase caminho.data
  let sufixo := (base.reverse.takeWhile (fun c => c ≠ Char.ofNat 46)).reverse
  if sufixo.length = base.length then ""
  else if sufixo.length + 1 = base.length then ""
  else if base = [Char.ofNat 46, Char.ofNat 46] then ""
  else String.mk (Char.ofNat 46 :: sufixo)

/-- The method `toLowerCase` on the letters `A` to `Z`. No other character
lowercases to a letter that occurs in an accepted extension, so the comparisons
of extensions below are exact. -/
def minusculas (texto : String) : String :=
  String.mk (texto.data.map Char.toLower)

/-- The list `UPLOAD_CONFIG.ALLOWED_TYPES` of `config/app.config.js`. -/
def ALLOWED_TYPES : List String :=
  ["application/vnd.openxmlformats-officedocument.spreadsheetml.sheet",
    "application/vnd.ms-excel", "text/csv", "text/plain"]

/-- The list `UPLOAD_CONFIG.ALLOWED_EXTENSIONS` of `config/app.config.js`. -/
def ALLOWED_EXTENSIONS : List String := [".xlsx", ".xls", ".csv", ".txt"]

/-- The message `MESSAGES.ERROR.FILE_TYPE` of `config/app.config.js`. -/
def FILE_TYPE : String := "Tipo de arquivo não permitido"

/-- The file object that the upload middleware hands to the filter and to the
route. -/
structure ArquivoRecebido where
  originalname : String
  filename : String
  path : String
  mimetype : String
  size : Nat
  deriving DecidableEq, Repr

/-- The function `fileFilter(req, file, cb)`: `Except.ok true` is the call
`cb(null, true)`, an error is the call `cb(new Error(...), false)`. -/
def fileFilter (file : ArquivoRecebido) : Except String Bool :=
  if ALLOWED_TYPES.contains file.mimetype then Except.ok true
  else
    let ext := minusculas (extname file.originalname)
    if ALLOWED_EXTENSIONS.contains ext then Except.ok true
    else Except.error FILE_TYPE

/-! ## Readers: `_processarCSV`, `_processarExcel`, `analisarPlanilha`,
`analisarEstrutura`, `_carregarDadosCompletos` -/

/-- The conversion of a value to a boolean (truthiness). -/
def ehVerdadeiro (v : JsVal) : Bool :=
  match v with
  | JsVal.undefined => false
  | JsVal.null => false
  | JsVal.str s => decide (s ≠ "")
  | JsVal.num n => decide (n ≠ 0)
  | JsVal.bool b => b

/-- Array read `linha[index]`: a missing element reads as `undefined`. -/
def celulaEm (linha : List JsVal) (index : Nat) : JsVal :=
  linha.getD index JsVal.undefined

/-- The loop `colunas.forEach((coluna, index) => { objeto[coluna] =
linha[index] || ''; })` from the column at position `index` on. -/
def preencherObjeto (linha : List JsVal) : List JsVal → Nat → Linha → Linha
  | [], _, objeto => objeto
  | coluna :: resto, index, objeto =>
    preencherObjeto linha resto (index + 1)
      (JsObject.set objeto (textoDe coluna)
        (if ehVerdadeiro (celulaEm linha index) then celulaEm linha index else JsVal.str ""))

/-- The callback of `linhasDados.map` in the Excel readers: the object built
for one sheet row. -/
def objetoDaLinha (colunas : List JsVal) (linha : List JsVal) : Linha :=
  preencherObjeto linha colunas 0 []

/-- What the readers take from outside.
* `lerTexto caminho`: `fs.readFileSync(caminho, 'utf8')`;
* `lerCSV caminho separador`: the stream of the `csv-parser` package with that
  separator and `skipEmptyLines`, read to its end: the header names and the
  rows;
* `lerExcel caminho`: `XLSX.readFile`, the first sheet, and
  `XLSX.utils.sheet_to_json` with `header: 1` and `defval: ''`: the sheet rows
  as arrays of cells;
* `lerExcelAmostra caminho`: the same after the range of the sheet is limited
  to its first 21 rows;
* `dataValida v`: `!isNaN(Date.parse(v))`;
* `percentual a b`: `(a / b * 100).toFixed(1)`. -/
structure AmbienteLeitura where
  lerTexto : String → Except String String
  lerCSV : String → String → Except String (List String × List Linha)
  lerExcel : String → Except String (List (List JsVal))
  lerExcelAmostra : String → Except String (List (List JsVal))
  dataValida : JsVal → Bool
  percentual : Nat → Nat → String

/-- The object `{ dados, colunas }` returned by the full readers, and
`{ colunas, amostra }` returned by the sampling readers. -/
structure Tabela where
  dados : List Linha
  colunas : List JsVal
  deriving DecidableEq, Repr

/-- The method `_processarCSV(filePath)`. -/
def _processarCSV (amb : AmbienteLeitura) (filePath : String) : Except String Tabela :=
  match amb.lerCSV filePath (_detectarSeparadorCSV (amb.lerTexto filePath)) with
  | Except.error mensagem => Except.error mensagem
  | Except.ok (headers, dados) => Except.ok ⟨dados, headers.map JsVal.str⟩

/-- The method `_analisarEstruturaCSV(filePath)`: the stream is read to its end
and the first 20 rows are kept. -/
def _analisarEstruturaCSV (amb : AmbienteLeitura) (filePath : String) : Except String Tabela :=
  match amb.lerCSV filePath (_detectarSeparadorCSV (amb.lerTexto filePath)) with
  | Except.error mensagem => Except.error mensagem
  | Except.ok (headers, dados) => Except.ok ⟨dados.take 20, headers.map JsVal.str⟩

/-- The method `_processarExcel(filePath)`. -/
def _processarExcel (amb : AmbienteLeitura) (filePath : String) : Except String Tabela :=
  match amb.lerExcel filePath with
  | Except.error mensagem => Except.error mensagem
  | Except.ok dados =>
    match dados with
    | [] => Except.error "Planilha vazia"
    | colunas :: linhasDados => Except.ok ⟨linhasDados.map (objetoDaLinha colunas), colunas⟩

/-- The method `_analisarEstruturaExcel(filePath)`. -/
def _analisarEstruturaExcel (amb : AmbienteLeitura) (filePath : String) :
    Except String Tabela :=
  match amb.lerExcelAmostra filePath with
  | Except.error mensagem => Except.error mensagem
  | Except.ok dados =>
    match dados with
    | [] => Except.error "Planilha vazia"
    | colunas :: linhasDados => Except.ok ⟨linhasDados.map (objetoDaLinha colunas), colunas⟩

/-- The method `_carregarDadosCompletos(filePath, originalName)`. -/
def _carregarDadosCompletos (amb : AmbienteLeitura) (filePath originalName : String) :
    Except String (List Linha) :=
  let extensao := minusculas (extname originalName)
  if extensao = ".csv" ∨ extensao = ".txt" then
    match _processarCSV amb filePath with
    | Except.error mensagem => Except.error mensagem
    | Except.ok resultado => Except.ok resultado.dados
  else
    match _processarExcel amb filePath with
    | Except.error mensagem => Except.error mensagem
    | Except.ok resultado => Except.ok resultado.dados

/-- The method `_detectarTiposColunas(dados, colunas)`. -/
def _detectarTiposColunas (dataValida : JsVal → Bool) (dados : List Linha)
    (colunas : List JsVal) : JsObject String :=
  colunas.foldl
    (fun tipos coluna =>
      JsObject.set tipos (textoDe coluna) (_detectarTipoColuna dataValida dados (textoDe coluna)))
    []

/-- One entry of the object returned by `_calcularEstatisticas`. -/
structure Estatistica where
  total : Nat
  preenchidos : Nat
  vazios : Nat
  percentualPreenchimento : JsVal
  deriving DecidableEq, Repr

/-- The method `_calcularEstatisticas(dados, colunas)`. -/
def _calcularEstatisticas (percentual : Nat → Nat → String) (dados : List Linha)
    (colunas : List JsVal) : JsObject Estatistica :=
  colunas.foldl
    (fun estatisticas coluna =>
      let valores := valoresDaColuna dados (textoDe coluna)
      JsObject.set estatisticas (textoDe coluna)
        ⟨dados.length, valores.length, dados.length - valores.length,
          if dados.length > 0 then JsVal.str (percentual valores.length dados.length)
          else JsVal.num 0⟩)
    []

/-- The object returned by `analisarPlanilha`. -/
structure AnalisePlanilha where
  totalLinhas : Nat
  totalColunas : Nat
  colunas : List JsVal
  amostraDados : List Linha
  tipos : JsObject String
  estatisticas : JsObject Estatistica
  deriving DecidableEq, Repr

/-- The method `analisarPlanilha(filePath, originalName)`; any error thrown
inside is rethrown with the prefix of the catch block. -/
def analisarPlanilha (amb : AmbienteLeitura) (filePath originalName : String) :
    Except String AnalisePlanilha :=
  let extensao := minusculas (extname originalName)
  let leitura : Except String Tabela :=
    if extensao = ".csv" ∨ extensao = ".txt" then _processarCSV amb filePath
    else if extensao = ".xlsx" ∨ extensao = ".xls" then _processarExcel amb filePath
    else Except.error ("Formato de arquivo não suportado: " ++ extensao)
  match leitura with
  | Except.error mensagem => Except.error ("Erro ao processar planilha: " ++ mensagem)
  | Except.ok resultado =>
    Except.ok
      ⟨resultado.dados.length, resultado.colunas.length, resultado.colunas,
        resultado.dados.take 5,
        _detectarTiposColunas amb.dataValida resultado.dados resultado.colunas,
        _calcularEstatisticas amb.percentual resultado.dados resultado.colunas⟩

/-- One entry of `estrutura.colunas` in `analisarEstrutura`. -/
structure ColunaAnalisada where
  indice : Nat
  nome : JsVal
  nomeOriginal : JsVal
  tipo : String
  exemplos : List JsVal
  deriving DecidableEq, Repr

/-- The object returned by `analisarEstrutura`; `arquivoNome` and
`arquivoExtensao` are the fields of its `arquivo` object. -/
structure EstruturaPlanilha where
  colunas : List ColunaAnalisada
  amostraDados : List Linha
  arquivoNome : String
  arquivoExtensao : String
  deriving DecidableEq, Repr

/-- The callback of `colunas.map((col, index) => ...)` in `analisarEstrutura`,
from the column at position `index` on. -/
def descreverColunas (dataValida : JsVal → Bool) (amostra : List Linha) :
    List JsVal → Nat → List ColunaAnalisada
  | [], _ => []
  | col :: resto, index =>
    ⟨index, col, col, _detectarTipoColuna dataValida amostra (textoDe col),
        _extrairExemplos amostra (textoDe col) (some 3)⟩
      :: descreverColunas dataValida amostra resto (index + 1)

/-- The method `analisarEstrutura(filePath, originalName)`; any error thrown
inside is rethrown with the prefix of the catch block. -/
def analisarEstrutura (amb : AmbienteLeitura) (filePath originalName : String) :
    Except String EstruturaPlanilha :=
  let extensao := minusculas (extname originalName)
  let leitura : Except String Tabela :=
    if extensao = ".csv" ∨ extensao = ".txt" then _analisarEstruturaCSV amb filePath
    else if extensao = ".xlsx" ∨ extensao = ".xls" then _analisarEstruturaExcel amb filePath
    else Except.error ("Formato não suportado: " ++ extensao)
  match leitura with
  | Except.error mensagem => Except.error ("Erro na análise da estrutura: " ++ mensagem)
  | Except.ok resultado =>
    Except.ok
      ⟨descreverColunas amb.dataValida resultado.dados resultado.colunas 0, resultado.dados,
        originalName, extensao⟩

/-! ## The store of uploads as seen by the combination -/

/-- The loader used by `combinarPlanilhas`: `_carregarDadosCompletos` on the
path `path.join(__dirname, '../../uploads', fileName)`, which is
`caminhoUpload fileName`. -/
def carregarDadosDe (amb : AmbienteLeitura) (caminhoUpload : String → String) :
    String → String → Except String (List Linha) :=
  fun fileName originalName =>
    _carregarDadosCompletos amb (caminhoUpload fileName) originalName

/-! ## Batch handlers: `router.post('/files', ...)` and `router.post('/analisar', ...)` -/

/-- The message `MESSAGES.ERROR.NO_FILES` of `config/app.config.js`. -/
def NO_FILES : String := "Nenhum arquivo foi enviado"

/-- The message `MESSAGES.ERROR.PROCESS_FAIL` of `config/app.config.js`. -/
def PROCESS_FAIL : String := "Erro ao processar planilha"

/-- What the upload route takes from outside.
* `leitura`: the environment of the readers;
* `existe caminho`: `fs.existsSync(caminho)`;
* `remover caminho`: `fs.unlinkSync(caminho)`, which returns or throws; the
  outcome is the same each time it is tried on a path within one request;
* `gerarId n`: the value of the call number `n` (from zero) of
  `fileUtils.generateFileId()` within the request;
* `agora n`: the value of the evaluation number `n` (from zero) of
  `new Date().toISOString()` within the request.

The middleware stores every file of a request under a path of its own. -/
structure AmbienteUpload where
  leitura : AmbienteLeitura
  existe : String → Bool
  remover : String → Except String Unit
  gerarId : Nat → String
  agora : Nat → String

/-- One element of `processedFiles`: the object pushed after a successful
analysis (the file fields followed by the spread analysis), or the object
`{ originalName, error }` pushed by the catch block. -/
inductive ResultadoUpload where
  | processado (id originalName fileName filePath : String) (size : Nat)
      (type uploadDate : String) (planilhaData : AnalisePlanilha)
  | comErro (originalName error : String)
  deriving DecidableEq, Repr

/-- The test `f.error` of the two filters over `processedFiles`: the property
is absent from a processed entry, and an empty message is falsy. -/
def ResultadoUpload.temErro : ResultadoUpload → Bool
  | ResultadoUpload.processado _ _ _ _ _ _ _ _ => false
  | ResultadoUpload.comErro _ error => decide (error ≠ "")

/-- The display name carried by an element of `processedFiles`. -/
def ResultadoUpload.originalName : ResultadoUpload → String
  | ResultadoUpload.processado _ originalName _ _ _ _ _ _ => originalName
  | ResultadoUpload.comErro originalName _ => originalName

/-- The loop `for (const file of req.files) { try ... catch ... }` from a given
file on, with `processedFiles` as filled so far and the number of calls already
made to `generateFileId` and to the clock. An error is the exception that
leaves the loop: the one thrown by `fs.unlinkSync` inside the catch block. -/
def processarArquivos (amb : AmbienteUpload) :
    List ArquivoRecebido → List ResultadoUpload → Nat → Except String (List ResultadoUpload)
  | [], processedFiles, _ => Except.ok processedFiles
  | file :: resto, processedFiles, chamadas =>
    match analisarPlanilha amb.leitura file.path file.originalname with
    | Except.ok planilhaData =>
      processarArquivos amb resto
        (processedFiles ++
          [ResultadoUpload.processado (amb.gerarId chamadas) file.originalname file.filename
            file.path file.size file.mimetype (amb.agora chamadas) planilhaData])
        (chamadas + 1)
    | Except.error mensagem =>
      let removido : Except String Unit :=
        if amb.existe file.path then amb.remover file.path else Except.ok ()
      match removido with
      | Except.error excecao => Except.error excecao
      | Except.ok _ =>
        processarArquivos amb resto
          (processedFiles ++ [ResultadoUpload.comErro file.originalname mensagem]) chamadas

/-- The cleanup of the outer catch block:
`req.files.forEach(file => { if (fs.existsSync(file.path)) fs.unlinkSync(file.path); })`. -/
def limparArquivos (amb : AmbienteUpload) : List ArquivoRecebido → Except String Unit
  | [] => Except.ok ()
  | file :: resto =>
    let removido : Except String Unit :=
      if amb.existe file.path then amb.remover file.path else Except.ok ()
    match removido with
    | Except.error excecao => Except.error excecao
    | Except.ok _ => limparArquivos amb resto

/-- What the upload route does with a request: status 400 with a message, the
success body, status 500 with the message of the error, or no answer when the
cleanup of the outer catch block throws and the exception leaves the handler. -/
inductive RespostaUpload where
  | semArquivos (message : String)
  | sucesso (message : String) (files : List ResultadoUpload) (total success errors : Nat)
  | falha (message error : String)
  | semResposta (excecao : String)
  deriving DecidableEq, Repr

/-- The handler of `router.post('/files', ...)`, given the files stored by the
middleware. -/
def rotaUpload (amb : AmbienteUpload) (files : List ArquivoRecebido) : RespostaUpload :=
  if files.length = 0 then RespostaUpload.semArquivos NO_FILES
  else
    match processarArquivos amb files [] 0 with
    | Except.ok processedFiles =>
      let sucessCount := (processedFiles.filter (fun f => !f.temErro)).length
      let errorCount := (processedFiles.filter (fun f => f.temErro)).length
      RespostaUpload.sucesso
        (toString sucessCount ++ " arquivo(s) processado(s) com sucesso"
          ++ (if errorCount > 0 then ", " ++ toString errorCount ++ " com erro(s)" else ""))
        processedFiles files.length sucessCount errorCount
    | Except.error excecao =>
      match limparArquivos amb files with
      | Except.ok _ => RespostaUpload.falha PROCESS_FAIL excecao
      | Except.error outra => RespostaUpload.semResposta outra

/-- One element of `analisesResultados`: the names followed by the spread
analysis, or the names with an error message. -/
inductive ResultadoAnalise where
  | analisado (fileName originalName : String) (analise : EstruturaPlanilha)
  | comErro (fileName originalName error : String)
  deriving DecidableEq, Repr

/-- The body of the loop of the analysis route for one entry of the request;
`caminhoUpload` is `path.join(__dirname, '../../', UPLOAD_DIR, fileName)`. -/
def analisarArquivo (leitura : AmbienteLeitura) (existe : String → Bool)
    (caminhoUpload : String → String) (fileInfo : Planilha) : ResultadoAnalise :=
  let filePath := caminhoUpload fileInfo.fileName
  if !existe filePath then
    ResultadoAnalise.comErro fileInfo.fileName fileInfo.originalName "Arquivo não encontrado"
  else
    match analisarEstrutura leitura filePath fileInfo.originalName with
    | Except.ok analise =>
      ResultadoAnalise.analisado fileInfo.fileName fileInfo.originalName analise
    | Except.error mensagem =>
      ResultadoAnalise.comErro fileInfo.fileName fileInfo.originalName mensagem

/-- The response of the analysis route: status 400 with a message, or the
success body. The outer catch block is reached only when an entry of the
request is not an object, which the type of the entries excludes. -/
inductive RespostaAnalise where
  | semArquivos (message : String)
  | sucesso (message : String) (analises : List ResultadoAnalise)
  deriving DecidableEq, Repr

/-- The handler of `router.post('/analisar', ...)`, given the entries of
`req.body.files`. -/
def rotaAnalisar (leitura : AmbienteLeitura) (existe : String → Bool)
    (caminhoUpload : String → String) (files : List Planilha) : RespostaAnalise :=
  if files.length = 0 then
    RespostaAnalise.semArquivos "Nenhum arquivo foi especificado para análise"
  else
    RespostaAnalise.sucesso "Análise concluída"
      (files.foldl
        (fun analisesResultados fileInfo =>
          analisesResultados ++ [analisarArquivo leitura existe caminhoUpload fileInfo])
        [])

/-! ## Reference descriptions used to state the properties

These follow the wording of the specification (section 4.3) and are compared
with the embedded code above. -/

/-- A file takes part in the combination when the selection map gives it a
non-empty column list. -/
def temSelecao (colunasEscolhidas : JsObject (List Coluna)) (planilha : Planilha) : Bool :=
  match JsObject.get colunasEscolhidas planilha.fileName with
  | some (_ :: _) => true
  | _ => false

/-- The column list selected for a file; empty when the file is absent from
the selection map. -/
def colunasDe (colunasEscolhidas : JsObject (List Coluna)) (planilha : Planilha) : List Coluna :=
  (JsObject.get colunasEscolhidas planilha.fileName).getD []

/-- The data rows of a stored file; no rows when it cannot be read. -/
def dadosDe (carregarDados : String → String → Except String (List Linha))
    (planilha : Planilha) : List Linha :=
  match carregarDados planilha.fileName planilha.originalName with
  | Except.ok dados => dados
  | Except.error _ => []

/-- The source rows visited by a combination, in file-then-row order, each with
its file and the column list selected for that file. -/
def fontes (carregarDados : String → String → Except String (List Linha))
    (colunasEscolhidas : JsObject (List Coluna)) (planilhas : List Planilha) :
    List (Planilha × List Coluna × Linha) :=
  (planilhas.filter (temSelecao colunasEscolhidas)).flatMap
    (fun planilha =>
      (dadosDe carregarDados planilha).map
        (fun linha => (planilha, colunasDe colunasEscolhidas planilha, linha)))

/-- The combined row of the specification: the origin column first when
requested, then each selected column in selection order, its processed value
written under its final name. -/
def linhaEsperada (cfg : Configuracoes) (planilha : Planilha) (colunas : List Coluna)
    (linha : Linha) : Linha :=
  colunas.foldl
    (fun novaLinha coluna =>
      JsObject.set novaLinha (nomeColuna cfg planilha.fileName coluna)
        (_processarValor (lerCelula linha coluna.nome) cfg))
    (if cfg.incluirOrigem then [(chaveOrigem, JsVal.str planilha.originalName)] else [])

/-- The combination of the specification: the blocks of combined rows of the
selected files, concatenated in the order of `planilhas`; the first file that
cannot be read makes the whole combination fail. -/
def combinarEsperado (carregarDados : String → String → Except String (List Linha))
    (colunasEscolhidas : JsObject (List Coluna)) (cfg : Configuracoes) :
    List Planilha → Except String (List Linha)
  | [] => Except.ok []
  | planilha :: resto =>
    if temSelecao colunasEscolhidas planilha then
      match carregarDados planilha.fileName planilha.originalName with
      | Except.error mensagem => Except.error mensagem
      | Except.ok dados =>
        match combinarEsperado carregarDados colunasEscolhidas cfg resto with
        | Except.error mensagem => Except.error mensagem
        | Except.ok seguintes =>
          Except.ok (dados.map (linhaEsperada cfg planilha (colunasDe colunasEscolhidas planilha))
            ++ seguintes)
    else combinarEsperado carregarDados colunasEscolhidas cfg resto

/-- The names selected for a stored file name, in selection order. -/
def nomesSelecionados (colunasEscolhidas : JsObject (List Coluna)) (fileName : String) :
    List String :=
  ((JsObject.get colunasEscolhidas fileName).getD []).map Coluna.nome

/-- Prefix that the catch block of `combinarPlanilhas` puts before a message. -/
def embrulharErro (r : Except String (List Linha)) : Except String (List Linha) :=
  match r with
  | Except.ok dados => Except.ok dados
  | Except.error mensagem => Except.error ("Erro ao combinar planilhas: " ++ mensagem)

/-- The selection entries `{ indice, nome }` for all the columns of a table,
from the column at position `indice` on. -/
def todasAsColunas : List JsVal → Nat → List Coluna
  | [], _ => []
  | col :: resto, indice => ⟨indice, textoDe col⟩ :: todasAsColunas resto (indice + 1)

/-- The selection map that selects every column of one file. -/
def selecaoCompleta (fileName : String) (colunas : List JsVal) : JsObject (List Coluna) :=
  [(fileName, todasAsColunas colunas 0)]

/-- The options without origin column, rename, trimming or replacement. -/
def configuracoesNeutras : Configuracoes := ⟨none, false, false, none⟩

/-! ## Worked examples -/

/-- A store of uploads: two data files, a re-uploaded export that already has
an `__origem__` column, and nothing else. -/
def exArquivos : String → String → Except String (List Linha) := fun fileName _ =>
  if fileName = "u1.csv" then
    Except.ok [[("id", JsVal.str "1"), ("name", JsVal.str " Alice "), ("2024", JsVal.str "10")],
      [("id", JsVal.str "2"), ("name", JsVal.str "Bob")]]
  else if fileName = "u2.csv" then
    Except.ok [[("cidade", JsVal.str "Porto"), ("valor", JsVal.num 7)]]
  else if fileName = "u4.csv" then
    Except.ok [[("__origem__", JsVal.str "antigo.csv"), ("total", JsVal.num 5)]]
  else Except.error "ENOENT"

/-- Three files of a request; the third has no selected column. -/
def exPlanilhas : List Planilha :=
  [⟨"u1.csv", "clientes.csv"⟩, ⟨"u2.csv", "vendas.csv"⟩, ⟨"u3.csv", "vazio.csv"⟩]

/-- A selection map whose key order differs from the file order. -/
def exSelecao : JsObject (List Coluna) :=
  [("u2.csv", [⟨0, "cidade"⟩, ⟨1, "valor"⟩]), ("u1.csv", [⟨1, "name"⟩, ⟨2, "2024"⟩]), ("u3.csv", [])]

/-- Options: origin column and trimming. -/
def exConfig : Configuracoes := ⟨none, true, true, none⟩

/-- The rows combined from `exPlanilhas` under `exSelecao` and `exConfig`. -/
def exSaida : List Linha :=
  [[("__origem__", JsVal.str "clientes.csv"), ("name", JsVal.str "Alice"), ("2024", JsVal.str "10")],
   [("__origem__", JsVal.str "clientes.csv"), ("name", JsVal.str "Bob"), ("2024", JsVal.str "")],
   [("__origem__", JsVal.str "vendas.csv"), ("cidade", JsVal.str "Porto"), ("valor", JsVal.num 7)]]

/-- The two files of the example that have selected columns. -/
def exDuasPlanilhas : List Planilha :=
  [⟨"u1.csv", "clientes.csv"⟩, ⟨"u2.csv", "vendas.csv"⟩]

/-- A selection that picks the `__origem__` column of the re-uploaded export. -/
def exSelecaoReenviado : JsObject (List Coluna) :=
  [("u4.csv", [⟨0, "__origem__"⟩, ⟨1, "total"⟩]), ("u2.csv", [⟨0, "cidade"⟩])]

/-- Options with a rename mapping, one of whose entries is the empty string. -/
def exConfigRenomear : Configuracoes :=
  ⟨some [("u2.csv_cidade", "city"), ("u2.csv_valor", "")], false, false, none⟩

/-- Options with a replacement for empty cells. -/
def exConfigSubstituto : Configuracoes := ⟨none, false, false, some "N/A"⟩

/-- A selection of two columns of one file. -/
def exSelecaoColisao : JsObject (List Coluna) :=
  [("u1.csv", [⟨0, "id"⟩, ⟨1, "name"⟩])]

/-- Options renaming `id` of `u1.csv` to `name`, the name of another selected column. -/
def exConfigColisao : Configuracoes := ⟨some [("u1.csv_id", "name")], false, true, none⟩

/-- An instance of the date test that accepts exactly the texts of the form
`YYYY-MM-DD` made of digits; engines accept these and more. -/
def exDataValida (v : JsVal) : Bool :=
  match v with
  | JsVal.str s =>
    (match s.data with
      | [a, b, c, d, t1, m1, m2, t2, d1, d2] =>
        ehDigito a && ehDigito b && ehDigito c && ehDigito d && t1 = Char.ofNat 45
          && ehDigito m1 && ehDigito m2 && t2 = Char.ofNat 45 && ehDigito d1 && ehDigito d2
      | _ => false)
  | _ => false

/-- A sample of five rows whose column `n` has four numeric values out of five
and whose column `d` holds dates with two empty cells. -/
def exAmostra : List Linha :=
  [[("n", JsVal.str "1"), ("d", JsVal.str "2024-01-05"), ("t", JsVal.str "a")],
   [("n", JsVal.str "2"), ("d", JsVal.str ""), ("t", JsVal.str "b")],
   [("n", JsVal.str "x"), ("d", JsVal.str "2024-02-01"), ("t", JsVal.str "c")],
   [("n", JsVal.str "4"), ("t", JsVal.str "d")],
   [("n", JsVal.str "5"), ("d", JsVal.str "2024-03-09"), ("t", JsVal.str "")]]

/-- An environment in which every write succeeds and reports the length of the
written text (or the number of rows of the sheet) as size. -/
def exAmbiente : AmbienteExportacao :=
  ⟨Except.ok (), "2026-01-02T03-04-05", fun nome => "exports/" ++ nome,
    fun _ conteudo => Except.ok conteudo.length, fun _ _ _ dados => Except.ok dados.length,
    fun _ => "1 KB", "2026-01-02T03:04:05.678Z", "1767323045678"⟩

/-- Two rows with different key sets. -/
def exLinhasDesalinhadas : List Linha :=
  [[("a", JsVal.str "1"), ("b", JsVal.str "2")], [("b", JsVal.str "3")]]

/-- The table of the CSV with header `id,name,amount` and the rows
`1,Alice,10` and `2,Bob,20`, every field a string. -/
def exTabelaVendas : List String × List Linha :=
  (["id", "name", "amount"],
    [[("id", JsVal.str "1"), ("name", JsVal.str "Alice"), ("amount", JsVal.str "10")],
      [("id", JsVal.str "2"), ("name", JsVal.str "Bob"), ("amount", JsVal.str "20")]])

/-- A store of uploads for the readers, with a given date test:
`uploads/vendas.csv` holds the CSV of `exTabelaVendas`, read as that table when
the separator is the comma; `uploads/estoque.xlsx` is a sheet with a header and
one data row whose second cell is the number zero; `uploads/so_cabecalho.xlsx`
is a sheet with a header row only; `uploads/vazia.xlsx` is a sheet without
rows; `uploads/relatorio.pdf` is read by the workbook reader as a sheet of one
column. -/
def exLeitura (dataValida : JsVal → Bool) : AmbienteLeitura :=
  ⟨fun caminho =>
      if caminho = "uploads/vendas.csv" then
        Except.ok "id,name,amount\n1,Alice,10\n2,Bob,20\n"
      else Except.error "ENOENT",
    fun caminho separador =>
      if caminho = "uploads/vendas.csv" ∧ separador = "," then Except.ok exTabelaVendas
      else Except.error "ENOENT",
    fun caminho =>
      if caminho = "uploads/estoque.xlsx" then
        Except.ok [[JsVal.str "id", JsVal.str "qtd"], [JsVal.num 1, JsVal.num 0]]
      else if caminho = "uploads/so_cabecalho.xlsx" then
        Except.ok [[JsVal.str "id", JsVal.str "qtd"]]
      else if caminho = "uploads/vazia.xlsx" then Except.ok []
      else if caminho = "uploads/relatorio.pdf" then
        Except.ok [[JsVal.str "%PDF-1.7"], [JsVal.str "1 0 obj"]]
      else Except.error "ENOENT",
    fun caminho =>
      if caminho = "uploads/estoque.xlsx" then
        Except.ok [[JsVal.str "id", JsVal.str "qtd"], [JsVal.num 1, JsVal.num 0]]
      else if caminho = "uploads/so_cabecalho.xlsx" then
        Except.ok [[JsVal.str "id", JsVal.str "qtd"]]
      else if caminho = "uploads/vazia.xlsx" then Except.ok []
      else Except.error "ENOENT",
    dataValida,
    fun _ _ => "100.0"⟩

/-- A batch of two stored uploads: a workbook without rows, then the CSV of
`exTabelaVendas`. -/
def exLote : List ArquivoRecebido :=
  [⟨"vazia.xlsx", "vazia.xlsx", "uploads/vazia.xlsx",
      "application/vnd.openxmlformats-officedocument.spreadsheetml.sheet", 0⟩,
    ⟨"vendas.csv", "vendas.csv", "uploads/vendas.csv", "text/csv", 37⟩]

/-- An upload environment over the example store in which every stored file
exists and a deletion has the given outcome. -/
def exUpload (remover : String → Except String Unit) : AmbienteUpload :=
  ⟨exLeitura exDataValida, fun _ => true, remover, fun n => "id-" ++ toString n,
    fun _ => "2026-01-02T03:04:05.678Z"⟩

/-! ## Lemmas: objects and property enumeration -/

theorem get_mem {α : Type} (o : JsObject α) (k : String) (v : α)
    (h : JsObject.get o k = some v) : (k, v) ∈ o := by
  induction o with
  | nil => simp [JsObject.get] at h
  | cons e resto ih =>
    obtain ⟨k', v'⟩ := e
    simp only [JsObject.get] at h
    split at h
    · next hk =>
      cases h
      subst hk
      exact List.mem_cons_self _ _
    · exact List.mem_cons_of_mem _ (ih h)

theorem inserirPorIndice_perm {α : Type} (e : Nat × (String × α)) (l : List (Nat × (String × α))) :
    (inserirPorIndice e l).Perm (e :: l) := by
  induction l with
  | nil => exact List.Perm.refl _
  | cons x xs ih =>
    simp only [inserirPorIndice]
    split
    · exact List.Perm.refl _
    · exact (List.Perm.cons x ih).trans (List.Perm.swap e x xs)

theorem ordenarPorIndice_perm {α : Type} (l : List (Nat × (String × α))) :
    (ordenarPorIndice l).Perm l := by
  induction l with
  | nil => exact List.Perm.refl _
  | cons x xs ih =>
    simp only [ordenarPorIndice]
    exact (inserirPorIndice_perm x _).trans (List.Perm.cons x ih)

theorem filterMap_indice_snd {α : Type} (o : JsObject α) :
    (o.filterMap (fun e => (arrayIndex? e.1).map (fun n => (n, e)))).map Prod.snd
      = o.filter (fun e => (arrayIndex? e.1).isSome) := by
  induction o with
  | nil => rfl
  | cons e resto ih =>
    cases h : arrayIndex? e.1 with
    | none => simp [List.filterMap_cons, List.filter_cons, h, ih]
    | some n => simp [List.filterMap_cons, List.filter_cons, h, ih]

theorem entries_perm {α : Type} (o : JsObject α) : (JsObject.entries o).Perm o := by
  unfold JsObject.entries
  have h1 : ((ordenarPorIndice (o.filterMap (fun e => (arrayIndex? e.1).map (fun n => (n, e))))).map
      Prod.snd).Perm (o.filter (fun e => (arrayIndex? e.1).isSome)) := by
    rw [← filterMap_indice_snd]
    exact (ordenarPorIndice_perm _).map _
  have h2 : (o.filter (fun e => (arrayIndex? e.1).isNone))
      = o.filter (fun e => !(fun e : String × α => (arrayIndex? e.1).isSome) e) := by
    congr 1
    funext e
    show (arrayIndex? e.1).isNone = !(arrayIndex? e.1).isSome
    cases arrayIndex? e.1 <;> rfl
  rw [h2]
  exact (List.Perm.append_right _ h1).trans (List.filter_append_perm _ o)

theorem mem_entries {α : Type} (o : JsObject α) (e : String × α) :
    e ∈ JsObject.entries o ↔ e ∈ o :=
  (entries_perm o).mem_iff

theorem keys_perm {α : Type} (o : JsObject α) : (JsObject.keys o).Perm (o.map Prod.fst) :=
  (entries_perm o).map _

theorem entries_sem_indices {α : Type} (o : JsObject α)
    (h : ∀ e ∈ o, arrayIndex? e.1 = none) : JsObject.entries o = o := by
  unfold JsObject.entries
  have h1 : o.filterMap (fun e => (arrayIndex? e.1).map (fun n => (n, e))) = [] := by
    rw [List.filterMap_eq_nil_iff]
    intro e he
    simp [h e he]
  have h2 : o.filter (fun e => (arrayIndex? e.1).isNone) = o := by
    rw [List.filter_eq_self]
    intro e he
    simp [h e he]
  rw [h1, h2]
  rfl

/-! ## Lemmas: the loops refine the reference combination -/

theorem foldl_push_eq_append {α β : Type} (f : β → α) (l : List β) (acc : List α) :
    l.foldl (fun a b => a ++ [f b]) acc = acc ++ l.map f := by
  induction l generalizing acc with
  | nil => simp
  | cons b bs ih => simp [List.foldl_cons, ih]

theorem prepararCabecalho_eq (sel : JsObject (List Coluna)) (cfg : Configuracoes) :
    prepararCabecalho sel cfg
      = (JsObject.entries sel).flatMap (fun par =>
          par.2.map (fun c => Cabecalho.mk c.nome (nomeColuna cfg par.1 c) par.1 c.indice)) := by
  unfold prepararCabecalho
  suffices h : ∀ (es : List (String × List Coluna)) (acc : List Cabecalho),
      es.foldl (fun cabecalhoFinal par =>
        par.2.foldl (fun cab coluna =>
          cab ++ [Cabecalho.mk coluna.nome (nomeColuna cfg par.1 coluna) par.1 coluna.indice])
          cabecalhoFinal) acc
      = acc ++ es.flatMap (fun par =>
          par.2.map (fun c => Cabecalho.mk c.nome (nomeColuna cfg par.1 c) par.1 c.indice)) by
    simpa using h (JsObject.entries sel) []
  intro es
  induction es with
  | nil => intro acc; simp
  | cons e es ih =>
    intro acc
    rw [List.foldl_cons, ih, foldl_push_eq_append, List.flatMap_cons, List.append_assoc]

theorem nomeColuna_nome (cfg : Configuracoes) (f : String) (c c' : Coluna)
    (h : c.nome = c'.nome) : nomeColuna cfg f c = nomeColuna cfg f c' := by
  unfold nomeColuna
  rw [h]

theorem find_cabecalho (sel : JsObject (List Coluna)) (cfg : Configuracoes) (f : String)
    (cols : List Coluna) (c : Coluna) (hsel : JsObject.get sel f = some cols) (hc : c ∈ cols) :
    ∃ h, (prepararCabecalho sel cfg).find?
        (fun h => h.planilhaOrigem == f && h.nomeOriginal == c.nome) = some h
      ∧ h.nomeFinal = nomeColuna cfg f c := by
  have hmem : Cabecalho.mk c.nome (nomeColuna cfg f c) f c.indice ∈ prepararCabecalho sel cfg := by
    rw [prepararCabecalho_eq, List.mem_flatMap]
    exact ⟨(f, cols), (mem_entries sel _).2 (get_mem sel f cols hsel),
      List.mem_map.2 ⟨c, hc, rfl⟩⟩
  cases hfind : (prepararCabecalho sel cfg).find?
      (fun h => h.planilhaOrigem == f && h.nomeOriginal == c.nome) with
  | none =>
    rw [List.find?_eq_none] at hfind
    have := hfind _ hmem
    simp at this
  | some h =>
    refine ⟨h, rfl, ?_⟩
    have hp := List.find?_some hfind
    have hm := List.mem_of_find?_eq_some hfind
    rw [prepararCabecalho_eq, List.mem_flatMap] at hm
    obtain ⟨par, _, hpar⟩ := hm
    obtain ⟨c', _, rfl⟩ := List.mem_map.1 hpar
    simp only [Bool.and_eq_true, beq_iff_eq] at hp
    obtain ⟨hf, hn⟩ := hp
    subst hf
    exact nomeColuna_nome cfg _ c' c hn

theorem construirLinha_eq (sel : JsObject (List Coluna)) (cfg : Configuracoes) (p : Planilha)
    (cols : List Coluna) (linha : Linha) (hsel : JsObject.get sel p.fileName = some cols) :
    construirLinha (prepararCabecalho sel cfg) p cols cfg linha = linhaEsperada cfg p cols linha := by
  unfold construirLinha linhaEsperada
  have hini : (if cfg.incluirOrigem then
        JsObject.set ([] : Linha) chaveOrigem (JsVal.str p.originalName) else [])
      = (if cfg.incluirOrigem then [(chaveOrigem, JsVal.str p.originalName)] else []) := by
    simp [JsObject.set]
  simp only [hini]
  apply List.foldl_ext
  intro novaLinha c hc
  obtain ⟨h, hfind, hfinal⟩ := find_cabecalho sel cfg p.fileName cols c hsel hc
  simp only [hfind, hfinal]

theorem temSelecao_true (sel : JsObject (List Coluna)) (p : Planilha) :
    temSelecao sel p = true ↔ ∃ c cs, JsObject.get sel p.fileName = some (c :: cs) := by
  unfold temSelecao
  cases h : JsObject.get sel p.fileName with
  | none => simp
  | some cols =>
    cases cols with
    | nil => simp
    | cons c cs => simp

theorem temSelecao_false (sel : JsObject (List Coluna)) (p : Planilha) :
    temSelecao sel p = false
      ↔ JsObject.get sel p.fileName = none ∨ JsObject.get sel p.fileName = some [] := by
  unfold temSelecao
  cases h : JsObject.get sel p.fileName with
  | none => simp
  | some cols =>
    cases cols with
    | nil => simp
    | cons c cs => simp

theorem processarPlanilhas_eq (fs : String → String → Except String (List Linha))
    (sel : JsObject (List Coluna)) (cfg : Configuracoes) (ps : List Planilha) (acc : List Linha) :
    processarPlanilhas fs (prepararCabecalho sel cfg) sel cfg ps acc
      = match combinarEsperado fs sel cfg ps with
        | Except.ok dados => Except.ok (acc ++ dados)
        | Except.error mensagem => Except.error mensagem := by
  induction ps generalizing acc with
  | nil => simp [processarPlanilhas, combinarEsperado]
  | cons p resto ih =>
    unfold processarPlanilhas combinarEsperado
    cases hsel : JsObject.get sel p.fileName with
    | none =>
      have ht : temSelecao sel p = false := (temSelecao_false sel p).2 (Or.inl hsel)
      simp only [ht]
      exact ih acc
    | some cols =>
      cases cols with
      | nil =>
        have ht : temSelecao sel p = false := (temSelecao_false sel p).2 (Or.inr hsel)
        simp only [ht, List.length_nil, if_true]
        exact ih acc
      | cons c cs =>
        have ht : temSelecao sel p = true := (temSelecao_true sel p).2 ⟨c, cs, hsel⟩
        have hcols : colunasDe sel p = c :: cs := by simp [colunasDe, hsel]
        simp only [ht, List.length_cons, Nat.succ_ne_zero, if_false, if_true, hcols]
        cases hfs : fs p.fileName p.originalName with
        | error m => rfl
        | ok dados =>
          simp only []
          rw [ih, foldl_push_eq_append]
          have hmap : dados.map (construirLinha (prepararCabecalho sel cfg) p (c :: cs) cfg)
              = dados.map (linhaEsperada cfg p (c :: cs)) := by
            apply List.map_congr_left
            intro linha _
            exact construirLinha_eq sel cfg p (c :: cs) linha hsel
          rw [hmap]
          cases combinarEsperado fs sel cfg resto with
          | error m => rfl
          | ok seguintes => simp [List.append_assoc]

theorem combinarPlanilhas_eq (fs : String → String → Except String (List Linha))
    (ps : List Planilha) (sel : JsObject (List Coluna)) (cfg : Configuracoes) :
    combinarPlanilhas fs ps sel cfg = embrulharErro (combinarEsperado fs sel cfg ps) := by
  unfold combinarPlanilhas embrulharErro
  rw [processarPlanilhas_eq]
  cases combinarEsperado fs sel cfg ps with
  | error m => rfl
  | ok dados => simp

/-! ## Lemmas: shape of a successful combination -/

theorem fontes_cons (fs : String → String → Except String (List Linha))
    (sel : JsObject (List Coluna)) (p : Planilha) (ps : List Planilha) :
    fontes fs sel (p :: ps)
      = (if temSelecao sel p then
          (dadosDe fs p).map (fun linha => (p, colunasDe sel p, linha)) else [])
        ++ fontes fs sel ps := by
  unfold fontes
  cases h : temSelecao sel p <;> simp [List.filter_cons, h]

theorem combinarEsperado_ok (fs : String → String → Except String (List Linha))
    (sel : JsObject (List Coluna)) (cfg : Configuracoes) (ps : List Planilha) (out : List Linha)
    (h : combinarEsperado fs sel cfg ps = Except.ok out) :
    (∀ p ∈ ps, temSelecao sel p = true → ∃ d, fs p.fileName p.originalName = Except.ok d)
      ∧ out = (fontes fs sel ps).map (fun s => linhaEsperada cfg s.1 s.2.1 s.2.2) := by
  induction ps generalizing out with
  | nil =>
    simp only [combinarEsperado, Except.ok.injEq] at h
    subst h
    simp [fontes]
  | cons p resto ih =>
    unfold combinarEsperado at h
    rw [fontes_cons]
    cases ht : temSelecao sel p with
    | false =>
      simp only [ht] at h
      obtain ⟨h1, h2⟩ := ih out h
      refine ⟨?_, by simpa using h2⟩
      intro q hq hsel
      rcases List.mem_cons.1 hq with rfl | hq
      · rw [ht] at hsel; cases hsel
      · exact h1 q hq hsel
    | true =>
      simp only [ht, if_true] at h
      cases hfs : fs p.fileName p.originalName with
      | error m => simp [hfs] at h
      | ok dados =>
        simp only [hfs] at h
        cases hrest : combinarEsperado fs sel cfg resto with
        | error m => simp [hrest] at h
        | ok seguintes =>
          simp only [hrest, Except.ok.injEq] at h
          obtain ⟨h1, h2⟩ := ih seguintes hrest
          refine ⟨?_, ?_⟩
          · intro q hq hsel
            rcases List.mem_cons.1 hq with rfl | hq
            · exact ⟨dados, hfs⟩
            · exact h1 q hq hsel
          · rw [← h, h2]
            simp [dadosDe, hfs, List.map_map, Function.comp_def]

theorem combinarEsperado_sucesso (fs : String → String → Except String (List Linha))
    (sel : JsObject (List Coluna)) (cfg : Configuracoes) (ps : List Planilha)
    (hload : ∀ p ∈ ps, temSelecao sel p = true → ∃ d, fs p.fileName p.originalName = Except.ok d) :
    combinarEsperado fs sel cfg ps
      = Except.ok ((fontes fs sel ps).map (fun s => linhaEsperada cfg s.1 s.2.1 s.2.2)) := by
  induction ps with
  | nil => simp [combinarEsperado, fontes]
  | cons p resto ih =>
    have ih1 := ih (fun q hq => hload q (List.mem_cons_of_mem _ hq))
    unfold combinarEsperado
    rw [fontes_cons]
    cases ht : temSelecao sel p with
    | false => simpa [ht] using ih1
    | true =>
      obtain ⟨d, hd⟩ := hload p (List.mem_cons_self _ _) ht
      simp [hd, ih1, dadosDe, List.map_map, Function.comp_def]

theorem combinarPlanilhas_ok (fs : String → String → Except String (List Linha))
    (ps : List Planilha) (sel : JsObject (List Coluna)) (cfg : Configuracoes) (out : List Linha)
    (h : combinarPlanilhas fs ps sel cfg = Except.ok out) :
    (∀ p ∈ ps, temSelecao sel p = true → ∃ d, fs p.fileName p.originalName = Except.ok d)
      ∧ out = (fontes fs sel ps).map (fun s => linhaEsperada cfg s.1 s.2.1 s.2.2) := by
  rw [combinarPlanilhas_eq] at h
  cases hc : combinarEsperado fs sel cfg ps with
  | error m => simp [hc, embrulharErro] at h
  | ok dados =>
    simp only [hc, embrulharErro, Except.ok.injEq] at h
    subst h
    exact combinarEsperado_ok fs sel cfg ps dados hc

theorem combinarPlanilhas_sucesso (fs : String → String → Except String (List Linha))
    (ps : List Planilha) (sel : JsObject (List Coluna)) (cfg : Configuracoes)
    (hload : ∀ p ∈ ps, temSelecao sel p = true → ∃ d, fs p.fileName p.originalName = Except.ok d) :
    combinarPlanilhas fs ps sel cfg
      = Except.ok ((fontes fs sel ps).map (fun s => linhaEsperada cfg s.1 s.2.1 s.2.2)) := by
  rw [combinarPlanilhas_eq, combinarEsperado_sucesso fs sel cfg ps hload]
  rfl

theorem linhaEsperada_nomes (cfg : Configuracoes) (p : Planilha) (cols cols' : List Coluna)
    (linha : Linha) (h : cols.map Coluna.nome = cols'.map Coluna.nome) :
    linhaEsperada cfg p cols linha = linhaEsperada cfg p cols' linha := by
  have key : ∀ (cs : List Coluna) (ini : Linha),
      cs.foldl (fun novaLinha coluna =>
        JsObject.set novaLinha (nomeColuna cfg p.fileName coluna)
          (_processarValor (lerCelula linha coluna.nome) cfg)) ini
      = (cs.map Coluna.nome).foldl (fun novaLinha nome =>
        JsObject.set novaLinha (nomeColuna cfg p.fileName ⟨0, nome⟩)
          (_processarValor (lerCelula linha nome) cfg)) ini := by
    intro cs
    induction cs with
    | nil => intro ini; rfl
    | cons c cs ih =>
      intro ini
      simp only [List.foldl_cons, List.map_cons]
      rw [ih, nomeColuna_nome cfg p.fileName c ⟨0, c.nome⟩ rfl]
  unfold linhaEsperada
  rw [key, key, h]

theorem temSelecao_nomes (sel sel' : JsObject (List Coluna)) (p : Planilha)
    (h : nomesSelecionados sel p.fileName = nomesSelecionados sel' p.fileName) :
    temSelecao sel p = temSelecao sel' p := by
  unfold nomesSelecionados at h
  unfold temSelecao
  cases h1 : JsObject.get sel p.fileName with
  | none =>
    cases h2 : JsObject.get sel' p.fileName with
    | none => rfl
    | some c2 => cases c2 <;> simp_all
  | some c1 =>
    cases h2 : JsObject.get sel' p.fileName with
    | none => cases c1 <;> simp_all
    | some c2 => cases c1 <;> cases c2 <;> simp_all

theorem combinarEsperado_nomes (fs : String → String → Except String (List Linha))
    (sel sel' : JsObject (List Coluna)) (cfg : Configuracoes) (ps : List Planilha)
    (h : ∀ p ∈ ps, nomesSelecionados sel p.fileName = nomesSelecionados sel' p.fileName) :
    combinarEsperado fs sel cfg ps = combinarEsperado fs sel' cfg ps := by
  induction ps with
  | nil => rfl
  | cons p resto ih =>
    have ih1 := ih (fun q hq => h q (List.mem_cons_of_mem _ hq))
    have hp := h p (List.mem_cons_self _ _)
    unfold combinarEsperado
    rw [ih1, temSelecao_nomes sel sel' p hp]
    have hl : ∀ linha, linhaEsperada cfg p (colunasDe sel p) linha
        = linhaEsperada cfg p (colunasDe sel' p) linha :=
      fun linha => linhaEsperada_nomes cfg p _ _ linha hp
    have hf : linhaEsperada cfg p (colunasDe sel p) = linhaEsperada cfg p (colunasDe sel' p) :=
      funext hl
    rw [hf]

theorem combinarPlanilhas_nomes (fs : String → String → Except String (List Linha))
    (sel sel' : JsObject (List Coluna)) (cfg : Configuracoes) (ps : List Planilha)
    (h : ∀ p ∈ ps, nomesSelecionados sel p.fileName = nomesSelecionados sel' p.fileName) :
    combinarPlanilhas fs ps sel cfg = combinarPlanilhas fs ps sel' cfg := by
  rw [combinarPlanilhas_eq, combinarPlanilhas_eq, combinarEsperado_nomes fs sel sel' cfg ps h]

/-! ## Lemmas: property writes -/

theorem get_set {α : Type} (o : JsObject α) (k k' : String) (v : α) :
    JsObject.get (JsObject.set o k v) k' = if k = k' then some v else JsObject.get o k' := by
  induction o with
  | nil => simp [JsObject.set, JsObject.get]
  | cons e resto ih =>
    obtain ⟨k0, v0⟩ := e
    simp only [JsObject.set]
    by_cases h0 : k0 = k
    · subst h0
      by_cases h1 : k0 = k' <;> simp [JsObject.get, h1]
    · by_cases h1 : k = k'
      · subst h1
        rw [if_neg h0]
        simp [JsObject.get, h0, ih]
      · rw [if_neg h0]
        by_cases h2 : k0 = k' <;> simp [JsObject.get, h1, h2, ih]

theorem get_isSome_iff {α : Type} (o : JsObject α) (k : String) :
    (JsObject.get o k).isSome = true ↔ k ∈ o.map Prod.fst := by
  induction o with
  | nil => simp [JsObject.get]
  | cons e resto ih =>
    obtain ⟨k0, v0⟩ := e
    by_cases h0 : k0 = k
    · simp [JsObject.get, h0]
    · have h0' : ¬ k = k0 := fun h => h0 h.symm
      simp [JsObject.get, h0, h0', ih]

theorem set_chaves {α : Type} (o : JsObject α) (k : String) (v : α) :
    (JsObject.set o k v).map Prod.fst
      = if k ∈ o.map Prod.fst then o.map Prod.fst else o.map Prod.fst ++ [k] := by
  induction o with
  | nil => simp [JsObject.set]
  | cons e resto ih =>
    obtain ⟨k0, v0⟩ := e
    by_cases h0 : k0 = k
    · simp [JsObject.set, h0]
    · have h0' : ¬ k = k0 := fun h => h0 h.symm
      simp only [JsObject.set, h0, if_false, List.map_cons, ih, List.mem_cons, h0', false_or]
      split <;> simp

theorem set_nodup {α : Type} (o : JsObject α) (k : String) (v : α)
    (h : (o.map Prod.fst).Nodup) : ((JsObject.set o k v).map Prod.fst).Nodup := by
  rw [set_chaves]
  split
  · exact h
  · next hk =>
    rw [List.nodup_append]
    refine ⟨h, List.nodup_singleton k, ?_⟩
    intro a ha hb
    rw [List.mem_singleton] at hb
    subst hb
    exact hk ha

theorem set_head {α : Type} (o : JsObject α) (k : String) (v : α) (k0 : String)
    (h : (o.map Prod.fst).head? = some k0) :
    ((JsObject.set o k v).map Prod.fst).head? = some k0 := by
  cases o with
  | nil => simp at h
  | cons e resto =>
    obtain ⟨k1, v1⟩ := e
    simp only [JsObject.set]
    split <;> simpa using h

section Dobra

variable {γ : Type} (kf : γ → String) (vf : γ → JsVal)

theorem dobra_get_fora (cols : List γ) (ini : Linha) (k : String)
    (h : ∀ c ∈ cols, kf c ≠ k) :
    JsObject.get (cols.foldl (fun o c => JsObject.set o (kf c) (vf c)) ini) k
      = JsObject.get ini k := by
  induction cols generalizing ini with
  | nil => rfl
  | cons c cs ih =>
    rw [List.foldl_cons, ih _ (fun c' hc' => h c' (List.mem_cons_of_mem _ hc')), get_set]
    simp [h c (List.mem_cons_self _ _)]

theorem dobra_get_ultima (pre pos : List γ) (c : γ) (ini : Linha)
    (h : ∀ c' ∈ pos, kf c' ≠ kf c) :
    JsObject.get ((pre ++ c :: pos).foldl (fun o c => JsObject.set o (kf c) (vf c)) ini) (kf c)
      = some (vf c) := by
  rw [List.foldl_append, List.foldl_cons, dobra_get_fora kf vf pos _ _ h, get_set]
  simp

theorem dobra_chaves_mono (cols : List γ) (ini : Linha) (k : String)
    (h : k ∈ ini.map Prod.fst) :
    k ∈ (cols.foldl (fun o c => JsObject.set o (kf c) (vf c)) ini).map Prod.fst := by
  induction cols generalizing ini with
  | nil => exact h
  | cons c cs ih =>
    rw [List.foldl_cons]
    apply ih
    rw [set_chaves]
    split
    · exact h
    · exact List.mem_append_left _ h

theorem dobra_chaves_mem (cols : List γ) (ini : Linha) (c : γ) (hc : c ∈ cols) :
    kf c ∈ (cols.foldl (fun o c => JsObject.set o (kf c) (vf c)) ini).map Prod.fst := by
  induction cols generalizing ini with
  | nil => cases hc
  | cons c0 cs ih =>
    rw [List.foldl_cons]
    rcases List.mem_cons.1 hc with rfl | hc
    · apply dobra_chaves_mono
      rw [set_chaves]
      split
      · assumption
      · simp
    · exact ih _ hc

theorem dobra_chaves_sub (cols : List γ) (ini : Linha) (k : String)
    (h : k ∈ (cols.foldl (fun o c => JsObject.set o (kf c) (vf c)) ini).map Prod.fst) :
    k ∈ ini.map Prod.fst ∨ ∃ c ∈ cols, kf c = k := by
  induction cols generalizing ini with
  | nil => exact Or.inl h
  | cons c0 cs ih =>
    rw [List.foldl_cons] at h
    rcases ih _ h with h1 | ⟨c, hc, hk⟩
    · rw [set_chaves] at h1
      split at h1
      · exact Or.inl h1
      · rcases List.mem_append.1 h1 with h2 | h2
        · exact Or.inl h2
        · rw [List.mem_singleton] at h2
          exact Or.inr ⟨c0, List.mem_cons_self _ _, h2.symm⟩
    · exact Or.inr ⟨c, List.mem_cons_of_mem _ hc, hk⟩

theorem dobra_nodup (cols : List γ) (ini : Linha) (h : (ini.map Prod.fst).Nodup) :
    ((cols.foldl (fun o c => JsObject.set o (kf c) (vf c)) ini).map Prod.fst).Nodup := by
  induction cols generalizing ini with
  | nil => exact h
  | cons c cs ih =>
    rw [List.foldl_cons]
    exact ih _ (set_nodup _ _ _ h)

theorem dobra_head (cols : List γ) (ini : Linha) (k0 : String)
    (h : (ini.map Prod.fst).head? = some k0) :
    ((cols.foldl (fun o c => JsObject.set o (kf c) (vf c)) ini).map Prod.fst).head? = some k0 := by
  induction cols generalizing ini with
  | nil => exact h
  | cons c cs ih =>
    rw [List.foldl_cons]
    exact ih _ (set_head _ _ _ _ h)

end Dobra

/-! ## Lemmas: rows of the combination -/

theorem get_iff_mem {α : Type} (o : JsObject α) (k : String) (v : α)
    (hnd : (o.map Prod.fst).Nodup) : JsObject.get o k = some v ↔ (k, v) ∈ o := by
  refine ⟨get_mem o k v, ?_⟩
  induction o with
  | nil => intro h; cases h
  | cons e resto ih =>
    obtain ⟨k0, v0⟩ := e
    intro h
    rw [List.map_cons, List.nodup_cons] at hnd
    rcases List.mem_cons.1 h with h1 | h1
    · cases h1
      simp [JsObject.get]
    · have hne : k0 ≠ k := by
        intro hk
        subst hk
        exact hnd.1 (List.mem_map.2 ⟨(k0, v), h1, rfl⟩)
      simp only [JsObject.get, hne, if_false]
      exact ih hnd.2 h1

theorem get_perm {α : Type} (o o' : JsObject α) (hperm : o'.Perm o)
    (hnd : (o.map Prod.fst).Nodup) (k : String) : JsObject.get o' k = JsObject.get o k := by
  have hnd' : (o'.map Prod.fst).Nodup := ((hperm.map Prod.fst).nodup_iff).2 hnd
  apply Option.ext
  intro v
  rw [Option.mem_def, Option.mem_def, get_iff_mem o' k v hnd', get_iff_mem o k v hnd]
  exact hperm.mem_iff

theorem get_filter_ne {α : Type} (o : JsObject α) (f k : String) (hk : k ≠ f) :
    JsObject.get (o.filter (fun e => decide (e.1 ≠ f))) k = JsObject.get o k := by
  induction o with
  | nil => rfl
  | cons e resto ih =>
    obtain ⟨k0, v0⟩ := e
    rw [List.filter_cons]
    split
    · simp only [JsObject.get, ih]
    · next h =>
      have h0 : k0 = f := by simpa using h
      have hne : ¬ k0 = k := fun h1 => hk (h1 ▸ h0)
      rw [ih]
      simp only [JsObject.get, hne, if_false]

theorem get_filter_eq {α : Type} (o : JsObject α) (f : String) :
    JsObject.get (o.filter (fun e => decide (e.1 ≠ f))) f = none := by
  induction o with
  | nil => rfl
  | cons e resto ih =>
    obtain ⟨k0, v0⟩ := e
    rw [List.filter_cons]
    split
    · next h =>
      have h0 : ¬ k0 = f := by simpa using h
      simp only [JsObject.get, h0, if_false, ih]
    · exact ih

theorem get_map_valores {α β : Type} (g : α → β) (o : JsObject α) (k : String) :
    JsObject.get (o.map (fun e => (e.1, g e.2))) k = (JsObject.get o k).map g := by
  induction o with
  | nil => rfl
  | cons e resto ih =>
    obtain ⟨k0, v0⟩ := e
    by_cases h0 : k0 = k <;> simp [JsObject.get, h0, ih]

theorem combinarPlanilhas_pares (fs : String → String → Except String (List Linha))
    (ps : List Planilha) (sel : JsObject (List Coluna)) (cfg : Configuracoes) (saida : List Linha)
    (P : Planilha × List Coluna × Linha → Linha → Prop)
    (hP : ∀ fonte ∈ fontes fs sel ps, P fonte (linhaEsperada cfg fonte.1 fonte.2.1 fonte.2.2))
    (h : combinarPlanilhas fs ps sel cfg = Except.ok saida) :
    List.Forall₂ P (fontes fs sel ps) saida := by
  rw [(combinarPlanilhas_ok fs ps sel cfg saida h).2, List.forall₂_map_right_iff,
    List.forall₂_same]
  exact hP

theorem linhaEsperada_nodup (cfg : Configuracoes) (p : Planilha) (cols : List Coluna)
    (linha : Linha) : ((linhaEsperada cfg p cols linha).map Prod.fst).Nodup := by
  unfold linhaEsperada
  apply dobra_nodup
  split <;> simp

theorem linhaEsperada_chave (cfg : Configuracoes) (p : Planilha) (cols : List Coluna)
    (linha : Linha) (c : Coluna) (hc : c ∈ cols) :
    nomeColuna cfg p.fileName c ∈ JsObject.keys (linhaEsperada cfg p cols linha) := by
  rw [(keys_perm _).mem_iff]
  exact dobra_chaves_mem (nomeColuna cfg p.fileName)
    (fun c => _processarValor (lerCelula linha c.nome) cfg) cols _ c hc

theorem linhaEsperada_ultima (cfg : Configuracoes) (p : Planilha) (pre pos : List Coluna)
    (c : Coluna) (linha : Linha)
    (h : ∀ c' ∈ pos, nomeColuna cfg p.fileName c' ≠ nomeColuna cfg p.fileName c) :
    JsObject.get (linhaEsperada cfg p (pre ++ c :: pos) linha) (nomeColuna cfg p.fileName c)
      = some (_processarValor (lerCelula linha c.nome) cfg) :=
  dobra_get_ultima (nomeColuna cfg p.fileName)
    (fun c => _processarValor (lerCelula linha c.nome) cfg) pre pos c _ h

theorem linhaEsperada_uma_vez (cfg : Configuracoes) (p : Planilha) (cols : List Coluna)
    (linha : Linha) (c : Coluna) (hc : c ∈ cols) :
    (JsObject.keys (linhaEsperada cfg p cols linha)).count (nomeColuna cfg p.fileName c) = 1 := by
  rw [(keys_perm _).count_eq]
  exact List.count_eq_one_of_mem (linhaEsperada_nodup cfg p cols linha)
    (dobra_chaves_mem (nomeColuna cfg p.fileName)
      (fun c => _processarValor (lerCelula linha c.nome) cfg) cols _ c hc)

theorem linhaEsperada_origem_chave (cfg : Configuracoes) (p : Planilha) (cols : List Coluna)
    (linha : Linha) (horigem : cfg.incluirOrigem = true) :
    chaveOrigem ∈ JsObject.keys (linhaEsperada cfg p cols linha) := by
  rw [(keys_perm _).mem_iff]
  unfold linhaEsperada
  apply dobra_chaves_mono
  simp [horigem]

theorem linhaEsperada_origem_valor (cfg : Configuracoes) (p : Planilha) (cols : List Coluna)
    (linha : Linha) (horigem : cfg.incluirOrigem = true)
    (h : ∀ c ∈ cols, nomeColuna cfg p.fileName c ≠ chaveOrigem) :
    JsObject.get (linhaEsperada cfg p cols linha) chaveOrigem
      = some (JsVal.str p.originalName) := by
  unfold linhaEsperada
  rw [dobra_get_fora _ _ cols _ chaveOrigem h]
  simp [horigem, JsObject.get]

theorem arrayIndex_chaveOrigem : arrayIndex? chaveOrigem = none := by decide

theorem linhaEsperada_origem_primeira (cfg : Configuracoes) (p : Planilha) (cols : List Coluna)
    (linha : Linha) (horigem : cfg.incluirOrigem = true)
    (h : ∀ c ∈ cols, arrayIndex? (nomeColuna cfg p.fileName c) = none) :
    (JsObject.keys (linhaEsperada cfg p cols linha)).head? = some chaveOrigem := by
  have hsem : ∀ e ∈ linhaEsperada cfg p cols linha, arrayIndex? e.1 = none := by
    intro e he
    have hk : e.1 ∈ (linhaEsperada cfg p cols linha).map Prod.fst := List.mem_map.2 ⟨e, he, rfl⟩
    unfold linhaEsperada at hk
    rcases dobra_chaves_sub _ _ cols _ e.1 hk with h1 | ⟨c, hc, hkc⟩
    · simp only [horigem, if_true, List.map_cons, List.map_nil, List.mem_singleton] at h1
      rw [h1]
      exact arrayIndex_chaveOrigem
    · rw [← hkc]
      exact h c hc
  unfold JsObject.keys
  rw [entries_sem_indices _ hsem]
  unfold linhaEsperada
  apply dobra_head
  simp [horigem]

theorem combinarPlanilhas_um_arquivo (fs : String → String → Except String (List Linha))
    (sel : JsObject (List Coluna)) (cfg : Configuracoes) (p : Planilha) (cols : List Coluna)
    (d : List Linha) (hsel : JsObject.get sel p.fileName = some cols) (hne : cols ≠ [])
    (hd : fs p.fileName p.originalName = Except.ok d) :
    combinarPlanilhas fs [p] sel cfg
      = Except.ok (d.map (construirLinha (prepararCabecalho sel cfg) p cols cfg)) := by
  cases cols with
  | nil => exact absurd rfl hne
  | cons c cs =>
    unfold combinarPlanilhas
    simp [processarPlanilhas, hsel, hd, foldl_push_eq_append]

theorem nomeColuna_renomeada (cfg : Configuracoes) (f : String) (c : Coluna)
    (r : JsObject String) (novo : String) (hr : cfg.renomearColunas = some r)
    (hget : JsObject.get r (f ++ "_" ++ c.nome) = some novo) (hnovo : novo ≠ "") :
    nomeColuna cfg f c = novo := by
  simp [nomeColuna, chaveRenomear, hr, hget, hnovo]

theorem nomeColuna_original (cfg : Configuracoes) (f : String) (c : Coluna)
    (h : cfg.renomearColunas = none
      ∨ ∃ r, cfg.renomearColunas = some r
        ∧ (JsObject.get r (f ++ "_" ++ c.nome) = none
          ∨ JsObject.get r (f ++ "_" ++ c.nome) = some "")) :
    nomeColuna cfg f c = c.nome := by
  rcases h with h | ⟨r, hr, h | h⟩ <;> simp [nomeColuna, chaveRenomear, *]

theorem all_takeWhile_ws (cs : List Char) : (cs.takeWhile isJsWhiteSpace).all isJsWhiteSpace = true := by
  induction cs with
  | nil => rfl
  | cons c cs ih =>
    rw [List.takeWhile_cons]
    split
    · next h => simp [List.all_cons, h, ih]
    · rfl

theorem head_dropWhile_ws (cs : List Char) :
    ((cs.dropWhile isJsWhiteSpace).head?.all (fun c => !isJsWhiteSpace c)) = true := by
  have := List.head?_dropWhile_not isJsWhiteSpace cs
  cases h : (cs.dropWhile isJsWhiteSpace).head? with
  | none => rfl
  | some c =>
    rw [h] at this
    simp only at this
    simp [Option.all, this]

theorem trimChars_spec (cs : List Char) :
    ∃ pre pos, cs = pre ++ trimChars cs ++ pos
      ∧ pre.all isJsWhiteSpace = true ∧ pos.all isJsWhiteSpace = true
      ∧ (trimChars cs).head?.all (fun c => !isJsWhiteSpace c) = true
      ∧ (trimChars cs).getLast?.all (fun c => !isJsWhiteSpace c) = true := by
  have hd : cs.dropWhile isJsWhiteSpace
      = trimChars cs ++ ((cs.dropWhile isJsWhiteSpace).reverse.takeWhile isJsWhiteSpace).reverse := by
    unfold trimChars
    rw [← List.reverse_append, List.takeWhile_append_dropWhile, List.reverse_reverse]
  refine ⟨cs.takeWhile isJsWhiteSpace,
    ((cs.dropWhile isJsWhiteSpace).reverse.takeWhile isJsWhiteSpace).reverse, ?_, ?_, ?_, ?_, ?_⟩
  · rw [List.append_assoc, ← hd, List.takeWhile_append_dropWhile]
  · exact all_takeWhile_ws cs
  · rw [List.all_reverse]
    exact all_takeWhile_ws _
  · have h1 := head_dropWhile_ws cs
    rw [hd] at h1
    cases ht : trimChars cs with
    | nil => rfl
    | cons t ts =>
      rw [ht] at h1
      simpa using h1
  · unfold trimChars
    rw [List.getLast?_reverse]
    exact head_dropWhile_ws _

/-! ## Properties of the combine engine -/

/-- C1: whenever `combinarPlanilhas` succeeds, every file with a non-empty
selection was read, and the number of rows returned is the sum of the data-row
counts of the files of `planilhas` that have a non-empty selection; files
without selection add nothing, and any other selection (and configuration)
that selects the same files, with whatever columns, gives the same count. -/
theorem combinarPlanilhas_contagem_linhas
    (carregarDados : String → String → Except String (List Linha))
    (planilhas : List Planilha) (colunasEscolhidas : JsObject (List Coluna))
    (cfg : Configuracoes) (saida : List Linha)
    (h : combinarPlanilhas carregarDados planilhas colunasEscolhidas cfg = Except.ok saida) :
    (∀ p ∈ planilhas, temSelecao colunasEscolhidas p = true →
        carregarDados p.fileName p.originalName = Except.ok (dadosDe carregarDados p))
      ∧ saida.length
        = ((planilhas.filter (temSelecao colunasEscolhidas)).map
            (fun p => (dadosDe carregarDados p).length)).sum
      ∧ ∀ (outras : JsObject (List Coluna)) (cfg' : Configuracoes) (saida' : List Linha),
          (∀ p ∈ planilhas, temSelecao outras p = temSelecao colunasEscolhidas p) →
          combinarPlanilhas carregarDados planilhas outras cfg' = Except.ok saida' →
          saida'.length = saida.length := by
  have comprimento : ∀ (sel : JsObject (List Coluna)) (c : Configuracoes) (out : List Linha),
      combinarPlanilhas carregarDados planilhas sel c = Except.ok out →
      out.length = ((planilhas.filter (temSelecao sel)).map
        (fun p => (dadosDe carregarDados p).length)).sum := by
    intro sel c out hout
    rw [(combinarPlanilhas_ok carregarDados planilhas sel c out hout).2, List.length_map]
    unfold fontes
    rw [List.length_flatMap]
    congr 1
    apply List.map_congr_left
    intro p _
    simp
  obtain ⟨hload, _⟩ := combinarPlanilhas_ok carregarDados planilhas colunasEscolhidas cfg saida h
  refine ⟨?_, comprimento _ _ _ h, ?_⟩
  · intro p hp hsel
    obtain ⟨d, hd⟩ := hload p hp hsel
    simp [dadosDe, hd]
  · intro outras cfg' saida' hmesmas h'
    rw [comprimento _ _ _ h', comprimento _ _ _ h]
    congr 2
    apply List.filter_congr
    intro p hp
    exact hmesmas p hp

/-- Witness of C1 on the worked example: three files, the third without
selected columns; 2 + 1 rows are returned. -/
theorem combinarPlanilhas_contagem_linhas_witness :
    combinarPlanilhas exArquivos exPlanilhas exSelecao exConfig = Except.ok exSaida
      ∧ exSaida.length
        = ((exPlanilhas.filter (temSelecao exSelecao)).map
            (fun p => (dadosDe exArquivos p).length)).sum :=
  ⟨rfl, (combinarPlanilhas_contagem_linhas exArquivos exPlanilhas exSelecao exConfig exSaida
    rfl).2.1⟩

/-- C2: the rows returned by a successful `combinarPlanilhas` are, file after
file in the order of `planilhas`, one row per source row in source-row order,
each built by the row loop of the code; and a selection map that holds the
same entries in another key order gives the same result. -/
theorem combinarPlanilhas_ordem_arquivos
    (carregarDados : String → String → Except String (List Linha))
    (planilhas : List Planilha) (colunasEscolhidas : JsObject (List Coluna))
    (cfg : Configuracoes) (saida : List Linha)
    (h : combinarPlanilhas carregarDados planilhas colunasEscolhidas cfg = Except.ok saida) :
    saida = (planilhas.filter (temSelecao colunasEscolhidas)).flatMap
        (fun p => (dadosDe carregarDados p).map
          (construirLinha (prepararCabecalho colunasEscolhidas cfg) p
            (colunasDe colunasEscolhidas p) cfg))
      ∧ ∀ reordenadas : JsObject (List Coluna),
          reordenadas.Perm colunasEscolhidas →
          (colunasEscolhidas.map Prod.fst).Nodup →
          combinarPlanilhas carregarDados planilhas reordenadas cfg = Except.ok saida := by
  refine ⟨?_, ?_⟩
  · rw [(combinarPlanilhas_ok carregarDados planilhas colunasEscolhidas cfg saida h).2]
    unfold fontes
    rw [List.map_flatMap]
    apply List.flatMap_congr
    intro p hp
    have hsel : temSelecao colunasEscolhidas p = true := (List.mem_filter.1 hp).2
    obtain ⟨c, cs, hget⟩ := (temSelecao_true colunasEscolhidas p).1 hsel
    have hcols : JsObject.get colunasEscolhidas p.fileName
        = some (colunasDe colunasEscolhidas p) := by
      simp [colunasDe, hget]
    rw [List.map_map]
    apply List.map_congr_left
    intro linha _
    exact (construirLinha_eq colunasEscolhidas cfg p _ linha hcols).symm
  · intro reordenadas hperm hnd
    rw [← h]
    apply combinarPlanilhas_nomes
    intro p _
    unfold nomesSelecionados
    rw [get_perm colunasEscolhidas reordenadas hperm hnd]

/-- Witness of C2 on the worked example, with the selection keys reversed. -/
theorem combinarPlanilhas_ordem_arquivos_witness :
    combinarPlanilhas exArquivos exPlanilhas exSelecao exConfig = Except.ok exSaida
      ∧ combinarPlanilhas exArquivos exPlanilhas exSelecao.reverse exConfig = Except.ok exSaida :=
  ⟨rfl, (combinarPlanilhas_ordem_arquivos exArquivos exPlanilhas exSelecao exConfig exSaida
    rfl).2 exSelecao.reverse (List.reverse_perm _) (by decide)⟩

/-- C3: a file whose identifier is absent from the selection map, or mapped to
the empty list, yields no row at all (it is not even read): alone it gives the
empty result, and inside any list of files it can be dropped without changing
the result; and removing its key from the selection map changes nothing, so an
empty list is the same as absence. -/
theorem combinarPlanilhas_sem_selecao
    (carregarDados : String → String → Except String (List Linha))
    (colunasEscolhidas : JsObject (List Coluna)) (cfg : Configuracoes) (p : Planilha)
    (hsem : JsObject.get colunasEscolhidas p.fileName = none
      ∨ JsObject.get colunasEscolhidas p.fileName = some []) :
    combinarPlanilhas carregarDados [p] colunasEscolhidas cfg = Except.ok []
      ∧ (∀ antes depois : List Planilha,
          combinarPlanilhas carregarDados (antes ++ p :: depois) colunasEscolhidas cfg
            = combinarPlanilhas carregarDados (antes ++ depois) colunasEscolhidas cfg)
      ∧ ∀ planilhas : List Planilha,
          combinarPlanilhas carregarDados planilhas
              (colunasEscolhidas.filter (fun e => decide (e.1 ≠ p.fileName))) cfg
            = combinarPlanilhas carregarDados planilhas colunasEscolhidas cfg := by
  have hfalse : temSelecao colunasEscolhidas p = false :=
    (temSelecao_false colunasEscolhidas p).2 hsem
  have hdrop : ∀ antes depois : List Planilha,
      combinarEsperado carregarDados colunasEscolhidas cfg (antes ++ p :: depois)
        = combinarEsperado carregarDados colunasEscolhidas cfg (antes ++ depois) := by
    intro antes depois
    induction antes with
    | nil => simp [combinarEsperado, hfalse]
    | cons q qs ih =>
      rw [List.cons_append, List.cons_append]
      unfold combinarEsperado
      rw [ih]
  refine ⟨?_, ?_, ?_⟩
  · rw [combinarPlanilhas_eq]
    simp [combinarEsperado, hfalse, embrulharErro]
  · intro antes depois
    rw [combinarPlanilhas_eq, combinarPlanilhas_eq, hdrop]
  · intro planilhas
    apply combinarPlanilhas_nomes
    intro q _
    unfold nomesSelecionados
    by_cases hq : q.fileName = p.fileName
    · rw [hq, get_filter_eq]
      rcases hsem with h0 | h0 <;> simp [h0]
    · rw [get_filter_ne _ _ _ hq]

/-- Witness of C3 on the worked example: the third file is mapped to the empty
list. -/
theorem combinarPlanilhas_sem_selecao_witness :
    JsObject.get exSelecao "u3.csv" = some []
      ∧ combinarPlanilhas exArquivos [⟨"u3.csv", "vazio.csv"⟩] exSelecao exConfig = Except.ok []
      ∧ combinarPlanilhas exArquivos exPlanilhas
          (exSelecao.filter (fun e => decide (e.1 ≠ "u3.csv"))) exConfig
        = combinarPlanilhas exArquivos exPlanilhas exSelecao exConfig :=
  have w := combinarPlanilhas_sem_selecao exArquivos exSelecao exConfig ⟨"u3.csv", "vazio.csv"⟩
    (Or.inr rfl)
  ⟨rfl, w.1, w.2.2 exPlanilhas⟩

/-- C5: two selection maps that agree on every key and on the column names
listed under it, and so differ at most in the `indice` fields, give the same
result of `combinarPlanilhas` (rows or error) for the same sources and
configuration. -/
theorem combinarPlanilhas_ignora_indice
    (carregarDados : String → String → Except String (List Linha))
    (planilhas : List Planilha) (sel sel' : JsObject (List Coluna)) (cfg : Configuracoes)
    (h : sel.map (fun e => (e.1, e.2.map Coluna.nome))
      = sel'.map (fun e => (e.1, e.2.map Coluna.nome))) :
    combinarPlanilhas carregarDados planilhas sel cfg
      = combinarPlanilhas carregarDados planilhas sel' cfg := by
  apply combinarPlanilhas_nomes
  intro p _
  have key : ∀ s : JsObject (List Coluna), nomesSelecionados s p.fileName
      = (JsObject.get (s.map (fun e => (e.1, e.2.map Coluna.nome))) p.fileName).getD [] := by
    intro s
    unfold nomesSelecionados
    rw [get_map_valores]
    cases JsObject.get s p.fileName <;> rfl
  rw [key, key, h]

/-- Witness of C5: the worked selection with every `indice` replaced. -/
theorem combinarPlanilhas_ignora_indice_witness :
    combinarPlanilhas exArquivos exPlanilhas exSelecao exConfig
      = combinarPlanilhas exArquivos exPlanilhas
          [("u2.csv", [⟨7, "cidade"⟩, ⟨7, "valor"⟩]), ("u1.csv", [⟨0, "name"⟩, ⟨0, "2024"⟩]),
            ("u3.csv", [])] exConfig :=
  combinarPlanilhas_ignora_indice exArquivos exPlanilhas exSelecao _ exConfig rfl

/-- C4 (as amended): with `incluirOrigem` set and two files that both have
selected columns, the combination succeeds once both files are read, its rows
are the rows built from the first file followed by those built from the second,
and every such row contains the origin key `__origem__`; that key holds the
display name of the row's file when no selected column of the file has
`__origem__` as final name, and it is the first key of the row when no selected
column of the file has an array-index final name. -/
theorem combinarPlanilhas_coluna_origem
    (carregarDados : String → String → Except String (List Linha))
    (colunasEscolhidas : JsObject (List Coluna)) (cfg : Configuracoes)
    (p1 p2 : Planilha) (cols1 cols2 : List Coluna) (d1 d2 : List Linha)
    (horigem : cfg.incluirOrigem = true)
    (h1 : JsObject.get colunasEscolhidas p1.fileName = some cols1) (hn1 : cols1 ≠ [])
    (h2 : JsObject.get colunasEscolhidas p2.fileName = some cols2) (hn2 : cols2 ≠ [])
    (hd1 : carregarDados p1.fileName p1.originalName = Except.ok d1)
    (hd2 : carregarDados p2.fileName p2.originalName = Except.ok d2) :
    combinarPlanilhas carregarDados [p1, p2] colunasEscolhidas cfg
        = Except.ok
          (d1.map (construirLinha (prepararCabecalho colunasEscolhidas cfg) p1 cols1 cfg)
            ++ d2.map (construirLinha (prepararCabecalho colunasEscolhidas cfg) p2 cols2 cfg))
      ∧ ∀ (p : Planilha) (cols : List Coluna) (linha : Linha),
          (p, cols) ∈ [(p1, cols1), (p2, cols2)] →
          chaveOrigem ∈ JsObject.keys
              (construirLinha (prepararCabecalho colunasEscolhidas cfg) p cols cfg linha)
            ∧ ((∀ c ∈ cols, nomeColuna cfg p.fileName c ≠ chaveOrigem) →
                JsObject.get
                    (construirLinha (prepararCabecalho colunasEscolhidas cfg) p cols cfg linha)
                    chaveOrigem
                  = some (JsVal.str p.originalName))
            ∧ ((∀ c ∈ cols, arrayIndex? (nomeColuna cfg p.fileName c) = none) →
                (JsObject.keys
                    (construirLinha (prepararCabecalho colunasEscolhidas cfg) p cols cfg linha)).head?
                  = some chaveOrigem) := by
  refine ⟨?_, ?_⟩
  · cases cols1 with
    | nil => exact absurd rfl hn1
    | cons c1 cs1 =>
      cases cols2 with
      | nil => exact absurd rfl hn2
      | cons c2 cs2 =>
        unfold combinarPlanilhas
        simp [processarPlanilhas, h1, h2, hd1, hd2, foldl_push_eq_append]
  · intro p cols linha hmem
    have hsel : JsObject.get colunasEscolhidas p.fileName = some cols := by
      simp only [List.mem_cons, Prod.mk.injEq, List.mem_singleton, List.not_mem_nil,
        or_false] at hmem
      rcases hmem with ⟨rfl, rfl⟩ | ⟨rfl, rfl⟩
      · exact h1
      · exact h2
    rw [construirLinha_eq colunasEscolhidas cfg p cols linha hsel]
    exact ⟨linhaEsperada_origem_chave cfg p cols linha horigem,
      linhaEsperada_origem_valor cfg p cols linha horigem,
      linhaEsperada_origem_primeira cfg p cols linha horigem⟩

/-- Witness of C4 (as amended) on the two files of the worked example. -/
theorem combinarPlanilhas_coluna_origem_witness :
    exConfig.incluirOrigem = true
      ∧ combinarPlanilhas exArquivos exDuasPlanilhas exSelecao exConfig = Except.ok exSaida
      ∧ chaveOrigem ∈ JsObject.keys
          (construirLinha (prepararCabecalho exSelecao exConfig) ⟨"u2.csv", "vendas.csv"⟩
            [⟨0, "cidade"⟩, ⟨1, "valor"⟩] exConfig
            [("cidade", JsVal.str "Porto"), ("valor", JsVal.num 7)]) :=
  have w := combinarPlanilhas_coluna_origem exArquivos exSelecao exConfig
    ⟨"u1.csv", "clientes.csv"⟩ ⟨"u2.csv", "vendas.csv"⟩
    [⟨1, "name"⟩, ⟨2, "2024"⟩] [⟨0, "cidade"⟩, ⟨1, "valor"⟩]
    [[("id", JsVal.str "1"), ("name", JsVal.str " Alice "), ("2024", JsVal.str "10")],
      [("id", JsVal.str "2"), ("name", JsVal.str "Bob")]]
    [[("cidade", JsVal.str "Porto"), ("valor", JsVal.num 7)]]
    rfl rfl (by decide) rfl (by decide) rfl rfl
  ⟨rfl, w.1, (w.2 ⟨"u2.csv", "vendas.csv"⟩ [⟨0, "cidade"⟩, ⟨1, "valor"⟩]
    [("cidade", JsVal.str "Porto"), ("valor", JsVal.num 7)] (by decide)).1⟩

/-- Counterexample to C4 as stated: with `incluirOrigem` set and two selected
files, (a) no row has a key `__origin__` (the code writes `__origem__`), and the
rows of the file with the selected column `2024` enumerate `2024` before the
origin key; (b) when a selected column is itself named `__origem__`, the origin
key holds that cell, not the display name of the file. -/
theorem combinarPlanilhas_coluna_origem_contraexemplo :
    exConfig.incluirOrigem = true
      ∧ temSelecao exSelecao ⟨"u1.csv", "clientes.csv"⟩ = true
      ∧ temSelecao exSelecao ⟨"u2.csv", "vendas.csv"⟩ = true
      ∧ combinarPlanilhas exArquivos exDuasPlanilhas exSelecao exConfig = Except.ok exSaida
      ∧ exSaida.map JsObject.keys
        = [["2024", "__origem__", "name"], ["2024", "__origem__", "name"],
            ["__origem__", "cidade", "valor"]]
      ∧ exSaida.map (fun row => JsObject.get row "__origin__") = [none, none, none]
      ∧ combinarPlanilhas exArquivos
          [⟨"u4.csv", "reenviado.csv"⟩, ⟨"u2.csv", "vendas.csv"⟩] exSelecaoReenviado exConfig
        = Except.ok
          [[("__origem__", JsVal.str "antigo.csv"), ("total", JsVal.num 5)],
            [("__origem__", JsVal.str "vendas.csv"), ("cidade", JsVal.str "Porto")]] :=
  ⟨rfl, rfl, rfl, rfl, by decide, by decide, rfl⟩

/-- C6 (as amended): for a selected column `c` of a file `p`, every combined
row of `p` has a key equal to the entry of `renomearColunas` at
`"<fileName>_<nome>"` when that entry exists and is a non-empty string, and
equal to the original name when there is no rename mapping, no entry, or an
empty entry; unless a later selected column has the same final name, the value
under that key is the processed cell of `c`.  A single file with this
selection combines to exactly these rows. -/
theorem combinarPlanilhas_nome_final
    (colunasEscolhidas : JsObject (List Coluna)) (cfg : Configuracoes) (p : Planilha)
    (pre pos : List Coluna) (c : Coluna) (linha : Linha)
    (hsel : JsObject.get colunasEscolhidas p.fileName = some (pre ++ c :: pos)) :
    (∀ (r : JsObject String) (novo : String), cfg.renomearColunas = some r →
        JsObject.get r (p.fileName ++ "_" ++ c.nome) = some novo → novo ≠ "" →
        novo ∈ JsObject.keys
            (construirLinha (prepararCabecalho colunasEscolhidas cfg) p (pre ++ c :: pos) cfg linha)
          ∧ ((∀ c' ∈ pos, nomeColuna cfg p.fileName c' ≠ novo) →
              JsObject.get
                  (construirLinha (prepararCabecalho colunasEscolhidas cfg) p (pre ++ c :: pos)
                    cfg linha) novo
                = some (_processarValor (lerCelula linha c.nome) cfg)))
      ∧ ((cfg.renomearColunas = none
            ∨ ∃ r, cfg.renomearColunas = some r
              ∧ (JsObject.get r (p.fileName ++ "_" ++ c.nome) = none
                ∨ JsObject.get r (p.fileName ++ "_" ++ c.nome) = some "")) →
          c.nome ∈ JsObject.keys
              (construirLinha (prepararCabecalho colunasEscolhidas cfg) p (pre ++ c :: pos) cfg
                linha)
            ∧ ((∀ c' ∈ pos, nomeColuna cfg p.fileName c' ≠ c.nome) →
                JsObject.get
                    (construirLinha (prepararCabecalho colunasEscolhidas cfg) p (pre ++ c :: pos)
                      cfg linha) c.nome
                  = some (_processarValor (lerCelula linha c.nome) cfg)))
      ∧ ∀ (carregarDados : String → String → Except String (List Linha)) (dados : List Linha),
          carregarDados p.fileName p.originalName = Except.ok dados →
          combinarPlanilhas carregarDados [p] colunasEscolhidas cfg
            = Except.ok (dados.map
                (construirLinha (prepararCabecalho colunasEscolhidas cfg) p (pre ++ c :: pos) cfg)) := by
  have geral : ∀ k, nomeColuna cfg p.fileName c = k →
      k ∈ JsObject.keys
          (construirLinha (prepararCabecalho colunasEscolhidas cfg) p (pre ++ c :: pos) cfg linha)
        ∧ ((∀ c' ∈ pos, nomeColuna cfg p.fileName c' ≠ k) →
            JsObject.get
                (construirLinha (prepararCabecalho colunasEscolhidas cfg) p (pre ++ c :: pos)
                  cfg linha) k
              = some (_processarValor (lerCelula linha c.nome) cfg)) := by
    intro k hk
    subst hk
    rw [construirLinha_eq colunasEscolhidas cfg p _ linha hsel]
    exact ⟨linhaEsperada_chave cfg p _ linha c (by simp),
      linhaEsperada_ultima cfg p pre pos c linha⟩
  refine ⟨?_, ?_, ?_⟩
  · intro r novo hr hget hnovo
    exact geral novo (nomeColuna_renomeada cfg p.fileName c r novo hr hget hnovo)
  · intro h
    exact geral c.nome (nomeColuna_original cfg p.fileName c h)
  · intro carregarDados dados hd
    exact combinarPlanilhas_um_arquivo carregarDados colunasEscolhidas cfg p _ dados hsel
      (by simp) hd

/-- Witness of C6 (as amended): `cidade` of `u2.csv` is renamed to `city`. -/
theorem combinarPlanilhas_nome_final_witness :
    JsObject.get exSelecao "u2.csv" = some ([] ++ ⟨0, "cidade"⟩ :: [⟨1, "valor"⟩])
      ∧ JsObject.get
          (construirLinha (prepararCabecalho exSelecao exConfigRenomear) ⟨"u2.csv", "vendas.csv"⟩
            ([] ++ ⟨0, "cidade"⟩ :: [⟨1, "valor"⟩]) exConfigRenomear
            [("cidade", JsVal.str "Porto"), ("valor", JsVal.num 7)]) "city"
        = some (JsVal.str "Porto") :=
  ⟨rfl, ((combinarPlanilhas_nome_final exSelecao exConfigRenomear ⟨"u2.csv", "vendas.csv"⟩
    [] [⟨1, "valor"⟩] ⟨0, "cidade"⟩ [("cidade", JsVal.str "Porto"), ("valor", JsVal.num 7)]
    rfl).1 _ "city" rfl rfl (by decide)).2 (by decide)⟩

/-- Counterexample to C6 as stated: the rename mapping has an entry for the key
`u2.csv_valor`, the empty string, yet the cell is written under the original
name `valor` and no key `""` exists in the row. -/
theorem combinarPlanilhas_nome_final_contraexemplo :
    (exConfigRenomear.renomearColunas.bind
        (fun r => JsObject.get r (chaveRenomear "u2.csv" "valor"))) = some ""
      ∧ combinarPlanilhas exArquivos [⟨"u2.csv", "vendas.csv"⟩] exSelecao exConfigRenomear
        = Except.ok [[("city", JsVal.str "Porto"), ("valor", JsVal.num 7)]]
      ∧ JsObject.get [("city", JsVal.str "Porto"), ("valor", JsVal.num 7)] "" = none :=
  ⟨rfl, rfl, rfl⟩

/-- C7: with `removerEspacos` set, a string cell is written as the source
string with its leading and trailing whitespace stripped (the source is
whitespace, then the written value, then whitespace, and the written value
neither begins nor ends with whitespace), and numbers and booleans are written
unchanged; with it unset, strings, numbers and booleans are written
unchanged. -/
theorem processarValor_remover_espacos
    (renomear : Option (JsObject String)) (origem : Bool) (substituto : Option String)
    (s : String) (n : Int) (b : Bool) :
    (∃ pre pos : List Char,
        _processarValor (JsVal.str s) ⟨renomear, origem, true, substituto⟩
            = JsVal.str (jsTrim s)
          ∧ s.data = pre ++ (jsTrim s).data ++ pos
          ∧ pre.all isJsWhiteSpace = true ∧ pos.all isJsWhiteSpace = true
          ∧ (jsTrim s).data.head?.all (fun c => !isJsWhiteSpace c) = true
          ∧ (jsTrim s).data.getLast?.all (fun c => !isJsWhiteSpace c) = true)
      ∧ _processarValor (JsVal.num n) ⟨renomear, origem, true, substituto⟩ = JsVal.num n
      ∧ _processarValor (JsVal.bool b) ⟨renomear, origem, true, substituto⟩ = JsVal.bool b
      ∧ _processarValor (JsVal.str s) ⟨renomear, origem, false, substituto⟩ = JsVal.str s
      ∧ _processarValor (JsVal.num n) ⟨renomear, origem, false, substituto⟩ = JsVal.num n
      ∧ _processarValor (JsVal.bool b) ⟨renomear, origem, false, substituto⟩ = JsVal.bool b := by
  refine ⟨?_, rfl, rfl, rfl, rfl, rfl⟩
  obtain ⟨pre, pos, h1, h2, h3, h4, h5⟩ := trimChars_spec s.data
  exact ⟨pre, pos, rfl, h1, h2, h3, h4, h5⟩

/-- C8: a `null` cell and an absent one (`undefined`, as read from a row that
lacks the column) are written as the configured `substituirVazios`, whatever
string it is, and as the empty string when none is configured; a present
value, the empty string included, is written as itself (trimmed when
`removerEspacos` is set) whatever replacement is configured. -/
theorem processarValor_substituir_vazios
    (renomear : Option (JsObject String)) (origem espacos : Bool)
    (substituto : String) (qualquer : Option String)
    (linha : Linha) (nome : String) (s : String) (n : Int) (b : Bool) :
    _processarValor JsVal.null ⟨renomear, origem, espacos, some substituto⟩ = JsVal.str substituto
      ∧ _processarValor JsVal.undefined ⟨renomear, origem, espacos, some substituto⟩
        = JsVal.str substituto
      ∧ _processarValor (lerCelula (linha.filter (fun e => decide (e.1 ≠ nome))) nome)
          ⟨renomear, origem, espacos, some substituto⟩ = JsVal.str substituto
      ∧ _processarValor JsVal.null ⟨renomear, origem, espacos, none⟩ = JsVal.str ""
      ∧ _processarValor JsVal.undefined ⟨renomear, origem, espacos, none⟩ = JsVal.str ""
      ∧ _processarValor (JsVal.str "") ⟨renomear, origem, espacos, qualquer⟩ = JsVal.str ""
      ∧ _processarValor (JsVal.str s) ⟨renomear, origem, espacos, qualquer⟩
        = JsVal.str (if espacos then jsTrim s else s)
      ∧ _processarValor (JsVal.num n) ⟨renomear, origem, espacos, qualquer⟩ = JsVal.num n
      ∧ _processarValor (JsVal.bool b) ⟨renomear, origem, espacos, qualquer⟩ = JsVal.bool b := by
  have hsub : valorSubstituto ⟨renomear, origem, espacos, some substituto⟩ = substituto := by
    unfold valorSubstituto
    simp only
    split
    · next h => exact h.symm
    · rfl
  refine ⟨?_, ?_, ?_, rfl, rfl, ?_, ?_, rfl, rfl⟩
  · simp only [_processarValor, hsub]
  · simp only [_processarValor, hsub]
  · simp only [lerCelula, get_filter_eq, Option.getD_none, _processarValor, hsub]
  · cases espacos
    · rfl
    · simp only [_processarValor, if_true]
      rfl
  · cases espacos <;> simp [_processarValor]

/-- C9 (as amended): when the name of a selected column `c` is not a key of a
source row, the combination does not fail on it (a file that is read combines
to its built rows), and the combined row does have a key for that column, its
final name; unless a later selected column has the same final name, the value
under it is the configured `substituirVazios`, or the empty string when none is
configured. -/
theorem combinarPlanilhas_coluna_ausente
    (colunasEscolhidas : JsObject (List Coluna)) (cfg : Configuracoes) (p : Planilha)
    (pre pos : List Coluna) (c : Coluna) (linha : Linha)
    (hsel : JsObject.get colunasEscolhidas p.fileName = some (pre ++ c :: pos))
    (hausente : JsObject.get linha c.nome = none) :
    (∀ (carregarDados : String → String → Except String (List Linha)) (dados : List Linha),
        carregarDados p.fileName p.originalName = Except.ok dados →
        combinarPlanilhas carregarDados [p] colunasEscolhidas cfg
          = Except.ok (dados.map
              (construirLinha (prepararCabecalho colunasEscolhidas cfg) p (pre ++ c :: pos) cfg)))
      ∧ nomeColuna cfg p.fileName c ∈ JsObject.keys
          (construirLinha (prepararCabecalho colunasEscolhidas cfg) p (pre ++ c :: pos) cfg linha)
      ∧ ((∀ c' ∈ pos, nomeColuna cfg p.fileName c' ≠ nomeColuna cfg p.fileName c) →
          JsObject.get
              (construirLinha (prepararCabecalho colunasEscolhidas cfg) p (pre ++ c :: pos) cfg
                linha) (nomeColuna cfg p.fileName c)
            = some (JsVal.str (valorSubstituto cfg))) := by
  refine ⟨?_, ?_, ?_⟩
  · intro carregarDados dados hd
    exact combinarPlanilhas_um_arquivo carregarDados colunasEscolhidas cfg p _ dados hsel
      (by simp) hd
  · rw [construirLinha_eq colunasEscolhidas cfg p _ linha hsel]
    exact linhaEsperada_chave cfg p _ linha c (by simp)
  · intro hult
    rw [construirLinha_eq colunasEscolhidas cfg p _ linha hsel,
      linhaEsperada_ultima cfg p pre pos c linha hult]
    simp [lerCelula, hausente, _processarValor]

/-- Witness of C9 (as amended): the second row of `u1.csv` has no `2024` cell. -/
theorem combinarPlanilhas_coluna_ausente_witness :
    JsObject.get exSelecao "u1.csv" = some ([⟨1, "name"⟩] ++ ⟨2, "2024"⟩ :: [])
      ∧ JsObject.get [("id", JsVal.str "2"), ("name", JsVal.str "Bob")] "2024" = none
      ∧ JsObject.get
          (construirLinha (prepararCabecalho exSelecao exConfigSubstituto)
            ⟨"u1.csv", "clientes.csv"⟩ ([⟨1, "name"⟩] ++ ⟨2, "2024"⟩ :: []) exConfigSubstituto
            [("id", JsVal.str "2"), ("name", JsVal.str "Bob")]) "2024"
        = some (JsVal.str "N/A") :=
  ⟨rfl, rfl, (combinarPlanilhas_coluna_ausente exSelecao exConfigSubstituto
    ⟨"u1.csv", "clientes.csv"⟩ [⟨1, "name"⟩] [] ⟨2, "2024"⟩
    [("id", JsVal.str "2"), ("name", JsVal.str "Bob")] rfl rfl).2.2 (by decide)⟩

/-- Counterexample to C9 as stated: the second row of `u1.csv` has no key
`2024`, the column `2024` is selected, and the combined row holds the key
`2024` with the placeholder value. -/
theorem combinarPlanilhas_coluna_ausente_contraexemplo :
    exArquivos "u1.csv" "clientes.csv"
        = Except.ok [[("id", JsVal.str "1"), ("name", JsVal.str " Alice "), ("2024", JsVal.str "10")],
            [("id", JsVal.str "2"), ("name", JsVal.str "Bob")]]
      ∧ JsObject.get [("id", JsVal.str "2"), ("name", JsVal.str "Bob")] "2024" = none
      ∧ combinarPlanilhas exArquivos [⟨"u1.csv", "clientes.csv"⟩] exSelecao exConfigSubstituto
        = Except.ok [[("name", JsVal.str " Alice "), ("2024", JsVal.str "10")],
            [("name", JsVal.str "Bob"), ("2024", JsVal.str "N/A")]]
      ∧ "2024" ∈ JsObject.keys [("name", JsVal.str "Bob"), ("2024", JsVal.str "N/A")] :=
  ⟨rfl, rfl, rfl, by decide⟩

/-- C10: when two columns selected for one file have the same final name, and
the second is the last selected column with that name, the combination raises
no error (a file that is read combines to its built rows), and every combined
row of the file has that name exactly once among its keys, holding the
processed value of the second column. -/
theorem combinarPlanilhas_colisao_nomes
    (colunasEscolhidas : JsObject (List Coluna)) (cfg : Configuracoes) (p : Planilha)
    (pre meio pos : List Coluna) (c1 c2 : Coluna) (linha : Linha)
    (hsel : JsObject.get colunasEscolhidas p.fileName = some (pre ++ c1 :: (meio ++ c2 :: pos)))
    (hmesmo : nomeColuna cfg p.fileName c1 = nomeColuna cfg p.fileName c2)
    (hult : ∀ c' ∈ pos, nomeColuna cfg p.fileName c' ≠ nomeColuna cfg p.fileName c2) :
    (∀ (carregarDados : String → String → Except String (List Linha)) (dados : List Linha),
        carregarDados p.fileName p.originalName = Except.ok dados →
        combinarPlanilhas carregarDados [p] colunasEscolhidas cfg
          = Except.ok (dados.map
              (construirLinha (prepararCabecalho colunasEscolhidas cfg) p
                (pre ++ c1 :: (meio ++ c2 :: pos)) cfg)))
      ∧ (JsObject.keys
          (construirLinha (prepararCabecalho colunasEscolhidas cfg) p
            (pre ++ c1 :: (meio ++ c2 :: pos)) cfg linha)).count (nomeColuna cfg p.fileName c1) = 1
      ∧ JsObject.get
          (construirLinha (prepararCabecalho colunasEscolhidas cfg) p
            (pre ++ c1 :: (meio ++ c2 :: pos)) cfg linha) (nomeColuna cfg p.fileName c1)
        = some (_processarValor (lerCelula linha c2.nome) cfg) := by
  rw [hmesmo]
  refine ⟨?_, ?_, ?_⟩
  · intro carregarDados dados hd
    exact combinarPlanilhas_um_arquivo carregarDados colunasEscolhidas cfg p _ dados hsel
      (by simp) hd
  · rw [construirLinha_eq colunasEscolhidas cfg p _ linha hsel]
    exact linhaEsperada_uma_vez cfg p _ linha c2 (by simp)
  · rw [construirLinha_eq colunasEscolhidas cfg p _ linha hsel]
    have hlista : pre ++ c1 :: (meio ++ c2 :: pos) = (pre ++ c1 :: meio) ++ c2 :: pos := by simp
    rw [hlista]
    exact linhaEsperada_ultima cfg p (pre ++ c1 :: meio) pos c2 linha hult

/-- Witness of C10: `id` of `u1.csv` is renamed to `name`, which is also
selected, after it. -/
theorem combinarPlanilhas_colisao_nomes_witness :
    JsObject.get exSelecaoColisao "u1.csv" = some ([] ++ ⟨0, "id"⟩ :: ([] ++ ⟨1, "name"⟩ :: []))
      ∧ nomeColuna exConfigColisao "u1.csv" ⟨0, "id"⟩ = nomeColuna exConfigColisao "u1.csv" ⟨1, "name"⟩
      ∧ combinarPlanilhas exArquivos [⟨"u1.csv", "clientes.csv"⟩] exSelecaoColisao exConfigColisao
        = Except.ok [[("name", JsVal.str "Alice")], [("name", JsVal.str "Bob")]]
      ∧ JsObject.get
          (construirLinha (prepararCabecalho exSelecaoColisao exConfigColisao)
            ⟨"u1.csv", "clientes.csv"⟩ ([] ++ ⟨0, "id"⟩ :: ([] ++ ⟨1, "name"⟩ :: []))
            exConfigColisao [("id", JsVal.str "2"), ("name", JsVal.str "Bob")]) "name"
        = some (JsVal.str "Bob") :=
  have w := combinarPlanilhas_colisao_nomes exSelecaoColisao exConfigColisao
    ⟨"u1.csv", "clientes.csv"⟩ [] [] [] ⟨0, "id"⟩ ⟨1, "name"⟩
    [("id", JsVal.str "2"), ("name", JsVal.str "Bob")] rfl rfl (by decide)
  ⟨rfl, rfl, rfl, w.2.2⟩

/-! ## Lemmas: preview -/

theorem combinarPlanilhas_outra_config (fs : String → String → Except String (List Linha))
    (ps : List Planilha) (sel : JsObject (List Coluna)) (cfg cfg' : Configuracoes)
    (saida : List Linha) (h : combinarPlanilhas fs ps sel cfg = Except.ok saida) :
    ∃ saida', combinarPlanilhas fs ps sel cfg' = Except.ok saida'
      ∧ saida'.length = saida.length := by
  obtain ⟨hload, hsaida⟩ := combinarPlanilhas_ok fs ps sel cfg saida h
  refine ⟨_, combinarPlanilhas_sucesso fs ps sel cfg' hload, ?_⟩
  rw [hsaida, List.length_map, List.length_map]

theorem gerarPreview_ok (fs : String → String → Except String (List Linha))
    (ps : List Planilha) (sel : JsObject (List Coluna)) (limite : Option Int) (prev : Preview)
    (h : gerarPreview fs ps sel limite = Except.ok prev) :
    ∃ saida, combinarPlanilhas fs ps sel configuracoesPreview = Except.ok saida
      ∧ prev.dados = sliceAte saida (limite.getD 10) ∧ prev.totalEstimado = saida.length := by
  unfold gerarPreview at h
  cases hc : combinarPlanilhas fs ps sel configuracoesPreview with
  | error m => simp [hc] at h
  | ok saida =>
    simp only [hc, Except.ok.injEq] at h
    subst h
    exact ⟨saida, rfl, rfl, rfl⟩

theorem gerarPreview_de_combinar (fs : String → String → Except String (List Linha))
    (ps : List Planilha) (sel : JsObject (List Coluna)) (limite : Option Int)
    (saida : List Linha)
    (h : combinarPlanilhas fs ps sel configuracoesPreview = Except.ok saida) :
    ∃ prev, gerarPreview fs ps sel limite = Except.ok prev
      ∧ prev.dados = sliceAte saida (limite.getD 10) ∧ prev.totalEstimado = saida.length := by
  unfold gerarPreview
  simp only [h]
  exact ⟨_, rfl, rfl, rfl⟩

theorem sliceAte_nao_negativo {α : Type} (l : List α) (fim : Int) (h : 0 ≤ fim) :
    sliceAte l fim = l.take fim.toNat := by
  unfold sliceAte
  rw [if_neg (not_lt.2 h)]

/-! ## Properties of the rows and of the preview -/

/-- C11: in a successful combination, every emitted row, paired in order with
the source row and file it was built from, has as keys exactly the final names
of the columns selected for that file, together with the origin key when
`incluirOrigem` is set; any other name, such as the name of a column selected
only from another file, is absent from the row, so rows are not padded to a
common column set. -/
theorem combinarPlanilhas_chaves_da_linha
    (carregarDados : String → String → Except String (List Linha))
    (planilhas : List Planilha) (colunasEscolhidas : JsObject (List Coluna))
    (cfg : Configuracoes) (saida : List Linha)
    (h : combinarPlanilhas carregarDados planilhas colunasEscolhidas cfg = Except.ok saida) :
    List.Forall₂
      (fun (fonte : Planilha × List Coluna × Linha) (row : Linha) =>
        (∀ k, k ∈ JsObject.keys row ↔
            ((cfg.incluirOrigem = true ∧ k = chaveOrigem)
              ∨ ∃ c ∈ fonte.2.1, nomeColuna cfg fonte.1.fileName c = k))
          ∧ ∀ k, ¬ (cfg.incluirOrigem = true ∧ k = chaveOrigem) →
              (∀ c ∈ fonte.2.1, nomeColuna cfg fonte.1.fileName c ≠ k) →
              JsObject.get row k = none)
      (fontes carregarDados colunasEscolhidas planilhas) saida := by
  apply combinarPlanilhas_pares carregarDados planilhas colunasEscolhidas cfg saida _ _ h
  intro fonte _
  have chaves : ∀ k, k ∈ (linhaEsperada cfg fonte.1 fonte.2.1 fonte.2.2).map Prod.fst ↔
      ((cfg.incluirOrigem = true ∧ k = chaveOrigem)
        ∨ ∃ c ∈ fonte.2.1, nomeColuna cfg fonte.1.fileName c = k) := by
    intro k
    constructor
    · intro hk
      unfold linhaEsperada at hk
      rcases dobra_chaves_sub _ _ _ _ k hk with h1 | h1
      · left
        cases ho : cfg.incluirOrigem with
        | false => simp [ho] at h1
        | true => simpa [ho] using h1
      · exact Or.inr h1
    · rintro (⟨ho, rfl⟩ | ⟨c, hc, rfl⟩)
      · unfold linhaEsperada
        apply dobra_chaves_mono
        simp [ho]
      · exact dobra_chaves_mem (nomeColuna cfg fonte.1.fileName)
          (fun c => _processarValor (lerCelula fonte.2.2 c.nome) cfg) fonte.2.1 _ c hc
  refine ⟨fun k => ((keys_perm _).mem_iff).trans (chaves k), ?_⟩
  intro k h1 h2
  cases hget : JsObject.get (linhaEsperada cfg fonte.1 fonte.2.1 fonte.2.2) k with
  | none => rfl
  | some v =>
    have hk : k ∈ (linhaEsperada cfg fonte.1 fonte.2.1 fonte.2.2).map Prod.fst :=
      (get_isSome_iff _ k).1 (by simp [hget])
    rcases (chaves k).1 hk with h3 | ⟨c, hc, hck⟩
    · exact absurd h3 h1
    · exact absurd hck (h2 c hc)

/-- Witness of C11 on the worked example: the rows of `clientes.csv` have no
key `cidade`, which is selected only from `vendas.csv`. -/
theorem combinarPlanilhas_chaves_da_linha_witness :
    combinarPlanilhas exArquivos exPlanilhas exSelecao exConfig = Except.ok exSaida
      ∧ exSaida.map (fun row => JsObject.get row "cidade")
        = [none, none, some (JsVal.str "Porto")]
      ∧ List.Forall₂
          (fun (fonte : Planilha × List Coluna × Linha) (row : Linha) =>
            ∀ k, k ∈ JsObject.keys row ↔
              ((exConfig.incluirOrigem = true ∧ k = chaveOrigem)
                ∨ ∃ c ∈ fonte.2.1, nomeColuna exConfig fonte.1.fileName c = k))
          (fontes exArquivos exSelecao exPlanilhas) exSaida :=
  ⟨rfl, by decide,
    (combinarPlanilhas_chaves_da_linha exArquivos exPlanilhas exSelecao exConfig exSaida
      rfl).imp (fun _ _ hab => hab.1)⟩

/-- C12: when `gerarPreview` succeeds, for whatever limit, the full combination
of the same files and selection succeeds under every configuration, and the
`totalEstimado` reported by the preview is the number of rows of that
combination. -/
theorem gerarPreview_total_estimado
    (carregarDados : String → String → Except String (List Linha))
    (planilhas : List Planilha) (colunasEscolhidas : JsObject (List Coluna))
    (limite : Option Int) (prev : Preview)
    (h : gerarPreview carregarDados planilhas colunasEscolhidas limite = Except.ok prev) :
    ∀ cfg : Configuracoes,
      ∃ saida, combinarPlanilhas carregarDados planilhas colunasEscolhidas cfg = Except.ok saida
        ∧ prev.totalEstimado = saida.length := by
  intro cfg
  obtain ⟨completa, hc, _, htotal⟩ :=
    gerarPreview_ok carregarDados planilhas colunasEscolhidas limite prev h
  obtain ⟨saida, hs, hlen⟩ :=
    combinarPlanilhas_outra_config carregarDados planilhas colunasEscolhidas
      configuracoesPreview cfg completa hc
  exact ⟨saida, hs, by rw [htotal, hlen]⟩

/-- Witness of C12: the preview of the worked example with limit 1 reports the
3 rows that the full combination under `exConfig` has. -/
theorem gerarPreview_total_estimado_witness :
    (∃ prev, gerarPreview exArquivos exPlanilhas exSelecao (some 1) = Except.ok prev
        ∧ prev.totalEstimado = 3 ∧ prev.dados.length = 1)
      ∧ ∃ saida, combinarPlanilhas exArquivos exPlanilhas exSelecao exConfig = Except.ok saida
        ∧ 3 = saida.length :=
  ⟨⟨_, rfl, rfl, rfl⟩,
    gerarPreview_total_estimado exArquivos exPlanilhas exSelecao (some 1)
      ⟨[[("__origem__", JsVal.str "clientes.csv"), ("name", JsVal.str " Alice "),
          ("2024", JsVal.str "10")]], 3, ["2024", "__origem__", "name"], 3⟩ rfl exConfig⟩

/-- C13 (as amended): for every limit that is not negative, the rows of a
preview are the first `limite` rows of `combinarPlanilhas` run with
`incluirOrigem` set on the same files and selection, there are at most `limite`
of them, and the preview succeeds exactly when that combination does. -/
theorem gerarPreview_primeiras_linhas
    (carregarDados : String → String → Except String (List Linha))
    (planilhas : List Planilha) (colunasEscolhidas : JsObject (List Coluna))
    (limite : Int) (hlimite : 0 ≤ limite) :
    (∀ prev, gerarPreview carregarDados planilhas colunasEscolhidas (some limite) = Except.ok prev →
        ∃ saida, combinarPlanilhas carregarDados planilhas colunasEscolhidas
              ⟨none, true, false, none⟩ = Except.ok saida
          ∧ prev.dados = saida.take limite.toNat
          ∧ (prev.dados.length : Int) ≤ limite)
      ∧ ∀ saida, combinarPlanilhas carregarDados planilhas colunasEscolhidas
            ⟨none, true, false, none⟩ = Except.ok saida →
          ∃ prev, gerarPreview carregarDados planilhas colunasEscolhidas (some limite)
              = Except.ok prev
            ∧ prev.dados = saida.take limite.toNat := by
  have hcomp : ∀ saida : List Linha, ((saida.take limite.toNat).length : Int) ≤ limite := by
    intro saida
    rw [List.length_take]
    have h1 : ((min limite.toNat saida.length : Nat) : Int) ≤ (limite.toNat : Int) :=
      Int.ofNat_le.2 (Nat.min_le_left _ _)
    rw [Int.toNat_of_nonneg hlimite] at h1
    exact h1
  refine ⟨?_, ?_⟩
  · intro prev h
    obtain ⟨saida, hc, hd, _⟩ :=
      gerarPreview_ok carregarDados planilhas colunasEscolhidas (some limite) prev h
    rw [Option.getD_some, sliceAte_nao_negativo _ _ hlimite] at hd
    exact ⟨saida, hc, hd, by rw [hd]; exact hcomp saida⟩
  · intro saida hc
    obtain ⟨prev, hp, hd, _⟩ :=
      gerarPreview_de_combinar carregarDados planilhas colunasEscolhidas (some limite) saida hc
    rw [Option.getD_some, sliceAte_nao_negativo _ _ hlimite] at hd
    exact ⟨prev, hp, hd⟩

/-- Witness of C13 (as amended): the preview of the worked example with limit 2. -/
theorem gerarPreview_primeiras_linhas_witness :
    (0 : Int) ≤ 2
      ∧ ∃ prev, gerarPreview exArquivos exPlanilhas exSelecao (some 2) = Except.ok prev
        ∧ prev.dados
          = [[("__origem__", JsVal.str "clientes.csv"), ("name", JsVal.str " Alice "),
              ("2024", JsVal.str "10")],
            [("__origem__", JsVal.str "clientes.csv"), ("name", JsVal.str "Bob"),
              ("2024", JsVal.str "")],
            [("__origem__", JsVal.str "vendas.csv"), ("cidade", JsVal.str "Porto"),
              ("valor", JsVal.num 7)]].take (2 : Int).toNat :=
  ⟨by decide,
    (gerarPreview_primeiras_linhas exArquivos exPlanilhas exSelecao 2 (by decide)).2 _ rfl⟩

/-- Counterexample to C13 as stated: with the limit `-1` the preview of the
three-row worked example holds two rows, which is more than the limit, because
`slice(0, -1)` drops the last row. -/
theorem gerarPreview_primeiras_linhas_contraexemplo :
    combinarPlanilhas exArquivos exPlanilhas exSelecao ⟨none, true, false, none⟩
        = Except.ok
          [[("__origem__", JsVal.str "clientes.csv"), ("name", JsVal.str " Alice "),
              ("2024", JsVal.str "10")],
            [("__origem__", JsVal.str "clientes.csv"), ("name", JsVal.str "Bob"),
              ("2024", JsVal.str "")],
            [("__origem__", JsVal.str "vendas.csv"), ("cidade", JsVal.str "Porto"),
              ("valor", JsVal.num 7)]]
      ∧ gerarPreview exArquivos exPlanilhas exSelecao (some (-1))
        = Except.ok
          ⟨[[("__origem__", JsVal.str "clientes.csv"), ("name", JsVal.str " Alice "),
              ("2024", JsVal.str "10")],
            [("__origem__", JsVal.str "clientes.csv"), ("name", JsVal.str "Bob"),
              ("2024", JsVal.str "")]], 3, ["2024", "__origem__", "name"], 3⟩
      ∧ ¬ ((2 : Int) ≤ -1) :=
  ⟨rfl, rfl, by decide⟩

/-! ## Lemmas: column values -/

theorem valoresDaColuna_append (a1 a2 : List Linha) (nome : String) :
    valoresDaColuna (a1 ++ a2) nome = valoresDaColuna a1 nome ++ valoresDaColuna a2 nome := by
  simp [valoresDaColuna]

theorem valoresDaColuna_vazio (linha : Linha) (resto : List Linha) (nome : String)
    (h : valorPreenchido (lerCelula linha nome) = false) :
    valoresDaColuna (linha :: resto) nome = valoresDaColuna resto nome := by
  simp [valoresDaColuna, List.filter_cons, h]

theorem detectarTipoColuna_valores (dataValida : JsVal → Bool) (amostra : List Linha)
    (nome : String) :
    _detectarTipoColuna dataValida amostra nome
      = if 4 * (valoresDaColuna amostra nome).length
            < 5 * ((valoresDaColuna amostra nome).filter ehNumerico).length then "number"
        else if 4 * (valoresDaColuna amostra nome).length
            < 5 * ((valoresDaColuna amostra nome).filter dataValida).length then "date"
        else "text" := by
  unfold _detectarTipoColuna
  by_cases h1 : amostra.length = 0
  · have h2 : amostra = [] := List.length_eq_zero.1 h1
    subst h2
    simp [valoresDaColuna]
  · rw [if_neg h1]
    by_cases h3 : (valoresDaColuna amostra nome).length = 0
    · have h4 : valoresDaColuna amostra nome = [] := List.length_eq_zero.1 h3
      simp [h4]
    · simp only [h3, if_false]

theorem valorPreenchido_false (v : JsVal) :
    valorPreenchido v = false ↔ v = JsVal.null ∨ v = JsVal.undefined ∨ v = JsVal.str "" := by
  cases v with
  | undefined => simp [valorPreenchido]
  | null => simp [valorPreenchido]
  | str s => simp [valorPreenchido]
  | num n => simp [valorPreenchido]
  | bool b => simp [valorPreenchido]

/-! ## Properties of the structure analysis -/

/-- C18: with `n` the number of non-empty sampled values of the column, `k`
the number of those that pass the numeric test and `d` the number that pass the
date test, `_detectarTipoColuna` returns `number` exactly when `k` is strictly
more than 80% of `n`, `date` exactly when that fails and `d` is strictly more
than 80% of `n`, and `text` exactly when both fail; so four numeric values out
of five do not give `number`, and a column passing both tests is `number`. -/
theorem detectarTipoColuna_limiar (dataValida : JsVal → Bool) (amostra : List Linha)
    (nomeColuna : String) :
    (_detectarTipoColuna dataValida amostra nomeColuna = "number"
        ↔ 4 * (valoresDaColuna amostra nomeColuna).length
          < 5 * ((valoresDaColuna amostra nomeColuna).filter ehNumerico).length)
      ∧ (_detectarTipoColuna dataValida amostra nomeColuna = "date"
        ↔ ¬ 4 * (valoresDaColuna amostra nomeColuna).length
            < 5 * ((valoresDaColuna amostra nomeColuna).filter ehNumerico).length
          ∧ 4 * (valoresDaColuna amostra nomeColuna).length
            < 5 * ((valoresDaColuna amostra nomeColuna).filter dataValida).length)
      ∧ (_detectarTipoColuna dataValida amostra nomeColuna = "text"
        ↔ ¬ 4 * (valoresDaColuna amostra nomeColuna).length
            < 5 * ((valoresDaColuna amostra nomeColuna).filter ehNumerico).length
          ∧ ¬ 4 * (valoresDaColuna amostra nomeColuna).length
            < 5 * ((valoresDaColuna amostra nomeColuna).filter dataValida).length)
      ∧ ((valoresDaColuna amostra nomeColuna).length = 5 →
          ((valoresDaColuna amostra nomeColuna).filter ehNumerico).length = 4 →
          _detectarTipoColuna dataValida amostra nomeColuna ≠ "number")
      ∧ (4 * (valoresDaColuna amostra nomeColuna).length
            < 5 * ((valoresDaColuna amostra nomeColuna).filter ehNumerico).length →
          4 * (valoresDaColuna amostra nomeColuna).length
            < 5 * ((valoresDaColuna amostra nomeColuna).filter dataValida).length →
          _detectarTipoColuna dataValida amostra nomeColuna = "number") := by
  rw [detectarTipoColuna_valores]
  have hnd : ("number" : String) ≠ "date" := by decide
  have hnt : ("number" : String) ≠ "text" := by decide
  have hdt : ("date" : String) ≠ "text" := by decide
  have hdn : ("date" : String) ≠ "number" := by decide
  have htn : ("text" : String) ≠ "number" := by decide
  have htd : ("text" : String) ≠ "date" := by decide
  refine ⟨?_, ?_, ?_, ?_, ?_⟩
  · split_ifs <;> simp_all
  · split_ifs <;> simp_all
  · split_ifs <;> simp_all
  · intro h5 h4
    rw [h5, h4, if_neg (by decide)]
    split_ifs
    · exact hdn
    · exact htn
  · intro h1 _
    rw [if_pos h1]

/-- Witness of C18: in the sample, column `n` has four numeric values out of
five and is typed `text`, column `d` has three dates out of three and is typed
`date`. -/
theorem detectarTipoColuna_limiar_witness :
    (valoresDaColuna exAmostra "n").length = 5
      ∧ ((valoresDaColuna exAmostra "n").filter ehNumerico).length = 4
      ∧ _detectarTipoColuna exDataValida exAmostra "n" ≠ "number"
      ∧ _detectarTipoColuna exDataValida exAmostra "n" = "text"
      ∧ _detectarTipoColuna exDataValida exAmostra "d" = "date" :=
  ⟨by decide, by decide,
    (detectarTipoColuna_limiar exDataValida exAmostra "n").2.2.2.1 (by decide) (by decide),
    by decide, by decide⟩

/-- C19: a sample row whose value for the column is absent, `undefined`, `null`
or the empty string does not vote: the type inferred with that row anywhere in
the sample is the type inferred without it; and a column with no non-empty
sampled value is typed `text`. -/
theorem detectarTipoColuna_vazios_nao_votam (dataValida : JsVal → Bool)
    (antes depois : List Linha) (linha : Linha) (nomeColuna : String)
    (hvazio : JsObject.get linha nomeColuna = none
      ∨ JsObject.get linha nomeColuna = some JsVal.undefined
      ∨ JsObject.get linha nomeColuna = some JsVal.null
      ∨ JsObject.get linha nomeColuna = some (JsVal.str "")) :
    _detectarTipoColuna dataValida (antes ++ linha :: depois) nomeColuna
        = _detectarTipoColuna dataValida (antes ++ depois) nomeColuna
      ∧ ∀ amostra : List Linha, valoresDaColuna amostra nomeColuna = [] →
          _detectarTipoColuna dataValida amostra nomeColuna = "text" := by
  have hv : valorPreenchido (lerCelula linha nomeColuna) = false := by
    rcases hvazio with h | h | h | h <;> simp [lerCelula, h, valorPreenchido]
  refine ⟨?_, ?_⟩
  · rw [detectarTipoColuna_valores, detectarTipoColuna_valores, valoresDaColuna_append,
      valoresDaColuna_append, valoresDaColuna_vazio linha depois nomeColuna hv]
  · intro amostra hsem
    rw [detectarTipoColuna_valores, hsem]
    simp

/-- Witness of C19: the fourth row of the sample has no cell `d`; the type of
`d` is the same with and without that row. -/
theorem detectarTipoColuna_vazios_nao_votam_witness :
    JsObject.get [("n", JsVal.str "4"), ("t", JsVal.str "d")] "d" = none
      ∧ _detectarTipoColuna exDataValida
          (exAmostra.take 3 ++ [("n", JsVal.str "4"), ("t", JsVal.str "d")] :: exAmostra.drop 4) "d"
        = _detectarTipoColuna exDataValida (exAmostra.take 3 ++ exAmostra.drop 4) "d" :=
  ⟨rfl, (detectarTipoColuna_vazios_nao_votam exDataValida (exAmostra.take 3) (exAmostra.drop 4)
    [("n", JsVal.str "4"), ("t", JsVal.str "d")] "d" (Or.inl rfl)).1⟩

/-- C20: `_extrairExemplos(amostra, coluna, 3)` is the list of the first three
non-empty values of the column, taken in row order and unchanged, or all of
them when there are fewer; it has `min 3 k` entries for `k` non-empty values,
never more than three, and no entry is `null`, `undefined` or the empty
string. -/
theorem extrairExemplos_tres (amostra : List Linha) (nomeColuna : String) :
    _extrairExemplos amostra nomeColuna (some 3)
        = ((amostra.map (fun linha => lerCelula linha nomeColuna)).filter
            (fun v => decide (v ≠ JsVal.null ∧ v ≠ JsVal.undefined ∧ v ≠ JsVal.str ""))).take 3
      ∧ (_extrairExemplos amostra nomeColuna (some 3)).length
        = min 3 (valoresDaColuna amostra nomeColuna).length
      ∧ (_extrairExemplos amostra nomeColuna (some 3)).length ≤ 3
      ∧ ∀ v ∈ _extrairExemplos amostra nomeColuna (some 3),
          v ≠ JsVal.null ∧ v ≠ JsVal.undefined ∧ v ≠ JsVal.str "" := by
  have hfiltro : valorPreenchido
      = fun v => decide (v ≠ JsVal.null ∧ v ≠ JsVal.undefined ∧ v ≠ JsVal.str "") := by
    funext v
    cases v <;> simp [valorPreenchido]
  have hex : _extrairExemplos amostra nomeColuna (some 3)
      = (valoresDaColuna amostra nomeColuna).take 3 := by
    unfold _extrairExemplos
    by_cases h : amostra.length = 0
    · have h2 : amostra = [] := List.length_eq_zero.1 h
      subst h2
      simp [valoresDaColuna]
    · rw [if_neg h, Option.getD_some, sliceAte_nao_negativo _ _ (by decide)]
      rfl
  refine ⟨?_, ?_, ?_, ?_⟩
  · rw [hex, valoresDaColuna, hfiltro]
  · rw [hex, List.length_take]
  · rw [hex, List.length_take]
    exact Nat.min_le_left _ _
  · intro v hv
    rw [hex] at hv
    have hmem : v ∈ valoresDaColuna amostra nomeColuna := List.mem_of_mem_take hv
    have hp : valorPreenchido v = true := (List.mem_filter.1 hmem).2
    rw [hfiltro] at hp
    simpa using hp

/-! ## Lemmas: text and CSV content -/

theorem incluiChars_iff (sub l : List Char) :
    incluiChars sub l = true ↔ ∃ pre pos, l = pre ++ sub ++ pos := by
  induction l with
  | nil =>
    simp only [incluiChars, List.isEmpty_iff]
    constructor
    · intro h
      exact ⟨[], [], by simp [h]⟩
    · rintro ⟨pre, pos, h⟩
      have h1 := congrArg List.length h
      simp only [List.length_nil, List.length_append] at h1
      exact List.length_eq_zero.1 (by omega)
  | cons c cs ih =>
    simp only [incluiChars, Bool.or_eq_true, ih]
    constructor
    · rintro (h | ⟨pre, pos, h⟩)
      · obtain ⟨pos, hpos⟩ := List.isPrefixOf_iff_prefix.1 h
        exact ⟨[], pos, by simp [hpos]⟩
      · exact ⟨c :: pre, pos, by simp [h]⟩
    · rintro ⟨pre, pos, h⟩
      cases pre with
      | nil =>
        left
        exact List.isPrefixOf_iff_prefix.2 ⟨pos, by simpa using h.symm⟩
      | cons p pre =>
        right
        simp only [List.cons_append, List.cons.injEq] at h
        exact ⟨pre, pos, h.2⟩

theorem incluiChars_um (c : Char) (l : List Char) : incluiChars [c] l = true ↔ c ∈ l := by
  rw [incluiChars_iff]
  constructor
  · rintro ⟨pre, pos, h⟩
    rw [h]
    simp
  · intro h
    obtain ⟨pre, pos, h⟩ := List.append_of_mem h
    exact ⟨pre, pos, by simp [h]⟩

theorem foldl_concatena (g : Linha → String) (dados : List Linha) (inicio : String) :
    dados.foldl (fun conteudo linha => conteudo ++ g linha) inicio
      = inicio ++ String.join (dados.map g) := by
  induction dados generalizing inicio with
  | nil => simp [String.join]
  | cons l ls ih =>
    rw [List.foldl_cons, ih, List.map_cons]
    have hj : String.join (g l :: ls.map g) = g l ++ String.join (ls.map g) := by
      apply String.ext
      simp [String.join, String.data_append]
      suffices h : ∀ (xs : List String) (a : String),
          (xs.foldl (fun r s => r ++ s) a).data = a.data ++ (xs.foldl (fun r s => r ++ s) "").data by
        exact h _ _
      intro xs
      induction xs with
      | nil => intro a; simp
      | cons x xs ihx =>
        intro a
        rw [List.foldl_cons, ihx, List.foldl_cons, ihx ("" ++ x)]
        simp [String.data_append]
    rw [hj, String.append_assoc]

theorem keys_zip_values {α : Type} (o : JsObject α) :
    (JsObject.keys o).zip (JsObject.values o) = JsObject.entries o := by
  unfold JsObject.keys JsObject.values
  induction JsObject.entries o with
  | nil => rfl
  | cons e es ih => simp [ih]

/-! ## Properties of the export -/

/-- C14: `exportarParaExcel` and `exportarParaCSV` fail on an empty row list,
whatever the environment, so no file is written; and when no file of the
request has selected columns, the combination returns no row and the route
that combines and then exports answers with an error, never with an exported
file. -/
theorem exportar_sem_dados
    (carregarDados : String → String → Except String (List Linha))
    (amb : AmbienteExportacao) (nomeArquivo : String) (opcoesExcel : OpcoesExcel)
    (opcoesCSV : OpcoesCSV) (planilhas : List Planilha)
    (colunasEscolhidas : JsObject (List Coluna)) (cfg : Configuracoes)
    (nomeArquivoFinal : Option String) (configuracoes : Option Configuracoes)
    (hzero : ∀ p ∈ planilhas, temSelecao colunasEscolhidas p = false) :
    exportarParaExcel amb [] nomeArquivo opcoesExcel
        = Except.error "Erro ao exportar para Excel: Nenhum dado fornecido para exportação"
      ∧ exportarParaCSV amb [] nomeArquivo opcoesCSV
        = Except.error "Erro ao exportar para CSV: Nenhum dado fornecido para exportação"
      ∧ combinarPlanilhas carregarDados planilhas colunasEscolhidas cfg = Except.ok []
      ∧ (rotaCombinar carregarDados amb planilhas colunasEscolhidas nomeArquivoFinal
            configuracoes
          = RespostaCombinar.erro
              "Erro ao exportar para Excel: Nenhum dado fornecido para exportação"
        ∨ ∃ mensagem, rotaCombinar carregarDados amb planilhas colunasEscolhidas
            nomeArquivoFinal configuracoes = RespostaCombinar.requisicaoInvalida mensagem) := by
  have hvazio : ∀ c : Configuracoes,
      combinarPlanilhas carregarDados planilhas colunasEscolhidas c = Except.ok [] := by
    intro c
    have hload : ∀ p ∈ planilhas, temSelecao colunasEscolhidas p = true →
        ∃ d, carregarDados p.fileName p.originalName = Except.ok d := by
      intro p hp ht
      rw [hzero p hp] at ht
      cases ht
    rw [combinarPlanilhas_sucesso carregarDados planilhas colunasEscolhidas c hload]
    have hf : planilhas.filter (temSelecao colunasEscolhidas) = [] := by
      rw [List.filter_eq_nil_iff]
      intro p hp
      simp [hzero p hp]
    simp [fontes, hf]
  refine ⟨rfl, rfl, hvazio cfg, ?_⟩
  unfold rotaCombinar
  split
  · exact Or.inr ⟨_, rfl⟩
  · split
    · exact Or.inr ⟨_, rfl⟩
    · left
      rw [hvazio]
      rfl

/-- Witness of C14: the files of the worked example with a selection map that
gives every file the empty column list. -/
theorem exportar_sem_dados_witness :
    (∀ p ∈ exPlanilhas,
        temSelecao [("u1.csv", []), ("u2.csv", []), ("u3.csv", [])] p = false)
      ∧ combinarPlanilhas exArquivos exPlanilhas [("u1.csv", []), ("u2.csv", []), ("u3.csv", [])]
          exConfig = Except.ok []
      ∧ rotaCombinar exArquivos exAmbiente exPlanilhas
          [("u1.csv", []), ("u2.csv", []), ("u3.csv", [])] none none
        = RespostaCombinar.erro
            "Erro ao exportar para Excel: Nenhum dado fornecido para exportação" :=
  ⟨by decide,
    (exportar_sem_dados exArquivos exAmbiente "saida" ⟨none, false, none⟩ ⟨none, none, none⟩
      exPlanilhas [("u1.csv", []), ("u2.csv", []), ("u3.csv", [])] exConfig none none
      (by decide)).2.2.1,
    rfl⟩

/-- C15: for a value that is neither `null` nor `undefined`, with `t` its
string form: when `t` contains the separator, a newline, a carriage return or a
double quote, `_escaparValorCSV` returns `t` with every double quote doubled,
wrapped in double quotes; in every other case it returns `t` itself. -/
theorem escaparValorCSV_aspas (valor : JsVal) (separador : String)
    (hnull : valor ≠ JsVal.null) (hundef : valor ≠ JsVal.undefined) :
    (((∃ pre pos, (textoDe valor).data = pre ++ separador.data ++ pos)
          ∨ Char.ofNat 10 ∈ (textoDe valor).data ∨ Char.ofNat 13 ∈ (textoDe valor).data
          ∨ Char.ofNat 34 ∈ (textoDe valor).data) →
        _escaparValorCSV valor separador
          = String.mk (Char.ofNat 34 :: (dobrarAspas (textoDe valor).data ++ [Char.ofNat 34])))
      ∧ (¬ ((∃ pre pos, (textoDe valor).data = pre ++ separador.data ++ pos)
          ∨ Char.ofNat 10 ∈ (textoDe valor).data ∨ Char.ofNat 13 ∈ (textoDe valor).data
          ∨ Char.ofNat 34 ∈ (textoDe valor).data) →
        _escaparValorCSV valor separador = textoDe valor)
      ∧ (∀ cs : List Char, dobrarAspas cs
          = cs.flatMap (fun c => if c = Char.ofNat 34 then [c, c] else [c])) := by
  have hcond : (inclui (textoDe valor) separador || inclui (textoDe valor) "\n"
        || inclui (textoDe valor) "\r" || inclui (textoDe valor) "\"") = true
      ↔ ((∃ pre pos, (textoDe valor).data = pre ++ separador.data ++ pos)
          ∨ Char.ofNat 10 ∈ (textoDe valor).data ∨ Char.ofNat 13 ∈ (textoDe valor).data
          ∨ Char.ofNat 34 ∈ (textoDe valor).data) := by
    have um : ∀ (c : Char) (l : List Char), (∃ pre pos, l = pre ++ [c] ++ pos) ↔ c ∈ l :=
      fun c l => (incluiChars_iff [c] l).symm.trans (incluiChars_um c l)
    simp only [Bool.or_eq_true, inclui, incluiChars_iff, um]
    constructor
    · rintro (((h | h) | h) | h)
      · exact Or.inl h
      · exact Or.inr (Or.inl h)
      · exact Or.inr (Or.inr (Or.inl h))
      · exact Or.inr (Or.inr (Or.inr h))
    · rintro (h | h | h | h)
      · exact Or.inl (Or.inl (Or.inl h))
      · exact Or.inl (Or.inl (Or.inr h))
      · exact Or.inl (Or.inr h)
      · exact Or.inr h
  have hesc : _escaparValorCSV valor separador
      = if (inclui (textoDe valor) separador || inclui (textoDe valor) "\n"
          || inclui (textoDe valor) "\r" || inclui (textoDe valor) "\"") = true then
          String.mk (aspas :: (dobrarAspas (textoDe valor).data ++ [aspas]))
        else textoDe valor := by
    cases valor with
    | undefined => exact absurd rfl hundef
    | null => exact absurd rfl hnull
    | str s => rfl
    | num n => rfl
    | bool b => rfl
  refine ⟨?_, ?_, ?_⟩
  · intro h
    rw [hesc, if_pos (hcond.2 h)]
    rfl
  · intro h
    rw [hesc, if_neg (fun hc => h (hcond.1 hc))]
  · intro cs
    induction cs with
    | nil => rfl
    | cons c cs ih =>
      simp only [dobrarAspas, List.flatMap_cons, ih]
      by_cases hc : c = aspas
      · have hc' : c = Char.ofNat 34 := hc
        simp [hc, hc', aspas]
      · have hc' : ¬ c = Char.ofNat 34 := hc
        simp [hc, hc']

/-- Witness of C15: a value with a comma and quotes, and a plain number. -/
theorem escaparValorCSV_aspas_witness :
    _escaparValorCSV (JsVal.str "a,\"b\"") "," = "\"a,\"\"b\"\"\""
      ∧ _escaparValorCSV (JsVal.num 7) "," = "7" :=
  ⟨(escaparValorCSV_aspas (JsVal.str "a,\"b\"") "," (by decide) (by decide)).1
      (Or.inr (Or.inr (Or.inr (by decide)))),
    by decide⟩

/-- C17: the text written by `exportarParaCSV` is, when the header is included,
the escaped keys of the first row joined by the separator and ended by the line
terminator, followed for each row in order by that row's own escaped values, in
that row's own key order, joined by the separator and ended by the line
terminator; and for the two rows `{a: 1, b: 2}`, `{b: 3}` the value `3`, whose
key is `b`, is written first in its line, under the header `a`. -/
theorem conteudoCSV_forma (dados : List Linha) (opcoes : OpcoesCSV) :
    conteudoCSV dados opcoes
        = (match dados with
            | primeira :: _ =>
              if incluirCabecalhoDe opcoes then
                juntar (separadorDe opcoes)
                  ((JsObject.keys primeira).map
                    (fun col => _escaparValorCSV (JsVal.str col) (separadorDe opcoes)))
                  ++ quebrarLinhaDe opcoes
              else ""
            | [] => "")
          ++ String.join (dados.map (fun linha =>
              juntar (separadorDe opcoes)
                ((JsObject.values linha).map
                  (fun valor => _escaparValorCSV valor (separadorDe opcoes)))
                ++ quebrarLinhaDe opcoes))
      ∧ (∀ linha : Linha, (JsObject.keys linha).zip (JsObject.values linha)
          = JsObject.entries linha)
      ∧ (∀ (amb : AmbienteExportacao) (nomeArquivo : String) (arquivo : ArquivoExportado),
          exportarParaCSV amb dados nomeArquivo opcoes = Except.ok arquivo →
          amb.gravarTexto (amb.caminho (nomeArquivo ++ "_" ++ amb.carimbo ++ ".csv"))
              (conteudoCSV dados opcoes) = Except.ok arquivo.size)
      ∧ conteudoCSV exLinhasDesalinhadas ⟨none, none, none⟩ = "a,b\n1,2\n3\n"
      ∧ exLinhasDesalinhadas.map JsObject.keys = [["a", "b"], ["b"]]
      ∧ exLinhasDesalinhadas.map JsObject.values
        = [[JsVal.str "1", JsVal.str "2"], [JsVal.str "3"]] := by
  refine ⟨?_, keys_zip_values, ?_, by decide, by decide, by decide⟩
  · unfold conteudoCSV linhaCSV
    simp only []
    rw [foldl_concatena]
    cases dados with
    | nil => rfl
    | cons primeira resto =>
      cases incluirCabecalhoDe opcoes <;> simp
  · intro amb nomeArquivo arquivo h
    unfold exportarParaCSV at h
    cases dados with
    | nil => simp at h
    | cons primeira resto =>
      simp only [] at h
      cases hp : amb.prepararPasta with
      | error m => simp [hp] at h
      | ok u =>
        cases hg : amb.gravarTexto (amb.caminho (nomeArquivo ++ "_" ++ amb.carimbo ++ ".csv"))
            (conteudoCSV (primeira :: resto) opcoes) with
        | error m => simp [hp, hg] at h
        | ok tamanho =>
          simp only [hp, hg, Except.ok.injEq] at h
          rw [← h]

/-! ## Lemmas: reading back a written line -/

theorem prefixo_um (c x : Char) (xs : List Char) :
    List.isPrefixOf [c] (x :: xs) = decide (c = x) := by
  simp only [List.isPrefixOf, Bool.and_true]
  by_cases h : c = x <;> simp [h]

theorem ler_simples (c : Char) (f resto g : List Char) (campos : List String)
    (hf : ∀ x ∈ f, x ≠ c) :
    lerLinhaCSV [c] (EstadoLeitor.simples g) (f ++ resto) campos
      = lerLinhaCSV [c] (EstadoLeitor.simples (g ++ f)) resto campos := by
  induction f generalizing g with
  | nil => simp
  | cons x f ih =>
    have hx : ¬ c = x := fun h => hf x (List.mem_cons_self _ _) h.symm
    rw [List.cons_append, lerLinhaCSV, prefixo_um]
    simp only [hx, decide_False, Bool.false_eq_true, if_false]
    rw [ih _ (fun y hy => hf y (List.mem_cons_of_mem _ hy))]
    simp

theorem ler_entreAspas (c : Char) (f resto g : List Char) (campos : List String) :
    lerLinhaCSV [c] (EstadoLeitor.entreAspas g) (dobrarAspas f ++ aspas :: resto) campos
      = lerLinhaCSV [c] (EstadoLeitor.aposAspas (g ++ f)) resto campos := by
  induction f generalizing g with
  | nil => simp [dobrarAspas, lerLinhaCSV]
  | cons x f ih =>
    by_cases hx : x = aspas
    · subst hx
      simp only [dobrarAspas, if_true, List.cons_append]
      rw [lerLinhaCSV, if_pos rfl, lerLinhaCSV, if_pos rfl, ih]
      simp
    · simp only [dobrarAspas, hx, if_false, List.cons_append]
      rw [lerLinhaCSV, if_neg hx, ih]
      simp

theorem ler_fim_de_campo (c : Char) (hc : c ≠ aspas) (campo resto : List Char)
    (campos : List String) :
    lerLinhaCSV [c] (EstadoLeitor.aposAspas campo) (c :: resto) campos
        = lerLinhaCSV [c] (EstadoLeitor.entre 0) resto (campos ++ [String.mk campo])
      ∧ lerLinhaCSV [c] (EstadoLeitor.simples campo) (c :: resto) campos
        = lerLinhaCSV [c] (EstadoLeitor.entre 0) resto (campos ++ [String.mk campo]) := by
  constructor
  · rw [lerLinhaCSV, if_neg hc, prefixo_um]
    simp
  · rw [lerLinhaCSV, prefixo_um]
    simp

/-- Characters of the field written for a string with a one-character
separator. -/
theorem escaparValorCSV_chars (c : Char) (s : String) :
    (_escaparValorCSV (JsVal.str s) (String.singleton c)).data
      = if c ∈ s.data ∨ Char.ofNat 10 ∈ s.data ∨ Char.ofNat 13 ∈ s.data ∨ aspas ∈ s.data then
          aspas :: (dobrarAspas s.data ++ [aspas])
        else s.data := by
  have hcond : (inclui s (String.singleton c) || inclui s "\n" || inclui s "\r"
        || inclui s "\"") = true
      ↔ (c ∈ s.data ∨ Char.ofNat 10 ∈ s.data ∨ Char.ofNat 13 ∈ s.data ∨ aspas ∈ s.data) := by
    have h1 : (String.singleton c).data = [c] := rfl
    have h10 : ("\n" : String).data = [Char.ofNat 10] := by decide
    have h13 : ("\r" : String).data = [Char.ofNat 13] := by decide
    have h34 : ("\"" : String).data = [aspas] := by decide
    simp only [Bool.or_eq_true, inclui, h1, h10, h13, h34, incluiChars_um]
    constructor
    · rintro (((h | h) | h) | h)
      · exact Or.inl h
      · exact Or.inr (Or.inl h)
      · exact Or.inr (Or.inr (Or.inl h))
      · exact Or.inr (Or.inr (Or.inr h))
    · rintro (h | h | h | h)
      · exact Or.inl (Or.inl (Or.inl h))
      · exact Or.inl (Or.inl (Or.inr h))
      · exact Or.inl (Or.inr h)
      · exact Or.inr h
  have hesc : _escaparValorCSV (JsVal.str s) (String.singleton c)
      = if (inclui s (String.singleton c) || inclui s "\n" || inclui s "\r"
          || inclui s "\"") = true then
          String.mk (aspas :: (dobrarAspas s.data ++ [aspas]))
        else s := rfl
  rw [hesc]
  by_cases h : (inclui s (String.singleton c) || inclui s "\n" || inclui s "\r"
      || inclui s "\"") = true
  · rw [if_pos h, if_pos (hcond.1 h)]
  · rw [if_neg h, if_neg (fun hc => h (hcond.2 hc))]

/-- Reading one written field that ends the line, or that is followed by the
separator. -/
theorem ler_campo (c : Char) (hc : c ≠ aspas) (s : String) (campos : List String) :
    lerLinhaCSV [c] (EstadoLeitor.entre 0)
        (_escaparValorCSV (JsVal.str s) (String.singleton c)).data campos
        = some (campos ++ [s])
      ∧ ∀ resto : List Char,
          lerLinhaCSV [c] (EstadoLeitor.entre 0)
              ((_escaparValorCSV (JsVal.str s) (String.singleton c)).data ++ c :: resto) campos
            = lerLinhaCSV [c] (EstadoLeitor.entre 0) resto (campos ++ [s]) := by
  rw [escaparValorCSV_chars]
  have hmk : String.mk s.data = s := rfl
  by_cases h : c ∈ s.data ∨ Char.ofNat 10 ∈ s.data ∨ Char.ofNat 13 ∈ s.data ∨ aspas ∈ s.data
  · rw [if_pos h]
    constructor
    · rw [lerLinhaCSV, if_pos rfl]
      have := ler_entreAspas c s.data [] [] campos
      rw [this]
      simp [lerLinhaCSV, hmk]
    · intro resto
      rw [List.cons_append, lerLinhaCSV, if_pos rfl, List.append_assoc, List.singleton_append,
        ler_entreAspas c s.data (c :: resto) [] campos,
        (ler_fim_de_campo c hc _ resto campos).1]
      simp [hmk]
  · rw [if_neg h]
    have hsem_c : ∀ x ∈ s.data, x ≠ c := fun x hx hxc => h (Or.inl (hxc ▸ hx))
    have hsem_aspas : ∀ x ∈ s.data, x ≠ aspas :=
      fun x hx hxa => h (Or.inr (Or.inr (Or.inr (hxa ▸ hx))))
    cases hs : s.data with
    | nil =>
      have hvazio : s = "" := String.ext (by rw [hs])
      constructor
      · simp [lerLinhaCSV, hvazio]
      · intro resto
        rw [List.nil_append, lerLinhaCSV, if_neg hc, prefixo_um]
        simp [hvazio]
    | cons x xs =>
      have hx_c : x ≠ c := hsem_c x (by rw [hs]; exact List.mem_cons_self _ _)
      have hx_a : x ≠ aspas := hsem_aspas x (by rw [hs]; exact List.mem_cons_self _ _)
      have hxs : ∀ y ∈ xs, y ≠ c :=
        fun y hy => hsem_c y (by rw [hs]; exact List.mem_cons_of_mem _ hy)
      have hcx : ¬ c = x := fun e => hx_c e.symm
      have hmk2 : String.mk (x :: xs) = s := by rw [← hs]
      constructor
      · rw [lerLinhaCSV, if_neg hx_a, prefixo_um]
        simp only [hcx, decide_False, Bool.false_eq_true, if_false]
        have := ler_simples c xs [] [x] campos hxs
        rw [List.append_nil] at this
        rw [this]
        simp [lerLinhaCSV, hmk2]
      · intro resto
        rw [List.cons_append, lerLinhaCSV, if_neg hx_a, prefixo_um]
        simp only [hcx, decide_False, Bool.false_eq_true, if_false]
        rw [ler_simples c xs (c :: resto) [x] campos hxs,
          (ler_fim_de_campo c hc _ resto campos).2]
        simp [hmk2]

theorem juntar_data_cons (sep x y : String) (resto : List String) :
    (juntar sep (x :: y :: resto)).data = x.data ++ sep.data ++ (juntar sep (y :: resto)).data := by
  simp [juntar, String.data_append]

theorem ler_linha_de_textos (c : Char) (hc : c ≠ aspas) (campos : List String)
    (hne : campos ≠ []) (lidos : List String) :
    lerLinhaCSV [c] (EstadoLeitor.entre 0)
        (linhaDeTextos (String.singleton c) campos).data lidos
      = some (lidos ++ campos) := by
  induction campos generalizing lidos with
  | nil => exact absurd rfl hne
  | cons s resto ih =>
    cases resto with
    | nil =>
      simp only [linhaDeTextos, List.map_cons, List.map_nil, juntar]
      exact (ler_campo c hc s lidos).1
    | cons t resto =>
      have h2 := ih (by simp) (lidos ++ [s])
      simp only [linhaDeTextos, List.map_cons] at h2 ⊢
      rw [juntar_data_cons]
      have hsep : (String.singleton c).data = [c] := rfl
      rw [hsep, List.append_assoc, List.singleton_append, (ler_campo c hc s lidos).2, h2]
      simp

/-! ## Property of the CSV round trip -/

/-- C16 (as amended): for every separator made of one character other than the
double quote, which `exportarParaCSV` accepts, and every row of string values
that is not empty, reading back the data line written for the row, with the
same separator, gives exactly the original strings, whether or not they
contain the separator, double quotes or line breaks. -/
theorem relerLinhaCSV_ida_e_volta (c : Char) (campos : List String)
    (hc : c ≠ Char.ofNat 34) (hne : campos ≠ []) :
    relerLinhaCSV (String.singleton c) (linhaDeTextos (String.singleton c) campos) = some campos
      ∧ (∀ linha : Linha, JsObject.values linha = campos.map JsVal.str →
          linhaCSV (String.singleton c) linha = linhaDeTextos (String.singleton c) campos)
      ∧ ∀ (quebra : Option String) (cabecalho : Option Bool),
          separadorDe ⟨some (String.singleton c), quebra, cabecalho⟩ = String.singleton c := by
  refine ⟨?_, ?_, ?_⟩
  · unfold relerLinhaCSV
    have h := ler_linha_de_textos c hc campos hne []
    simpa using h
  · intro linha hvalores
    unfold linhaCSV linhaDeTextos
    rw [hvalores, List.map_map]
    rfl
  · intro quebra cabecalho
    have hne' : String.singleton c ≠ "" := by
      intro h
      have := congrArg String.data h
      simp [String.singleton] at this
    simp [separadorDe, hne']

/-- Witness of C16 (as amended): a row with a comma, quotes, an empty string
and a line break, written and read back with the comma. -/
theorem relerLinhaCSV_ida_e_volta_witness :
    Char.ofNat 44 ≠ Char.ofNat 34
      ∧ linhaCSV ","
          [("a", JsVal.str "x,y"), ("b", JsVal.str "he said \"hi\""), ("c", JsVal.str ""),
            ("d", JsVal.str "l1\nl2")]
        = "\"x,y\",\"he said \"\"hi\"\"\",,\"l1\nl2\""
      ∧ relerLinhaCSV (String.singleton (Char.ofNat 44))
          (linhaDeTextos (String.singleton (Char.ofNat 44))
            ["x,y", "he said \"hi\"", "", "l1\nl2"])
        = some ["x,y", "he said \"hi\"", "", "l1\nl2"] :=
  ⟨by decide, by decide,
    (relerLinhaCSV_ida_e_volta (Char.ofNat 44) ["x,y", "he said \"hi\"", "", "l1\nl2"]
      (by decide) (by decide)).1⟩

/-- Counterexample to C16 as stated: (a) with the accepted separator `"` the
line written for the row `["", "x"]` is `"x`, which reads back as an unclosed
quoted field; (b) with the accepted separator `||` the line written for
`["a|", "b"]` is `a|||b`, which reads back as `["a", "|b"]`; (c) the line
written for a row without values is empty and reads back as one empty field. -/
theorem relerLinhaCSV_ida_e_volta_contraexemplo :
    separadorDe ⟨some "\"", none, none⟩ = "\""
      ∧ linhaCSV "\"" [("a", JsVal.str ""), ("b", JsVal.str "x")] = "\"x"
      ∧ relerLinhaCSV "\"" "\"x" = none
      ∧ separadorDe ⟨some "||", none, none⟩ = "||"
      ∧ linhaCSV "||" [("a", JsVal.str "a|"), ("b", JsVal.str "b")] = "a|||b"
      ∧ relerLinhaCSV "||" "a|||b" = some ["a", "|b"]
      ∧ linhaCSV "," [] = ""
      ∧ relerLinhaCSV "," "" = some [""] :=
  ⟨by decide, by decide, by decide, by decide, by decide, by decide, by decide, by decide⟩

/-! ## Properties of the header lookup and of the rename key -/

/-- C29: for a file whose selection list is `cols`, and every column of that
list, the search of the prepared header list for an entry with the file's
identifier and the column's original name finds an entry, whose final name is
the final name of the column; so the guarded write is always performed and the
final name of every selected column is a key of the combined row. -/
theorem combinarPlanilhas_cabecalho_encontrado
    (colunasEscolhidas : JsObject (List Coluna)) (cfg : Configuracoes) (p : Planilha)
    (cols : List Coluna) (c : Coluna) (linha : Linha)
    (hsel : JsObject.get colunasEscolhidas p.fileName = some cols) (hc : c ∈ cols) :
    (∃ h, (prepararCabecalho colunasEscolhidas cfg).find?
          (fun h => h.planilhaOrigem == p.fileName && h.nomeOriginal == c.nome) = some h
        ∧ h.planilhaOrigem = p.fileName ∧ h.nomeOriginal = c.nome
        ∧ h.nomeFinal = nomeColuna cfg p.fileName c)
      ∧ nomeColuna cfg p.fileName c ∈ JsObject.keys
          (construirLinha (prepararCabecalho colunasEscolhidas cfg) p cols cfg linha) := by
  refine ⟨?_, ?_⟩
  · obtain ⟨h, hfind, hfinal⟩ := find_cabecalho colunasEscolhidas cfg p.fileName cols c hsel hc
    have hp := List.find?_some hfind
    simp only [Bool.and_eq_true, beq_iff_eq] at hp
    exact ⟨h, hfind, hp.1, hp.2, hfinal⟩
  · rw [construirLinha_eq colunasEscolhidas cfg p cols linha hsel]
    exact linhaEsperada_chave cfg p cols linha c hc

/-- Witness of C29 on the worked example: the column `2024` of `u1.csv`. -/
theorem combinarPlanilhas_cabecalho_encontrado_witness :
    JsObject.get exSelecao "u1.csv" = some [⟨1, "name"⟩, ⟨2, "2024"⟩]
      ∧ "2024" ∈ JsObject.keys
          (construirLinha (prepararCabecalho exSelecao exConfig) ⟨"u1.csv", "clientes.csv"⟩
            [⟨1, "name"⟩, ⟨2, "2024"⟩] exConfig [("id", JsVal.str "2"), ("name", JsVal.str "Bob")]) :=
  ⟨rfl, (combinarPlanilhas_cabecalho_encontrado exSelecao exConfig ⟨"u1.csv", "clientes.csv"⟩
    [⟨1, "name"⟩, ⟨2, "2024"⟩] ⟨2, "2024"⟩ [("id", JsVal.str "2"), ("name", JsVal.str "Bob")]
    rfl (by decide)).2⟩

/-- C30: the rename key does not identify a column: the file `a` with the
column `b_c` and the file `a_b` with the column `c` are distinct pairs with the
same key `a_b_c`, and with the single rename entry `a_b_c ↦ novo` the
combination writes the column of each of the two files under `novo`. -/
theorem chaveRenomear_ambigua :
    (("a", "b_c") : String × String) ≠ ("a_b", "c")
      ∧ chaveRenomear "a" "b_c" = chaveRenomear "a_b" "c"
      ∧ combinarPlanilhas
          (fun fileName _ =>
            if fileName = "a" then Except.ok [[("b_c", JsVal.str "1")]]
            else Except.ok [[("c", JsVal.str "2")]])
          [⟨"a", "um.csv"⟩, ⟨"a_b", "dois.csv"⟩]
          [("a", [⟨0, "b_c"⟩]), ("a_b", [⟨0, "c"⟩])]
          ⟨some [("a_b_c", "novo")], false, false, none⟩
        = Except.ok [[("novo", JsVal.str "1")], [("novo", JsVal.str "2")]] :=
  ⟨by decide, by decide, rfl⟩

/-! ## Lemmas: separator detection -/

theorem passoSeparador_invariante (texto : String) (todo pre pos : List Char) (b : Char)
    (hpre : ∀ x ∈ pre, contagem x texto < contagem b texto)
    (hpos : ∀ x ∈ pos, contagem x texto ≤ contagem b texto) :
    ∃ pre' pos', pre ++ b :: pos ++ todo
          = pre' ++ (todo.foldl (passoSeparador texto) (b, contagem b texto)).1 :: pos'
      ∧ (∀ x ∈ pre', contagem x texto
          < contagem (todo.foldl (passoSeparador texto) (b, contagem b texto)).1 texto)
      ∧ (∀ x ∈ pos', contagem x texto
          ≤ contagem (todo.foldl (passoSeparador texto) (b, contagem b texto)).1 texto) := by
  induction todo generalizing pre pos b with
  | nil => exact ⟨pre, pos, by simp, hpre, hpos⟩
  | cons x todo ih =>
    rw [List.foldl_cons]
    by_cases hx : contagem x texto > contagem b texto
    · have hpasso : passoSeparador texto (b, contagem b texto) x = (x, contagem x texto) := by
        simp [passoSeparador, hx]
      rw [hpasso]
      obtain ⟨pre', pos', h1, h2, h3⟩ := ih (pre ++ b :: pos) [] x
        (by
          intro y hy
          rcases List.mem_append.1 hy with hy | hy
          · exact Nat.lt_trans (hpre y hy) hx
          · rcases List.mem_cons.1 hy with rfl | hy
            · exact hx
            · exact Nat.lt_of_le_of_lt (hpos y hy) hx)
        (by intro y hy; cases hy)
      exact ⟨pre', pos', by simpa using h1, h2, h3⟩
    · have hpasso : passoSeparador texto (b, contagem b texto) x = (b, contagem b texto) := by
        simp [passoSeparador, hx]
      rw [hpasso]
      obtain ⟨pre', pos', h1, h2, h3⟩ := ih pre (pos ++ [x]) b hpre
        (by
          intro y hy
          rcases List.mem_append.1 hy with hy | hy
          · exact hpos y hy
          · rw [List.mem_singleton] at hy
            subst hy
            exact Nat.le_of_not_gt hx)
      exact ⟨pre', pos', by simpa using h1, h2, h3⟩

theorem separadores_primeiro_passo (texto : String) :
    separadores.foldl (passoSeparador texto) (Char.ofNat 44, 0)
      = [Char.ofNat 59, Char.ofNat 9, Char.ofNat 124].foldl (passoSeparador texto)
          (Char.ofNat 44, contagem (Char.ofNat 44) texto) := by
  have h : passoSeparador texto (Char.ofNat 44, 0) (Char.ofNat 44)
      = (Char.ofNat 44, contagem (Char.ofNat 44) texto) := by
    unfold passoSeparador
    by_cases h0 : contagem (Char.ofNat 44) texto > 0
    · simp [h0]
    · have : contagem (Char.ofNat 44) texto = 0 := by omega
      simp [this]
  simp only [separadores, List.foldl_cons, h]

/-! ## Property of the separator detection -/

/-- C21: for a readable file, `_detectarSeparadorCSV` returns one of the
candidates comma, semicolon, tab and vertical bar, such that, counting
occurrences in the first three lines of the text, every candidate listed before
it occurs strictly less often and every candidate listed after it occurs at
most as often; hence a most frequent candidate, the earliest one on a tie, and
the comma when no candidate occurs. A file that cannot be read gives the
comma. -/
theorem detectarSeparadorCSV_mais_frequente (texto : String) :
    (∃ (antes depois : List Char) (c : Char),
        separadores = antes ++ c :: depois
          ∧ _detectarSeparadorCSV (Except.ok texto) = String.singleton c
          ∧ (∀ x ∈ antes, contagem x (primeirasLinhas texto) < contagem c (primeirasLinhas texto))
          ∧ (∀ x ∈ depois, contagem x (primeirasLinhas texto)
              ≤ contagem c (primeirasLinhas texto)))
      ∧ ((∀ x ∈ separadores, contagem x (primeirasLinhas texto) = 0) →
          _detectarSeparadorCSV (Except.ok texto) = ",")
      ∧ separadores.map String.singleton = [",", ";", "\t", "|"]
      ∧ ∀ mensagem : String, _detectarSeparadorCSV (Except.error mensagem) = "," := by
  have principal : ∃ (antes depois : List Char) (c : Char),
      separadores = antes ++ c :: depois
        ∧ _detectarSeparadorCSV (Except.ok texto) = String.singleton c
        ∧ (∀ x ∈ antes, contagem x (primeirasLinhas texto) < contagem c (primeirasLinhas texto))
        ∧ (∀ x ∈ depois, contagem x (primeirasLinhas texto)
            ≤ contagem c (primeirasLinhas texto)) := by
    obtain ⟨pre', pos', h1, h2, h3⟩ :=
      passoSeparador_invariante (primeirasLinhas texto)
        [Char.ofNat 59, Char.ofNat 9, Char.ofNat 124] [] [] (Char.ofNat 44)
        (by intro y hy; cases hy) (by intro y hy; cases hy)
    refine ⟨pre', pos', _, ?_, ?_, h2, h3⟩
    · rw [← h1]
      rfl
    · unfold _detectarSeparadorCSV
      simp only []
      rw [separadores_primeiro_passo]
  refine ⟨principal, ?_, by decide, fun _ => rfl⟩
  intro hzero
  obtain ⟨antes, depois, c, hsep, hres, hantes, _⟩ := principal
  cases antes with
  | nil =>
    have hc : c = Char.ofNat 44 := by
      have := congrArg List.head? hsep
      simpa [separadores] using this.symm
    rw [hres, hc]
    rfl
  | cons a antes =>
    have ha : a ∈ separadores := by rw [hsep]; simp
    have hc : c ∈ separadores := by rw [hsep]; simp
    have := hantes a (List.mem_cons_self _ _)
    rw [hzero a ha, hzero c hc] at this
    exact absurd this (Nat.lt_irrefl 0)

/-! ## Property of the upload filter -/

/-- C28 (as amended): the upload filter accepts a file exactly when its
declared MIME type is one of the allowed types or the extension of its original
name, in lower case, is one of `.xlsx`, `.xls`, `.csv`, `.txt`; in every other
case it rejects the file with the file-type error. In particular a file whose
MIME type is not an allowed one is accepted only for those extensions. -/
theorem fileFilter_aceita (file : ArquivoRecebido) :
    (fileFilter file = Except.ok true
        ↔ (file.mimetype ∈ ALLOWED_TYPES
          ∨ minusculas (extname file.originalname) ∈ [".xlsx", ".xls", ".csv", ".txt"]))
      ∧ (¬ (file.mimetype ∈ ALLOWED_TYPES
            ∨ minusculas (extname file.originalname) ∈ [".xlsx", ".xls", ".csv", ".txt"]) →
          fileFilter file = Except.error "Tipo de arquivo não permitido")
      ∧ (file.mimetype ∉ ALLOWED_TYPES →
          (fileFilter file = Except.ok true
            ↔ minusculas (extname file.originalname) ∈ [".xlsx", ".xls", ".csv", ".txt"])) := by
  unfold fileFilter
  by_cases hm : file.mimetype ∈ ALLOWED_TYPES
  · have hc : ALLOWED_TYPES.contains file.mimetype = true := List.elem_iff.2 hm
    simp [hc, hm]
  · have hc : ALLOWED_TYPES.contains file.mimetype = false := by
      cases h : ALLOWED_TYPES.contains file.mimetype with
      | false => rfl
      | true => exact absurd (List.elem_iff.1 h) hm
    by_cases he : minusculas (extname file.originalname) ∈ [".xlsx", ".xls", ".csv", ".txt"]
    · have hce : ALLOWED_EXTENSIONS.contains (minusculas (extname file.originalname)) = true :=
        List.elem_iff.2 he
      simp only [hc, Bool.false_eq_true, if_false, hce, if_true, hm, he, false_or, or_true,
        true_iff, not_true, false_implies, not_false_iff, true_implies, and_self]
    · have hce : ALLOWED_EXTENSIONS.contains (minusculas (extname file.originalname)) = false := by
        cases h : ALLOWED_EXTENSIONS.contains (minusculas (extname file.originalname)) with
        | false => rfl
        | true => exact absurd (List.elem_iff.1 h) he
      simp only [hc, Bool.false_eq_true, if_false, hce, hm, he, or_self, iff_false,
        not_false_iff, true_implies, FILE_TYPE, reduceCtorEq, and_self, and_true]

/-- Counterexample to C28 as stated: the file `notas.pdf`, whose extension is
not an accepted one, is accepted because it declares the MIME type
`text/plain`. -/
theorem fileFilter_aceita_contraexemplo :
    minusculas (extname "notas.pdf") = ".pdf"
      ∧ ".pdf" ∉ [".xlsx", ".xls", ".csv", ".txt"]
      ∧ fileFilter ⟨"notas.pdf", "notas_1_abc.pdf", "uploads/notas_1_abc.pdf", "text/plain", 10⟩
        = Except.ok true :=
  ⟨by decide, by decide, rfl⟩

/-! ## Properties of the readers -/

/-- C22 (evaluation at a failing input): the sheet with the header `id`, `qtd`
and the data row `1`, `0` is read as one data row, the number of sheet rows
minus the header, in which `qtd` holds the empty string and not the cell `0`:
the expression `linha[index] || ''` replaces every falsy cell, not only a
missing one. The same holds for the sampling reader. -/
theorem processarExcel_celula_zero :
    (exLeitura exDataValida).lerExcel "uploads/estoque.xlsx"
        = Except.ok [[JsVal.str "id", JsVal.str "qtd"], [JsVal.num 1, JsVal.num 0]]
      ∧ celulaEm [JsVal.num 1, JsVal.num 0] 1 = JsVal.num 0
      ∧ _processarExcel (exLeitura exDataValida) "uploads/estoque.xlsx"
        = Except.ok ⟨[[("id", JsVal.num 1), ("qtd", JsVal.str "")]],
            [JsVal.str "id", JsVal.str "qtd"]⟩
      ∧ _analisarEstruturaExcel (exLeitura exDataValida) "uploads/estoque.xlsx"
        = Except.ok ⟨[[("id", JsVal.num 1), ("qtd", JsVal.str "")]],
            [JsVal.str "id", JsVal.str "qtd"]⟩
      ∧ objetoDaLinha [JsVal.str "ok", JsVal.str "n"] [JsVal.bool false, JsVal.num 7]
        = [("ok", JsVal.str ""), ("n", JsVal.num 7)] :=
  ⟨rfl, rfl, rfl, rfl, by decide⟩

/-- C23 (as amended): for a workbook file (extension `.xlsx` or `.xls`), a
sheet without any row makes `_processarExcel`, and so `analisarPlanilha`, fail
with the empty-sheet error, while a sheet that consists of a header row only is
read as a table with that header and zero data rows, which `analisarPlanilha`
reports with `totalLinhas = 0`. -/
theorem processarExcel_planilha_vazia (amb : AmbienteLeitura) (filePath originalName : String)
    (hext : minusculas (extname originalName) = ".xlsx"
      ∨ minusculas (extname originalName) = ".xls") :
    (amb.lerExcel filePath = Except.ok [] →
        _processarExcel amb filePath = Except.error "Planilha vazia"
          ∧ analisarPlanilha amb filePath originalName
            = Except.error "Erro ao processar planilha: Planilha vazia")
      ∧ (∀ colunas : List JsVal, amb.lerExcel filePath = Except.ok [colunas] →
          _processarExcel amb filePath = Except.ok ⟨[], colunas⟩
            ∧ ∃ analise, analisarPlanilha amb filePath originalName = Except.ok analise
              ∧ analise.totalLinhas = 0 ∧ analise.colunas = colunas
              ∧ analise.amostraDados = []) := by
  have hncsv : ¬ (minusculas (extname originalName) = ".csv"
      ∨ minusculas (extname originalName) = ".txt") := by
    rcases hext with h | h <;> rw [h] <;> decide
  refine ⟨?_, ?_⟩
  · intro hvazia
    have hp : _processarExcel amb filePath = Except.error "Planilha vazia" := by
      simp [_processarExcel, hvazia]
    refine ⟨hp, ?_⟩
    unfold analisarPlanilha
    simp only [if_neg hncsv, if_pos hext, hp]
    rfl
  · intro colunas hcab
    have hp : _processarExcel amb filePath = Except.ok ⟨[], colunas⟩ := by
      simp [_processarExcel, hcab]
    refine ⟨hp, ?_⟩
    unfold analisarPlanilha
    simp only [if_neg hncsv, if_pos hext, hp]
    exact ⟨_, rfl, rfl, rfl, rfl⟩

/-- Witness of C23 (as amended): the sheet of `uploads/so_cabecalho.xlsx` has a
header row only. -/
theorem processarExcel_planilha_vazia_witness :
    (minusculas (extname "so_cabecalho.xlsx") = ".xlsx"
        ∨ minusculas (extname "so_cabecalho.xlsx") = ".xls")
      ∧ (exLeitura exDataValida).lerExcel "uploads/so_cabecalho.xlsx"
        = Except.ok [[JsVal.str "id", JsVal.str "qtd"]]
      ∧ _processarExcel (exLeitura exDataValida) "uploads/so_cabecalho.xlsx"
        = Except.ok ⟨[], [JsVal.str "id", JsVal.str "qtd"]⟩ :=
  ⟨by decide, rfl,
    ((processarExcel_planilha_vazia (exLeitura exDataValida) "uploads/so_cabecalho.xlsx"
      "so_cabecalho.xlsx" (by decide)).2 [JsVal.str "id", JsVal.str "qtd"] rfl).1⟩

/-- Counterexample to C23 as stated: an Excel sheet that consists of a header
row only does not make `_processarExcel` or `analisarPlanilha` fail; both
return a table with zero rows. -/
theorem processarExcel_planilha_vazia_contraexemplo :
    (exLeitura exDataValida).lerExcel "uploads/so_cabecalho.xlsx"
        = Except.ok [[JsVal.str "id", JsVal.str "qtd"]]
      ∧ _processarExcel (exLeitura exDataValida) "uploads/so_cabecalho.xlsx"
        = Except.ok ⟨[], [JsVal.str "id", JsVal.str "qtd"]⟩
      ∧ analisarPlanilha (exLeitura exDataValida) "uploads/so_cabecalho.xlsx" "so_cabecalho.xlsx"
        = Except.ok ⟨0, 2, [JsVal.str "id", JsVal.str "qtd"], [],
            [("id", "text"), ("qtd", "text")],
            [("id", ⟨0, 0, 0, JsVal.num 0⟩), ("qtd", ⟨0, 0, 0, JsVal.num 0⟩)]⟩ :=
  ⟨rfl, rfl, rfl⟩

/-- C24 (evaluation at a failing input): for the original name `relatorio.pdf`,
whose extension is none of the four accepted ones, `analisarPlanilha` and
`analisarEstrutura` fail with their unsupported-format errors, whereas
`_carregarDadosCompletos` raises no such error: in every environment it hands
the file to the Excel reader and returns whatever that reader returns, here a
table. -/
theorem carregarDadosCompletos_formato_nao_verificado :
    minusculas (extname "relatorio.pdf") = ".pdf"
      ∧ analisarPlanilha (exLeitura exDataValida) "uploads/relatorio.pdf" "relatorio.pdf"
        = Except.error "Erro ao processar planilha: Formato de arquivo não suportado: .pdf"
      ∧ analisarEstrutura (exLeitura exDataValida) "uploads/relatorio.pdf" "relatorio.pdf"
        = Except.error "Erro na análise da estrutura: Formato não suportado: .pdf"
      ∧ _carregarDadosCompletos (exLeitura exDataValida) "uploads/relatorio.pdf" "relatorio.pdf"
        = Except.ok [[("%PDF-1.7", JsVal.str "1 0 obj")]]
      ∧ ∀ (amb : AmbienteLeitura) (filePath : String),
          _carregarDadosCompletos amb filePath "relatorio.pdf"
            = match _processarExcel amb filePath with
              | Except.error mensagem => Except.error mensagem
              | Except.ok resultado => Except.ok resultado.dados :=
  ⟨by decide, rfl, rfl, rfl, fun _ _ => rfl⟩

/-! ## Lemmas: a table combined with all of its columns -/

theorem todasAsColunas_nomes (colunas : List JsVal) (i : Nat) :
    (todasAsColunas colunas i).map Coluna.nome = colunas.map textoDe := by
  induction colunas generalizing i with
  | nil => rfl
  | cons c cs ih => simp [todasAsColunas, ih]

theorem nomeColuna_neutra (f : String) (c : Coluna) :
    nomeColuna configuracoesNeutras f c = c.nome := rfl

theorem processarValor_neutro (v : JsVal) :
    _processarValor v configuracoesNeutras = if valorPreenchido v then v else JsVal.str "" := by
  cases v with
  | undefined => rfl
  | null => rfl
  | str s =>
    by_cases h : s = ""
    · subst h
      rfl
    · simp [_processarValor, configuracoesNeutras, valorPreenchido, h]
  | num n => rfl
  | bool b => rfl

/-- Reading a key of a row built from values that depend on the key only. -/
theorem dobra_get_por_nome (g : String → JsVal) (cols : List Coluna) (ini : Linha) (k : String) :
    JsObject.get (cols.foldl (fun o c => JsObject.set o c.nome (g c.nome)) ini) k
      = if k ∈ cols.map Coluna.nome then some (g k) else JsObject.get ini k := by
  induction cols generalizing ini with
  | nil => simp
  | cons c cs ih =>
    rw [List.foldl_cons, ih, get_set]
    by_cases h1 : k ∈ cs.map Coluna.nome
    · simp [h1]
    · by_cases h2 : c.nome = k
      · subst h2
        simp [h1]
      · have h3 : ¬ k = c.nome := fun h => h2 h.symm
        simp [h1, h2, h3]

theorem linhaEsperada_neutra_get (p : Planilha) (cols : List Coluna) (linha : Linha)
    (k : String) :
    JsObject.get (linhaEsperada configuracoesNeutras p cols linha) k
      = if k ∈ cols.map Coluna.nome then
          some (if valorPreenchido (lerCelula linha k) then lerCelula linha k else JsVal.str "")
        else none := by
  have h := dobra_get_por_nome
    (fun n => if valorPreenchido (lerCelula linha n) then lerCelula linha n else JsVal.str "")
    cols [] k
  have hfold : linhaEsperada configuracoesNeutras p cols linha
      = cols.foldl (fun o c => JsObject.set o c.nome
          (if valorPreenchido (lerCelula linha c.nome) then lerCelula linha c.nome
            else JsVal.str "")) [] := by
    unfold linhaEsperada
    have hini : (if configuracoesNeutras.incluirOrigem = true then
        [(chaveOrigem, JsVal.str p.originalName)] else ([] : Linha)) = [] := rfl
    rw [hini]
    apply List.foldl_ext
    intro o c _
    rw [nomeColuna_neutra, processarValor_neutro]
  rw [hfold, h]
  simp [JsObject.get]

theorem mem_values_iff {α : Type} (o : JsObject α) (v : α) (hnd : (o.map Prod.fst).Nodup) :
    v ∈ JsObject.values o ↔ ∃ k, JsObject.get o k = some v := by
  unfold JsObject.values
  rw [List.mem_map]
  constructor
  · rintro ⟨e, he, rfl⟩
    exact ⟨e.1, (get_iff_mem o e.1 e.2 hnd).2 ((mem_entries o e).1 he)⟩
  · rintro ⟨k, hk⟩
    exact ⟨(k, v), (mem_entries o _).2 ((get_iff_mem o k v hnd).1 hk), rfl⟩

theorem mem_keys_iff {α : Type} (o : JsObject α) (k : String) :
    k ∈ JsObject.keys o ↔ (JsObject.get o k).isSome = true := by
  rw [(keys_perm o).mem_iff, get_isSome_iff]

theorem preencherObjeto_nodup (linha cols : List JsVal) (i : Nat) (o : Linha)
    (h : (o.map Prod.fst).Nodup) : ((preencherObjeto linha cols i o).map Prod.fst).Nodup := by
  induction cols generalizing i o with
  | nil => exact h
  | cons c cs ih => exact ih _ _ (set_nodup _ _ _ h)

theorem preencherObjeto_chaves (linha cols : List JsVal) (i : Nat) (o : Linha) (k : String)
    (h : k ∈ (preencherObjeto linha cols i o).map Prod.fst) :
    k ∈ o.map Prod.fst ∨ k ∈ cols.map textoDe := by
  induction cols generalizing i o with
  | nil => exact Or.inl h
  | cons c cs ih =>
    rcases ih _ _ h with h1 | h1
    · rw [set_chaves] at h1
      split at h1
      · exact Or.inl h1
      · rcases List.mem_append.1 h1 with h2 | h2
        · exact Or.inl h2
        · rw [List.mem_singleton] at h2
          exact Or.inr (by simp [h2])
    · exact Or.inr (List.mem_cons_of_mem _ h1)

theorem todasAsColunas_ne_nil (colunas : List JsVal) (h : colunas ≠ []) :
    todasAsColunas colunas 0 ≠ [] := by
  cases colunas with
  | nil => exact absurd rfl h
  | cons c cs => simp [todasAsColunas]

theorem conteudoCSV_linhas (dados : List Linha) (opcoes : OpcoesCSV) :
    ∃ cabecalho : String,
      conteudoCSV dados opcoes
        = cabecalho ++ String.join (dados.map (fun row =>
            linhaCSV (separadorDe opcoes) row ++ quebrarLinhaDe opcoes)) := by
  unfold conteudoCSV
  exact ⟨_, foldl_concatena _ _ _⟩

theorem preencherObjeto_celulas (Q : JsVal → Prop) (hQ : ∀ v, ehVerdadeiro v = true → Q v)
    (hvazio : Q (JsVal.str "")) (linha cols : List JsVal) (i : Nat) (o : Linha)
    (ho : ∀ k v, JsObject.get o k = some v → Q v) :
    ∀ k v, JsObject.get (preencherObjeto linha cols i o) k = some v → Q v := by
  induction cols generalizing i o with
  | nil => exact ho
  | cons c cs ih =>
    apply ih
    intro k v hk
    rw [get_set] at hk
    split at hk
    · cases hk
      split
      · next hv => exact hQ _ hv
      · exact hvazio
    · exact ho k v hk

theorem preencherObjeto_presente (linha cols : List JsVal) (i : Nat) (o : Linha) (k : String)
    (h : k ∈ o.map Prod.fst ∨ k ∈ cols.map textoDe) :
    k ∈ (preencherObjeto linha cols i o).map Prod.fst := by
  induction cols generalizing i o with
  | nil =>
    rcases h with h | h
    · exact h
    · simp at h
  | cons c cs ih =>
    apply ih
    rcases h with h | h
    · left
      rw [set_chaves]
      split
      · exact h
      · exact List.mem_append_left _ h
    · rcases List.mem_cons.1 h with h1 | h1
      · left
        rw [set_chaves]
        split
        · next hin => rw [h1]; exact hin
        · rw [h1]; simp
      · exact Or.inr h1

/-- A cell of a row built by the Excel reader, read by a header name, is
neither `null` nor `undefined`. -/
theorem objetoDaLinha_celula (cabecalho arr : List JsVal) (n : String)
    (hn : n ∈ cabecalho.map textoDe) :
    lerCelula (objetoDaLinha cabecalho arr) n ≠ JsVal.null
      ∧ lerCelula (objetoDaLinha cabecalho arr) n ≠ JsVal.undefined := by
  have hpres := preencherObjeto_presente arr cabecalho 0 [] n (Or.inr hn)
  rw [← get_isSome_iff] at hpres
  obtain ⟨v, hv⟩ := Option.isSome_iff_exists.1 hpres
  have hq := preencherObjeto_celulas (fun v => v ≠ JsVal.null ∧ v ≠ JsVal.undefined)
    (by intro v hv; cases v <;> simp [ehVerdadeiro] at hv ⊢)
    (by simp) arr cabecalho 0 [] (by intro k v hk; simp [JsObject.get] at hk) n v hv
  unfold objetoDaLinha lerCelula
  rw [hv]
  exact hq

theorem valorPreenchido_nao_nulo (v : JsVal) (h1 : v ≠ JsVal.null) (h2 : v ≠ JsVal.undefined) :
    (if valorPreenchido v then v else JsVal.str "") = v := by
  cases v with
  | undefined => exact absurd rfl h2
  | null => exact absurd rfl h1
  | str s =>
    by_cases h : s = ""
    · subst h
      rfl
    · simp [valorPreenchido, h]
  | num n => rfl
  | bool b => rfl

/-! ## Property of reading and re-exporting a table -/

/-- C25: for a table of a stored file with at least one column, whose rows are
objects with keys among the column names, combining that single file with all
of its columns selected and no origin, rename, trim or replacement succeeds and
returns as many rows as the table has; each combined row, paired in order with
its source row, holds under every column the source cell unchanged, where a
cell that is missing, `null` or `undefined` in the source is held as the empty
text, and has the same non-empty cell values as the source row; and the CSV
text of the combined rows is a header part followed by one line per row. Every
row produced by the Excel reader is such an object with keys among the header
names, and none of its cells under a header name is `null` or `undefined`. -/
theorem reexportar_preserva
    (carregarDados : String → String → Except String (List Linha)) (p : Planilha)
    (colunas : List JsVal) (dados : List Linha)
    (hler : carregarDados p.fileName p.originalName = Except.ok dados)
    (hcols : colunas ≠ [])
    (hobj : ∀ linha ∈ dados, (linha.map Prod.fst).Nodup)
    (hkeys : ∀ linha ∈ dados, ∀ k ∈ JsObject.keys linha, k ∈ colunas.map textoDe) :
    (∃ saida, combinarPlanilhas carregarDados [p] (selecaoCompleta p.fileName colunas)
          configuracoesNeutras = Except.ok saida
        ∧ saida.length = dados.length
        ∧ List.Forall₂
            (fun (linha row : Linha) =>
              (∀ n ∈ colunas.map textoDe,
                  (lerCelula linha n ≠ JsVal.null → lerCelula linha n ≠ JsVal.undefined →
                      JsObject.get row n = some (lerCelula linha n))
                    ∧ (lerCelula linha n = JsVal.null ∨ lerCelula linha n = JsVal.undefined →
                      JsObject.get row n = some (JsVal.str "")))
                ∧ ∀ v, valorPreenchido v = true →
                    (v ∈ JsObject.values row ↔ v ∈ JsObject.values linha))
            dados saida
        ∧ ∀ opcoes : OpcoesCSV, ∃ cabecalho : String,
            conteudoCSV saida opcoes
                = cabecalho ++ String.join (saida.map (fun row =>
                    linhaCSV (separadorDe opcoes) row ++ quebrarLinhaDe opcoes))
              ∧ (saida.map (fun row =>
                    linhaCSV (separadorDe opcoes) row ++ quebrarLinhaDe opcoes)).length
                = dados.length)
      ∧ ∀ (cabecalho : List JsVal) (linhasDados : List (List JsVal)),
          ∀ linha ∈ linhasDados.map (objetoDaLinha cabecalho),
            (linha.map Prod.fst).Nodup
              ∧ (∀ k ∈ JsObject.keys linha, k ∈ cabecalho.map textoDe)
              ∧ ∀ n ∈ cabecalho.map textoDe,
                  lerCelula linha n ≠ JsVal.null ∧ lerCelula linha n ≠ JsVal.undefined := by
  refine ⟨?_, ?_⟩
  · have hsel : JsObject.get (selecaoCompleta p.fileName colunas) p.fileName
        = some (todasAsColunas colunas 0) := by
      simp [selecaoCompleta, JsObject.get]
    have hcomb := combinarPlanilhas_um_arquivo carregarDados (selecaoCompleta p.fileName colunas)
      configuracoesNeutras p (todasAsColunas colunas 0) dados hsel
      (todasAsColunas_ne_nil colunas hcols) hler
    have hmap : dados.map (construirLinha
          (prepararCabecalho (selecaoCompleta p.fileName colunas) configuracoesNeutras) p
          (todasAsColunas colunas 0) configuracoesNeutras)
        = dados.map (linhaEsperada configuracoesNeutras p (todasAsColunas colunas 0)) := by
      apply List.map_congr_left
      intro linha _
      exact construirLinha_eq _ _ p _ linha hsel
    rw [hmap] at hcomb
    refine ⟨_, hcomb, by simp, ?_, ?_⟩
    · rw [List.forall₂_map_right_iff, List.forall₂_same]
      intro linha hlinha
      have hget := linhaEsperada_neutra_get p (todasAsColunas colunas 0) linha
      simp only [todasAsColunas_nomes] at hget
      refine ⟨?_, ?_⟩
      · intro n hn
        refine ⟨?_, ?_⟩
        · intro h1 h2
          rw [hget, if_pos hn, valorPreenchido_nao_nulo _ h1 h2]
        · intro h
          rw [hget, if_pos hn]
          rcases h with h | h <;> rw [h] <;> rfl
      · intro v hv
        rw [mem_values_iff _ v (linhaEsperada_nodup _ p _ linha),
          mem_values_iff linha v (hobj linha hlinha)]
        constructor
        · rintro ⟨k, hk⟩
          rw [hget] at hk
          by_cases hkn : k ∈ colunas.map textoDe
          · rw [if_pos hkn] at hk
            by_cases hpre : valorPreenchido (lerCelula linha k) = true
            · rw [if_pos hpre] at hk
              have hlk : lerCelula linha k = v := Option.some.inj hk
              refine ⟨k, ?_⟩
              unfold lerCelula at hlk
              cases hg : JsObject.get linha k with
              | none =>
                rw [hg] at hlk
                simp only [Option.getD_none] at hlk
                rw [← hlk] at hv
                exact absurd hv (by simp [valorPreenchido])
              | some w =>
                rw [hg] at hlk
                simp only [Option.getD_some] at hlk
                rw [hlk]
            · rw [if_neg hpre] at hk
              have : JsVal.str "" = v := Option.some.inj hk
              rw [← this] at hv
              exact absurd hv (by simp [valorPreenchido])
          · rw [if_neg hkn] at hk
            cases hk
        · rintro ⟨k, hk⟩
          have hkeys' : k ∈ colunas.map textoDe :=
            hkeys linha hlinha k ((mem_keys_iff linha k).2 (by simp [hk]))
          have hlk : lerCelula linha k = v := by simp [lerCelula, hk]
          refine ⟨k, ?_⟩
          rw [hget, if_pos hkeys', hlk, if_pos hv]
    · intro opcoes
      obtain ⟨cabecalho, hcab⟩ := conteudoCSV_linhas
        (dados.map (linhaEsperada configuracoesNeutras p (todasAsColunas colunas 0))) opcoes
      exact ⟨cabecalho, hcab, by simp⟩
  · intro cabecalho linhasDados linha hlinha
    obtain ⟨arr, _, rfl⟩ := List.mem_map.1 hlinha
    refine ⟨preencherObjeto_nodup arr cabecalho 0 [] (by simp), ?_,
      fun n hn => objetoDaLinha_celula cabecalho arr n hn⟩
    intro k hk
    have hk' : k ∈ (objetoDaLinha cabecalho arr).map Prod.fst := (keys_perm _).mem_iff.1 hk
    rcases preencherObjeto_chaves arr cabecalho 0 [] k hk' with h | h
    · simp at h
    · exact h

/-- Witness of C25: the table read from the workbook `estoque.xlsx` of the store
of examples, combined with both of its columns. -/
theorem reexportar_preserva_witness :
    carregarDadosDe (exLeitura exDataValida) (fun f => "uploads/" ++ f) "estoque.xlsx"
        "estoque.xlsx"
        = Except.ok [[("id", JsVal.num 1), ("qtd", JsVal.str "")]]
      ∧ ∃ saida, combinarPlanilhas
            (carregarDadosDe (exLeitura exDataValida) (fun f => "uploads/" ++ f))
            [⟨"estoque.xlsx", "estoque.xlsx"⟩]
            (selecaoCompleta "estoque.xlsx" [JsVal.str "id", JsVal.str "qtd"])
            configuracoesNeutras = Except.ok saida
          ∧ saida.length = [[("id", JsVal.num 1), ("qtd", JsVal.str "")]].length :=
  ⟨rfl,
    let ⟨saida, h1, h2, _⟩ :=
      (reexportar_preserva (carregarDadosDe (exLeitura exDataValida) (fun f => "uploads/" ++ f))
        ⟨"estoque.xlsx", "estoque.xlsx"⟩ [JsVal.str "id", JsVal.str "qtd"]
        [[("id", JsVal.num 1), ("qtd", JsVal.str "")]] rfl (by decide) (by decide)
        (by decide)).1
    ⟨saida, h1, h2⟩⟩

/-! ## The scenario of a CSV with header `id,name,amount` -/

/-- C27: in the store whose file `vendas.csv` is the CSV with header
`id,name,amount` and the rows `1,Alice,10` and `2,Bob,20`, whenever the date
test of the engine rejects the text `Alice` or the text `Bob`: the separator
found is the comma; structure analysis succeeds and types `id` and `amount` as
`number` and `name` as `text`; combining with the selection `name`, `amount`
and no options returns exactly the rows `name: Alice, amount: 10` and
`name: Bob, amount: 20` in that order; and the CSV text of those rows with the
default options is `name,amount`, `Alice,10`, `Bob,20`, each ended by a line
feed, with no double quote in it. -/
theorem cenario_vendas (dataValida : JsVal → Bool)
    (hdata : dataValida (JsVal.str "Alice") = false ∨ dataValida (JsVal.str "Bob") = false) :
    _detectarSeparadorCSV ((exLeitura dataValida).lerTexto "uploads/vendas.csv") = ","
      ∧ (∃ estrutura,
          analisarEstrutura (exLeitura dataValida) "uploads/vendas.csv" "vendas.csv"
              = Except.ok estrutura
            ∧ estrutura.colunas.map (fun c => (c.nome, c.tipo))
              = [(JsVal.str "id", "number"), (JsVal.str "name", "text"),
                  (JsVal.str "amount", "number")])
      ∧ combinarPlanilhas (carregarDadosDe (exLeitura dataValida) (fun f => "uploads/" ++ f))
            [⟨"vendas.csv", "vendas.csv"⟩] [("vendas.csv", [⟨1, "name"⟩, ⟨2, "amount"⟩])]
            ⟨none, false, false, none⟩
          = Except.ok
              [[("name", JsVal.str "Alice"), ("amount", JsVal.str "10")],
                [("name", JsVal.str "Bob"), ("amount", JsVal.str "20")]]
      ∧ conteudoCSV
            [[("name", JsVal.str "Alice"), ("amount", JsVal.str "10")],
              [("name", JsVal.str "Bob"), ("amount", JsVal.str "20")]]
            ⟨none, none, none⟩
          = "name,amount\nAlice,10\nBob,20\n"
      ∧ Char.ofNat 34 ∉ (conteudoCSV
            [[("name", JsVal.str "Alice"), ("amount", JsVal.str "10")],
              [("name", JsVal.str "Bob"), ("amount", JsVal.str "20")]]
            ⟨none, none, none⟩).data := by
  have hsep : _detectarSeparadorCSV ((exLeitura dataValida).lerTexto "uploads/vendas.csv")
      = "," := by
    have htexto : (exLeitura dataValida).lerTexto "uploads/vendas.csv"
        = Except.ok "id,name,amount\n1,Alice,10\n2,Bob,20\n" := rfl
    rw [htexto]
    decide
  have hnome : _detectarTipoColuna dataValida exTabelaVendas.2 "name" = "text" := by
    rw [detectarTipoColuna_valores]
    have hv : valoresDaColuna exTabelaVendas.2 "name" = [JsVal.str "Alice", JsVal.str "Bob"] := by
      decide
    rw [hv]
    have hnum : ([JsVal.str "Alice", JsVal.str "Bob"].filter ehNumerico) = [] := by decide
    rw [hnum]
    have hlen : ([JsVal.str "Alice", JsVal.str "Bob"].filter dataValida).length ≤ 1 := by
      rcases hdata with h | h
      · by_cases hb : dataValida (JsVal.str "Bob") = true <;> simp [List.filter, h, hb]
      · by_cases ha : dataValida (JsVal.str "Alice") = true <;> simp [List.filter, h, ha]
    have h1 : ¬ (4 * [JsVal.str "Alice", JsVal.str "Bob"].length < 5 * ([] : List JsVal).length) := by
      decide
    rw [if_neg h1, if_neg]
    simp only [List.length_cons, List.length_nil]
    omega
  have hid : _detectarTipoColuna dataValida exTabelaVendas.2 "id" = "number" := by
    rw [detectarTipoColuna_valores]
    have hv : valoresDaColuna exTabelaVendas.2 "id" = [JsVal.str "1", JsVal.str "2"] := by decide
    rw [hv]
    have hnum : ([JsVal.str "1", JsVal.str "2"].filter ehNumerico)
        = [JsVal.str "1", JsVal.str "2"] := by decide
    rw [hnum, if_pos (by decide)]
  have hamount : _detectarTipoColuna dataValida exTabelaVendas.2 "amount" = "number" := by
    rw [detectarTipoColuna_valores]
    have hv : valoresDaColuna exTabelaVendas.2 "amount" = [JsVal.str "10", JsVal.str "20"] := by
      decide
    rw [hv]
    have hnum : ([JsVal.str "10", JsVal.str "20"].filter ehNumerico)
        = [JsVal.str "10", JsVal.str "20"] := by decide
    rw [hnum, if_pos (by decide)]
  have hlerCSV : (exLeitura dataValida).lerCSV "uploads/vendas.csv"
      (_detectarSeparadorCSV ((exLeitura dataValida).lerTexto "uploads/vendas.csv"))
      = Except.ok exTabelaVendas := by
    rw [hsep]
    rfl
  refine ⟨hsep, ?_, ?_, by decide, by decide⟩
  · have hext : minusculas (extname "vendas.csv") = ".csv" := by decide
    refine ⟨⟨descreverColunas dataValida exTabelaVendas.2
        (exTabelaVendas.1.map JsVal.str) 0, exTabelaVendas.2.take 20, "vendas.csv", ".csv"⟩,
      ?_, ?_⟩
    · unfold analisarEstrutura
      simp only [hext, true_or, if_true]
      unfold _analisarEstruturaCSV
      rw [hlerCSV]
      rfl
    · have hcols : exTabelaVendas.1.map JsVal.str
          = [JsVal.str "id", JsVal.str "name", JsVal.str "amount"] := rfl
      simp only [hcols, descreverColunas, List.map_cons, List.map_nil, textoDe, hid, hnome,
        hamount]
  · have hler : carregarDadosDe (exLeitura dataValida) (fun f => "uploads/" ++ f)
        "vendas.csv" "vendas.csv" = Except.ok exTabelaVendas.2 := by
      have hext : minusculas (extname "vendas.csv") = ".csv" := by decide
      have hcam : (fun f => "uploads/" ++ f) "vendas.csv" = "uploads/vendas.csv" := by decide
      unfold carregarDadosDe _carregarDadosCompletos
      simp only [hext, true_or, if_true, hcam]
      unfold _processarCSV
      rw [hlerCSV]
    have hcomb := combinarPlanilhas_um_arquivo
      (carregarDadosDe (exLeitura dataValida) (fun f => "uploads/" ++ f))
      [("vendas.csv", [⟨1, "name"⟩, ⟨2, "amount"⟩])] ⟨none, false, false, none⟩
      ⟨"vendas.csv", "vendas.csv"⟩ [⟨1, "name"⟩, ⟨2, "amount"⟩] exTabelaVendas.2
      (by decide) (by decide) hler
    rw [hcomb]
    rfl

/-- Witness of C27: the date test that accepts exactly the texts of the form
`YYYY-MM-DD` rejects `Alice`. -/
theorem cenario_vendas_witness :
    (exDataValida (JsVal.str "Alice") = false ∨ exDataValida (JsVal.str "Bob") = false)
      ∧ conteudoCSV
            [[("name", JsVal.str "Alice"), ("amount", JsVal.str "10")],
              [("name", JsVal.str "Bob"), ("amount", JsVal.str "20")]]
            ⟨none, none, none⟩
          = "name,amount\nAlice,10\nBob,20\n" :=
  ⟨Or.inl (by decide), (cenario_vendas exDataValida (Or.inl (by decide))).2.2.2.1⟩

/-! ## Batches: one result per file -/

theorem processarArquivos_sem_excecao (amb : AmbienteUpload) (files : List ArquivoRecebido)
    (acc : List ResultadoUpload) (n : Nat)
    (hrem : ∀ file ∈ files, amb.existe file.path = true → amb.remover file.path = Except.ok ()) :
    ∃ novos, processarArquivos amb files acc n = Except.ok (acc ++ novos)
      ∧ List.Forall₂
          (fun (file : ArquivoRecebido) (r : ResultadoUpload) =>
            r.originalName = file.originalname
              ∧ (r.temErro = true ↔
                  ∃ m, analisarPlanilha amb.leitura file.path file.originalname = Except.error m)
              ∧ ∀ m, analisarPlanilha amb.leitura file.path file.originalname = Except.error m →
                  r = ResultadoUpload.comErro file.originalname m)
          files novos := by
  induction files generalizing acc n with
  | nil => exact ⟨[], by simp [processarArquivos], List.Forall₂.nil⟩
  | cons file resto ih =>
    have hresto : ∀ f ∈ resto, amb.existe f.path = true → amb.remover f.path = Except.ok () :=
      fun f hf => hrem f (List.mem_cons_of_mem _ hf)
    cases han : analisarPlanilha amb.leitura file.path file.originalname with
    | ok planilhaData =>
      obtain ⟨novos, h1, h2⟩ := ih (acc ++
        [ResultadoUpload.processado (amb.gerarId n) file.originalname file.filename
          file.path file.size file.mimetype (amb.agora n) planilhaData]) (n + 1) hresto
      refine ⟨ResultadoUpload.processado (amb.gerarId n) file.originalname file.filename
          file.path file.size file.mimetype (amb.agora n) planilhaData :: novos, ?_,
        List.Forall₂.cons ⟨rfl, ?_, ?_⟩ h2⟩
      · simp only [processarArquivos, han]
        rw [h1]
        simp
      · rw [han]
        simp [ResultadoUpload.temErro]
      · intro m hm
        rw [han] at hm
        cases hm
    | error mensagem =>
      obtain ⟨novos, h1, h2⟩ := ih (acc ++ [ResultadoUpload.comErro file.originalname mensagem])
        n hresto
      have hprefixo : mensagem ≠ "" := by
        intro hvazia
        unfold analisarPlanilha at han
        simp only [] at han
        split at han
        · next m _ =>
          have := congrArg String.length (Except.error.inj han)
          rw [hvazia] at this
          simp only [String.length_append] at this
          have hlen : "Erro ao processar planilha: ".length = 28 := by decide
          have hzero : "".length = 0 := rfl
          omega
        · cases han
      refine ⟨ResultadoUpload.comErro file.originalname mensagem :: novos, ?_,
        List.Forall₂.cons ⟨rfl, ?_, ?_⟩ h2⟩
      · simp only [processarArquivos, han]
        by_cases hex : amb.existe file.path = true
        · rw [if_pos hex, hrem file (List.mem_cons_self _ _) hex]
          simp only []
          rw [h1]
          simp
        · rw [if_neg hex]
          simp only []
          rw [h1]
          simp
      · rw [han]
        simp [ResultadoUpload.temErro, hprefixo]
      · intro m hm
        rw [han] at hm
        cases hm
        rfl

theorem filtros_somam (l : List ResultadoUpload) :
    (l.filter (fun f => !f.temErro)).length + (l.filter (fun f => f.temErro)).length
      = l.length := by
  induction l with
  | nil => rfl
  | cons r rs ih =>
    cases h : r.temErro <;> simp [List.filter, h] <;> omega

/-- The analysis route answers a non-empty batch with one result per entry, in
the order of the entries, each computed from its own entry alone. -/
theorem rotaAnalisar_um_por_arquivo (leitura : AmbienteLeitura) (existe : String → Bool)
    (caminhoUpload : String → String) (files : List Planilha) (hne : files ≠ []) :
    rotaAnalisar leitura existe caminhoUpload files
      = RespostaAnalise.sucesso "Análise concluída"
          (files.map (analisarArquivo leitura existe caminhoUpload)) := by
  unfold rotaAnalisar
  have hlen : ¬ files.length = 0 := by
    intro h
    exact hne (List.length_eq_zero.1 h)
  rw [if_neg hlen, foldl_push_eq_append]
  simp

/-- The upload route, when no deletion of a file that failed its analysis
throws, answers a non-empty batch with one result per file, in the order of the
files: an error entry with the message of the analysis for a file whose
analysis fails, a processed entry otherwise; and the counts of its summary add
up to the number of files. -/
theorem rotaUpload_um_por_arquivo (amb : AmbienteUpload) (files : List ArquivoRecebido)
    (hne : files ≠ [])
    (hrem : ∀ file ∈ files, amb.existe file.path = true → amb.remover file.path = Except.ok ()) :
    ∃ message processedFiles,
      rotaUpload amb files
          = RespostaUpload.sucesso message processedFiles files.length
              (processedFiles.filter (fun f => !f.temErro)).length
              (processedFiles.filter (fun f => f.temErro)).length
        ∧ (processedFiles.filter (fun f => !f.temErro)).length
            + (processedFiles.filter (fun f => f.temErro)).length = files.length
        ∧ List.Forall₂
            (fun (file : ArquivoRecebido) (r : ResultadoUpload) =>
              r.originalName = file.originalname
                ∧ (r.temErro = true ↔
                    ∃ m, analisarPlanilha amb.leitura file.path file.originalname
                      = Except.error m)
                ∧ ∀ m, analisarPlanilha amb.leitura file.path file.originalname
                      = Except.error m →
                    r = ResultadoUpload.comErro file.originalname m)
            files processedFiles := by
  obtain ⟨novos, h1, h2⟩ := processarArquivos_sem_excecao amb files [] 0 hrem
  have hlen : ¬ files.length = 0 := by
    intro h
    exact hne (List.length_eq_zero.1 h)
  rw [List.nil_append] at h1
  refine ⟨toString (novos.filter (fun f => !f.temErro)).length
      ++ " arquivo(s) processado(s) com sucesso"
      ++ (if (novos.filter (fun f => f.temErro)).length > 0 then
            ", " ++ toString (novos.filter (fun f => f.temErro)).length ++ " com erro(s)"
          else ""), novos, ?_, ?_, h2⟩
  · unfold rotaUpload
    rw [if_neg hlen, h1]
  · rw [filtros_somam, h2.length_eq]

/-- C26 at a batch of two uploads, a workbook without rows followed by a CSV,
all stored: when the deletion of the first file throws, the upload route
leaves its loop, the cleanup throws again and no answer is sent, so neither
file gets a result; when the deletion succeeds, the same batch is answered with
an error entry for the first file and a processed entry for the second, with
the summary 2 = 1 + 1; and the analysis route answers the same two files with
one result each. -/
theorem rotaUpload_remocao_falha :
    rotaUpload (exUpload (fun _ => Except.error "EPERM: operation not permitted, unlink"))
        exLote
      = RespostaUpload.semResposta "EPERM: operation not permitted, unlink"
    ∧ processarArquivos
          (exUpload (fun _ => Except.error "EPERM: operation not permitted, unlink"))
          exLote [] 0
        = Except.error "EPERM: operation not permitted, unlink"
    ∧ (∃ planilhaData,
        analisarPlanilha (exLeitura exDataValida) "uploads/vendas.csv" "vendas.csv"
            = Except.ok planilhaData
          ∧ rotaUpload (exUpload (fun _ => Except.ok ())) exLote
            = RespostaUpload.sucesso "1 arquivo(s) processado(s) com sucesso, 1 com erro(s)"
                [ResultadoUpload.comErro "vazia.xlsx" "Erro ao processar planilha: Planilha vazia",
                  ResultadoUpload.processado "id-0" "vendas.csv" "vendas.csv"
                    "uploads/vendas.csv" 37 "text/csv" "2026-01-02T03:04:05.678Z" planilhaData]
                2 1 1)
    ∧ ∃ analise,
        rotaAnalisar (exLeitura exDataValida) (fun _ => true) (fun f => "uploads/" ++ f)
            [⟨"vazia.xlsx", "vazia.xlsx"⟩, ⟨"vendas.csv", "vendas.csv"⟩]
          = RespostaAnalise.sucesso "Análise concluída"
              [ResultadoAnalise.comErro "vazia.xlsx" "vazia.xlsx"
                  "Erro na análise da estrutura: Planilha vazia",
                ResultadoAnalise.analisado "vendas.csv" "vendas.csv" analise] := by
  exact ⟨rfl, rfl, ⟨_, rfl, rfl⟩, ⟨_, rfl⟩⟩

end SistemaTeste
